import Mathlib

/-!
GtkConstraintGuide: the guide-to-solver integration

A shallow embedding of `gtk/gtkconstraintguide.c`.  The guide structure and every
function of that file are translated one to one.  The collaborators whose code
lives in other files (the constraint solver, the layout and its variable binder,
the GObject property machinery) are modelled separately and marked as such.

Pointers are `Option`s (`none` is `NULL`); objects living on the heap and shared
between guides (the solver a layout owns) live in a `World` that every operation
threads through; `int` values are `Int`s.
-/

namespace Gtk

/-! ## Enumerations -/

/-- The six value slots of a guide, `enum GuideValue` without its end marker. -/
inductive GuideValue where
  | MIN_WIDTH
  | MIN_HEIGHT
  | NAT_WIDTH
  | NAT_HEIGHT
  | MAX_WIDTH
  | MAX_HEIGHT
  deriving DecidableEq, Repr

/-- The end marker of `enum GuideValue`: the number of slots. -/
def LAST_VALUE : Nat := 6

/-- The integer value of a slot. -/
def GuideValue.toNat : GuideValue → Nat
  | .MIN_WIDTH => 0
  | .MIN_HEIGHT => 1
  | .NAT_WIDTH => 2
  | .NAT_HEIGHT => 3
  | .MAX_WIDTH => 4
  | .MAX_HEIGHT => 5

/-- The slot of an integer, when it is below `LAST_VALUE`. -/
def GuideValue.of_index : Nat → Option GuideValue
  | 0 => some .MIN_WIDTH
  | 1 => some .MIN_HEIGHT
  | 2 => some .NAT_WIDTH
  | 3 => some .NAT_HEIGHT
  | 4 => some .MAX_WIDTH
  | 5 => some .MAX_HEIGHT
  | _ => none

/-- The slots visited by `for (i = 0; i < LAST_VALUE; i++)`, in that order. -/
def GuideValue.all : List GuideValue :=
  (List.range LAST_VALUE).filterMap GuideValue.of_index

def PROP_MIN_WIDTH : Nat := 1
def PROP_MIN_HEIGHT : Nat := 2
def PROP_NAT_WIDTH : Nat := 3
def PROP_NAT_HEIGHT : Nat := 4
def PROP_MAX_WIDTH : Nat := 5
def PROP_MAX_HEIGHT : Nat := 6
def LAST_PROP : Nat := 7

/-- Modelled from the spec: `GtkConstraintAttribute` is declared in a header outside
the sources at hand; the spec names the attribute kinds `{Width, Height, ...}`, and
the remaining members follow the public enumeration. -/
inductive GtkConstraintAttribute where
  | NONE
  | LEFT
  | RIGHT
  | TOP
  | BOTTOM
  | START
  | END
  | WIDTH
  | HEIGHT
  | CENTER_X
  | CENTER_Y
  | BASELINE
  deriving DecidableEq, Repr

/-- Modelled from the spec: `GtkConstraintRelation` is declared in a header outside
the sources at hand; the spec gives `relation ∈ {GE, EQ, LE}`. -/
inductive GtkConstraintRelation where
  | LE
  | EQ
  | GE
  deriving DecidableEq, Repr

/-- Modelled from the spec: the `GTK_CONSTRAINT_WEIGHT_*` constants are defined in
the solver's private header; the spec names the weights `Required` and `Medium`
(the solver also knows `Strong` and `Weak`).  They are kept symbolic. -/
inductive GtkConstraintWeight where
  | REQUIRED
  | STRONG
  | MEDIUM
  | WEAK
  deriving DecidableEq, Repr

/-- The largest `int`, `G_MAXINT`. -/
def G_MAXINT : Int := 2147483647

/-! ## The collaborators: expression, variable, solver, layout -/

/-- Modelled from the spec: `gtk_constraint_expression_new (constant)` builds "a
linear expression equal to the constant"; an expression without terms is its
constant. -/
structure GtkConstraintExpression where
  constant : Int
  deriving DecidableEq, Repr

/-- Modelled from the spec: the constructor of a constant expression. -/
def gtk_constraint_expression_new (constant : Int) : GtkConstraintExpression :=
  ⟨constant⟩

/-- Modelled from the spec: a solver `Variable`, "a named scalar unknown tracked by
the solver, bound to a layout attribute (width/height) of some anchor".  The `id`
is the identity of the instance. -/
structure GtkConstraintVariable where
  id : Nat
  anchor : String
  attr : GtkConstraintAttribute
  deriving DecidableEq, Repr

/-- Modelled from the spec: what a constraint handle denotes inside the solver,
`variable <relation> expression` with a weight.  `ref` is the identity of the
handle (`GtkConstraintRef *`). -/
structure GtkConstraint where
  ref : Nat
  var : Option GtkConstraintVariable
  relation : GtkConstraintRelation
  expression : GtkConstraintExpression
  weight : GtkConstraintWeight
  deriving DecidableEq, Repr

/-- Modelled from the spec: the constraint solver, which "maintains a system of
linear constraints over named variables and can add/remove constraints".  The
registered constraints are kept in the order they were added; `next_ref` and
`n_variables` count the handles and the variables handed out so far. -/
structure GtkConstraintSolver where
  constraints : List GtkConstraint
  next_ref : Nat
  n_variables : Nat
  deriving DecidableEq, Repr

/-- Modelled from the spec: the handle the next `add_constraint` returns.  It is
larger than every handle handed out so far and than every handle registered. -/
def GtkConstraintSolver.fresh_ref (s : GtkConstraintSolver) : Nat :=
  (s.constraints.map (fun c => c.ref + 1)).foldr max s.next_ref

/-- Modelled from the spec: `add_constraint(variable, relation, expression, weight)
-> constraint_handle` on the solver's own state. -/
def GtkConstraintSolver.add (s : GtkConstraintSolver)
    (var : Option GtkConstraintVariable) (relation : GtkConstraintRelation)
    (expression : GtkConstraintExpression) (weight : GtkConstraintWeight) :
    GtkConstraintSolver :=
  { s with
    constraints := s.constraints ++ [⟨s.fresh_ref, var, relation, expression, weight⟩]
    next_ref := s.fresh_ref + 1 }

/-- Modelled from the spec: `remove_constraint(constraint_handle)` on the solver's
own state; a handle that is not registered removes nothing.  The solver keeps the
mark of the handles handed out, so that a removed handle is not handed out again. -/
def GtkConstraintSolver.remove (s : GtkConstraintSolver) (ref : Nat) :
    GtkConstraintSolver :=
  { s with
    constraints := s.constraints.filter (fun c => c.ref ≠ ref)
    next_ref := s.fresh_ref }

/-- The handles registered in a solver. -/
def GtkConstraintSolver.refs (s : GtkConstraintSolver) : List Nat :=
  s.constraints.map (fun c => c.ref)

/-- A call made to a collaborator, recorded in the order it happens. -/
inductive Call where
  | remove_constraint (solver : Nat) (constraint : Option Nat)
  | add_constraint (solver : Nat) (constraint : Nat)
  | get_attribute (layout : Option Nat) (attr : GtkConstraintAttribute) (anchor : String)
      (widget : Option Nat)
  | create_variable (solver : Nat) (var : GtkConstraintVariable)
  | notify (prop_id : Nat)
  deriving DecidableEq, Repr

/-- The heap around a guide.  A layout is named by a number; `solvers layout` is
the solver that layout owns (`none` while it exposes none), `widgets layout` the
widget the layout manages, `log` the calls made so far. -/
structure World where
  solvers : Nat → Option GtkConstraintSolver
  widgets : Nat → Option Nat
  log : List Call

/-- Record a call. -/
def World.emit (w : World) (c : Call) : World :=
  { w with log := w.log ++ [c] }

/-- Store the new state of the solver of a layout. -/
def World.set_solver (w : World) (layout : Nat) (s : GtkConstraintSolver) : World :=
  { w with solvers := Function.update w.solvers layout (some s) }

/-- Modelled from the spec: the Layout "supplies `get_solver() -> Optional<Solver>`;
may return none if not yet realized".  The solver pointer is named by the layout
that owns it. -/
def gtk_constraint_layout_get_solver (w : World) (layout : Nat) : Option Nat :=
  match w.solvers layout with
  | some _ => some layout
  | none => none

/-- Modelled from the spec: `gtk_constraint_solver_remove_constraint`, defined in
the solver's file.  A `NULL` handle fails the solver's argument check and removes
nothing. -/
def gtk_constraint_solver_remove_constraint (w : World) (solver : Nat)
    (constraint : Option Nat) : World :=
  let w1 := w.emit (Call.remove_constraint solver constraint)
  match w1.solvers solver, constraint with
  | some s, some ref => w1.set_solver solver (s.remove ref)
  | _, _ => w1

/-- Modelled from the spec: `gtk_constraint_solver_add_constraint`, defined in the
solver's file: registers `var <relation> expression` with the weight and
returns the new handle. -/
def gtk_constraint_solver_add_constraint (w : World) (solver : Nat)
    (var : Option GtkConstraintVariable) (relation : GtkConstraintRelation)
    (expression : GtkConstraintExpression) (weight : GtkConstraintWeight) :
    World × Option Nat :=
  match w.solvers solver with
  | none => (w, none)
  | some s =>
    ((w.set_solver solver (s.add var relation expression weight)).emit
        (Call.add_constraint solver s.fresh_ref),
      some s.fresh_ref)

/-- Modelled from the spec: the Variable Binder `gtk_constraint_layout_get_attribute`,
defined in the layout's file: "given a layout-attribute kind and an owning object,
returns a solver variable, creating and caching it on first use.  Cache keyed by
attribute name".  The cache is the guide's `bound_attributes`; the attribute name
is determined by the attribute, which is used as the key.  The layout is the pointer
the caller passes, `none` for `NULL`: a cached variable is answered whatever the
layout, and a `NULL` layout has no solver to create a variable in. -/
def gtk_constraint_layout_get_attribute (w : World) (layout : Option Nat)
    (attr : GtkConstraintAttribute) (anchor : String) (widget : Option Nat)
    (bound_attributes : List (GtkConstraintAttribute × GtkConstraintVariable)) :
    World × List (GtkConstraintAttribute × GtkConstraintVariable) ×
      Option GtkConstraintVariable :=
  let w1 := w.emit (Call.get_attribute layout attr anchor widget)
  match bound_attributes.lookup attr with
  | some res => (w1, bound_attributes, some res)
  | none =>
    match layout with
    | none => (w1, bound_attributes, none)
    | some l =>
      match w1.solvers l with
      | none => (w1, bound_attributes, none)
      | some s =>
        ((w1.set_solver l { s with n_variables := s.n_variables + 1 }).emit
            (Call.create_variable l ⟨s.n_variables, anchor, attr⟩),
          (attr, ⟨s.n_variables, anchor, attr⟩) :: bound_attributes,
          some ⟨s.n_variables, anchor, attr⟩)

/-- Modelled from the spec: `gtk_layout_manager_get_widget`, defined in the layout
manager's file: the widget a layout manages, `NULL` for no layout. -/
def gtk_layout_manager_get_widget (w : World) (manager : Option Nat) : Option Nat :=
  match manager with
  | none => none
  | some layout => w.widgets layout

/-! ## The guide -/

/-- The instance structure `struct _GtkConstraintGuide`. -/
structure GtkConstraintGuide where
  values : GuideValue → Int
  layout : Option Nat
  bound_attributes : List (GtkConstraintAttribute × GtkConstraintVariable)
  constraints : GuideValue → Option Nat

/-- The table `attr` of `gtk_constraint_guide_update_constraint`. -/
def attr : GuideValue → GtkConstraintAttribute
  | .MIN_WIDTH => .WIDTH
  | .MIN_HEIGHT => .HEIGHT
  | .NAT_WIDTH => .WIDTH
  | .NAT_HEIGHT => .HEIGHT
  | .MAX_WIDTH => .WIDTH
  | .MAX_HEIGHT => .HEIGHT

/-- The table `relation` of `gtk_constraint_guide_update_constraint`. -/
def relation : GuideValue → GtkConstraintRelation
  | .MIN_WIDTH => .GE
  | .MIN_HEIGHT => .GE
  | .NAT_WIDTH => .EQ
  | .NAT_HEIGHT => .EQ
  | .MAX_WIDTH => .LE
  | .MAX_HEIGHT => .LE

/-- The table `weight` of `gtk_constraint_guide_update_constraint`. -/
def weight : GuideValue → GtkConstraintWeight
  | .MIN_WIDTH => .REQUIRED
  | .MIN_HEIGHT => .REQUIRED
  | .NAT_WIDTH => .MEDIUM
  | .NAT_HEIGHT => .MEDIUM
  | .MAX_WIDTH => .REQUIRED
  | .MAX_HEIGHT => .REQUIRED

/-- The instance initialiser `gtk_constraint_guide_init`: it creates the empty hash
table `bound_attributes` and assigns nothing else. -/
def gtk_constraint_guide_init (guide : GtkConstraintGuide) : GtkConstraintGuide :=
  { guide with bound_attributes := [] }

/-- The function `gtk_constraint_guide_update_constraint`. -/
def gtk_constraint_guide_update_constraint (w : World) (guide : GtkConstraintGuide)
    (index : GuideValue) : World × GtkConstraintGuide :=
  match guide.layout with
  | none => (w, guide)
  | some layout =>
    match gtk_constraint_layout_get_solver w layout with
    | none => (w, guide)
    | some solver =>
      let w1 :=
        if guide.constraints index ≠ none then
          gtk_constraint_solver_remove_constraint w solver (guide.constraints index)
        else w
      let r := gtk_constraint_layout_get_attribute w1 (some layout) (attr index) "guide" none
        guide.bound_attributes
      let a := gtk_constraint_solver_add_constraint r.1 solver r.2.2 (relation index)
        (gtk_constraint_expression_new (guide.values index)) (weight index)
      (a.1, { guide with
                bound_attributes := r.2.1
                constraints := Function.update guide.constraints index a.2 })

/-- The function `gtk_constraint_guide_update`: all six slots, in order. -/
def gtk_constraint_guide_update (w : World) (guide : GtkConstraintGuide) :
    World × GtkConstraintGuide :=
  GuideValue.all.foldl (fun st i => gtk_constraint_guide_update_constraint st.1 st.2 i)
    (w, guide)

/-- The function `gtk_constraint_guide_detach`. -/
def gtk_constraint_guide_detach (w : World) (guide : GtkConstraintGuide) :
    World × GtkConstraintGuide :=
  match guide.layout with
  | none => (w, guide)
  | some layout =>
    match gtk_constraint_layout_get_solver w layout with
    | none => (w, guide)
    | some solver =>
      let st := GuideValue.all.foldl
        (fun (st : World × GtkConstraintGuide) i =>
          (gtk_constraint_solver_remove_constraint st.1 solver (st.2.constraints i),
            { st.2 with constraints := Function.update st.2.constraints i none }))
        (w, guide)
      (st.1, { st.2 with bound_attributes := [] })

/-- The function `gtk_constraint_guide_get_attribute`: `guide->layout` is passed on as
it is, `NULL` or not, to `gtk_layout_manager_get_widget` and to the binder. -/
def gtk_constraint_guide_get_attribute (w : World) (guide : GtkConstraintGuide)
    (attr : GtkConstraintAttribute) :
    World × GtkConstraintGuide × Option GtkConstraintVariable :=
  let manager := guide.layout
  let widget := gtk_layout_manager_get_widget w manager
  let r := gtk_constraint_layout_get_attribute w guide.layout attr "guide" widget
    guide.bound_attributes
  (r.1, { guide with bound_attributes := r.2.1 }, r.2.2)

/-- The function `gtk_constraint_guide_get_layout`. -/
def gtk_constraint_guide_get_layout (guide : GtkConstraintGuide) : Option Nat :=
  guide.layout

/-- The function `gtk_constraint_guide_set_layout`. -/
def gtk_constraint_guide_set_layout (guide : GtkConstraintGuide) (layout : Option Nat) :
    GtkConstraintGuide :=
  { guide with layout := layout }

/-- The slot of a property id, `index = prop_id - 1` under the six case labels of the
property switch; `none` stands for the `default:` label. -/
def GuideValue.of_prop_id (prop_id : Nat) : Option GuideValue :=
  if PROP_MIN_WIDTH ≤ prop_id ∧ prop_id ≤ PROP_MAX_HEIGHT then GuideValue.of_index (prop_id - 1)
  else none

/-- The function `gtk_constraint_guide_set_property`, `val` being the `int` held by
the `GValue`. -/
def gtk_constraint_guide_set_property (w : World) (self : GtkConstraintGuide)
    (prop_id : Nat) (val : Int) : World × GtkConstraintGuide :=
  match GuideValue.of_prop_id prop_id with
  | some index =>
    if self.values index ≠ val then
      gtk_constraint_guide_update_constraint (w.emit (Call.notify prop_id))
        { self with values := Function.update self.values index val } index
    else (w, self)
  | none => (w, self)

/-- The function `gtk_constraint_guide_get_property`; `none` stands for the
`default:` label, which leaves the `GValue` unset. -/
def gtk_constraint_guide_get_property (self : GtkConstraintGuide) (prop_id : Nat) :
    Option Int :=
  match GuideValue.of_prop_id prop_id with
  | some index => some (self.values index)
  | none => none

/-- An integer property specification, the arguments of `g_param_spec_int`. -/
structure GParamSpecInt where
  name : String
  minimum : Int
  maximum : Int
  default_value : Int
  construct : Bool
  deriving DecidableEq, Repr

/-- The table `guide_props` as `gtk_constraint_guide_class_init` fills it.  The flags
are `G_PARAM_READWRITE | G_PARAM_EXPLICIT_NOTIFY` for all six: none is a construct
property. -/
def guide_props (prop_id : Nat) : Option GParamSpecInt :=
  match prop_id with
  | 1 => some ⟨"min-width", 0, G_MAXINT, 0, false⟩
  | 2 => some ⟨"min-height", 0, G_MAXINT, 0, false⟩
  | 3 => some ⟨"nat-width", 0, G_MAXINT, 0, false⟩
  | 4 => some ⟨"nat-height", 0, G_MAXINT, 0, false⟩
  | 5 => some ⟨"max-width", 0, G_MAXINT, G_MAXINT, false⟩
  | 6 => some ⟨"max-height", 0, G_MAXINT, G_MAXINT, false⟩
  | _ => none

/-- GObject: the id of the installed property with the given name. -/
def g_object_class_find_property (property_name : String) : Option Nat :=
  (List.range LAST_PROP).find? (fun prop_id =>
    match guide_props prop_id with
    | some pspec => pspec.name == property_name
    | none => false)

/-- GObject: `g_object_set (guide, name, value, NULL)` looks the property up,
validates the value against the range of its specification and, when it is in
range, hands it to the class's `set_property`; an unknown name or a value out of
range is warned about and nothing is set. -/
def g_object_set (w : World) (guide : GtkConstraintGuide) (property_name : String)
    (value : Int) : World × GtkConstraintGuide :=
  match g_object_class_find_property property_name with
  | none => (w, guide)
  | some prop_id =>
    match guide_props prop_id with
    | none => (w, guide)
    | some pspec =>
      if pspec.minimum ≤ value ∧ value ≤ pspec.maximum then
        gtk_constraint_guide_set_property w guide prop_id value
      else (w, guide)

/-- GObject: the instance memory `g_object_new` hands to the instance initialiser is
zero-filled. -/
def g_type_create_instance : GtkConstraintGuide :=
  { values := fun _ => 0, layout := none, bound_attributes := [], constraints := fun _ => none }

/-- GObject: `g_object_new (type, NULL)` runs the instance initialiser on the
zero-filled instance and then sets the construct properties to their defaults;
a property that is not a construct property is not touched. -/
def g_object_new : GtkConstraintGuide :=
  ((List.range LAST_PROP).foldl
    (fun (st : World × GtkConstraintGuide) prop_id =>
      match guide_props prop_id with
      | some pspec =>
        if pspec.construct then
          gtk_constraint_guide_set_property st.1 st.2 prop_id pspec.default_value
        else st
      | none => st)
    (⟨fun _ => none, fun _ => none, []⟩, gtk_constraint_guide_init g_type_create_instance)).2

/-- The function `gtk_constraint_guide_new`. -/
def gtk_constraint_guide_new : GtkConstraintGuide :=
  g_object_new

/-- GObject: `g_object_freeze_notify` holds back the delivery of notifications; it
changes neither the guide nor the solver. -/
def g_object_freeze_notify (w : World) : World := w

/-- GObject: `g_object_thaw_notify` delivers the notifications held back. -/
def g_object_thaw_notify (w : World) : World := w

/-- The function `gtk_constraint_guide_set_min_size`; a failed `g_return_if_fail`
returns at once. -/
def gtk_constraint_guide_set_min_size (w : World) (guide : GtkConstraintGuide)
    (width height : Int) : World × GtkConstraintGuide :=
  if ¬ (width ≥ -1) then (w, guide)
  else if ¬ (height ≥ -1) then (w, guide)
  else
    let w0 := g_object_freeze_notify w
    let s1 := if width ≠ -1 then g_object_set w0 guide "min-width" width else (w0, guide)
    let s2 := if height ≠ -1 then g_object_set s1.1 s1.2 "min-height" height else s1
    (g_object_thaw_notify s2.1, s2.2)

/-- The function `gtk_constraint_guide_get_min_size`, both return locations given.
The first component is the guide after the call. -/
def gtk_constraint_guide_get_min_size (guide : GtkConstraintGuide) :
    GtkConstraintGuide × Int × Int :=
  (guide, guide.values .MIN_WIDTH, guide.values .MIN_HEIGHT)

/-- The function `gtk_constraint_guide_set_nat_size`. -/
def gtk_constraint_guide_set_nat_size (w : World) (guide : GtkConstraintGuide)
    (width height : Int) : World × GtkConstraintGuide :=
  if ¬ (width ≥ -1) then (w, guide)
  else if ¬ (height ≥ -1) then (w, guide)
  else
    let w0 := g_object_freeze_notify w
    let s1 := if width ≠ -1 then g_object_set w0 guide "nat-width" width else (w0, guide)
    let s2 := if height ≠ -1 then g_object_set s1.1 s1.2 "nat-height" height else s1
    (g_object_thaw_notify s2.1, s2.2)

/-- The function `gtk_constraint_guide_get_nat_size`, both return locations given. -/
def gtk_constraint_guide_get_nat_size (guide : GtkConstraintGuide) :
    GtkConstraintGuide × Int × Int :=
  (guide, guide.values .NAT_WIDTH, guide.values .NAT_HEIGHT)

/-- The function `gtk_constraint_guide_set_max_size`. -/
def gtk_constraint_guide_set_max_size (w : World) (guide : GtkConstraintGuide)
    (width height : Int) : World × GtkConstraintGuide :=
  if ¬ (width ≥ -1) then (w, guide)
  else if ¬ (height ≥ -1) then (w, guide)
  else
    let w0 := g_object_freeze_notify w
    let s1 := if width ≠ -1 then g_object_set w0 guide "max-width" width else (w0, guide)
    let s2 := if height ≠ -1 then g_object_set s1.1 s1.2 "max-height" height else s1
    (g_object_thaw_notify s2.1, s2.2)

/-- The function `gtk_constraint_guide_get_max_size`, both return locations given. -/
def gtk_constraint_guide_get_max_size (guide : GtkConstraintGuide) :
    GtkConstraintGuide × Int × Int :=
  (guide, guide.values .MAX_WIDTH, guide.values .MAX_HEIGHT)

/-! ## One synchronisation step, seen from the solver of the guide's layout -/

/-- The solver once the handle a slot holds, if any, is removed. -/
def sync_removed (s : GtkConstraintSolver) (c : Option Nat) : GtkConstraintSolver :=
  match c with
  | some r => s.remove r
  | none => s

/-- The variable the binder answers with for an attribute, given the cache. -/
def bind_var (cache : List (GtkConstraintAttribute × GtkConstraintVariable))
    (s : GtkConstraintSolver) (a : GtkConstraintAttribute) (anchor : String) :
    GtkConstraintVariable :=
  match cache.lookup a with
  | some v => v
  | none => ⟨s.n_variables, anchor, a⟩

/-- The cache once the binder has answered. -/
def bind_cache (cache : List (GtkConstraintAttribute × GtkConstraintVariable))
    (s : GtkConstraintSolver) (a : GtkConstraintAttribute) (anchor : String) :
    List (GtkConstraintAttribute × GtkConstraintVariable) :=
  match cache.lookup a with
  | some _ => cache
  | none => (a, ⟨s.n_variables, anchor, a⟩) :: cache

/-- The solver once the binder has answered. -/
def bind_solver (cache : List (GtkConstraintAttribute × GtkConstraintVariable))
    (s : GtkConstraintSolver) (a : GtkConstraintAttribute) : GtkConstraintSolver :=
  match cache.lookup a with
  | some _ => s
  | none => { s with n_variables := s.n_variables + 1 }

/-- The calls the binder gives rise to. -/
def bind_log (cache : List (GtkConstraintAttribute × GtkConstraintVariable))
    (s : GtkConstraintSolver) (l : Nat) (a : GtkConstraintAttribute) (anchor : String)
    (widget : Option Nat) : List Call :=
  match cache.lookup a with
  | some _ => [Call.get_attribute (some l) a anchor widget]
  | none => [Call.get_attribute (some l) a anchor widget,
      Call.create_variable l ⟨s.n_variables, anchor, a⟩]

/-- The solver after slot `i` of guide `g` is synchronised against solver `s`. -/
def sync_solver (s : GtkConstraintSolver) (g : GtkConstraintGuide) (i : GuideValue) :
    GtkConstraintSolver :=
  (bind_solver g.bound_attributes (sync_removed s (g.constraints i)) (attr i)).add
    (some (bind_var g.bound_attributes (sync_removed s (g.constraints i)) (attr i) "guide"))
    (relation i) (gtk_constraint_expression_new (g.values i)) (weight i)

/-- The guide after slot `i` is synchronised against solver `s`. -/
def sync_guide (s : GtkConstraintSolver) (g : GtkConstraintGuide) (i : GuideValue) :
    GtkConstraintGuide :=
  { g with
    bound_attributes :=
      bind_cache g.bound_attributes (sync_removed s (g.constraints i)) (attr i) "guide"
    constraints := Function.update g.constraints i (some s.fresh_ref) }

/-- The calls made while slot `i` is synchronised. -/
def sync_log (l : Nat) (s : GtkConstraintSolver) (g : GtkConstraintGuide) (i : GuideValue) :
    List Call :=
  (match g.constraints i with
    | some r => [Call.remove_constraint l (some r)]
    | none => []) ++
  bind_log g.bound_attributes (sync_removed s (g.constraints i)) l (attr i) "guide" none ++
  [Call.add_constraint l s.fresh_ref]

/-- One synchronisation step on the solver, the guide and the calls made so far. -/
def sync (l : Nat) (st : GtkConstraintSolver × GtkConstraintGuide × List Call)
    (i : GuideValue) : GtkConstraintSolver × GtkConstraintGuide × List Call :=
  (sync_solver st.1 st.2.1 i, sync_guide st.1 st.2.1 i, st.2.2 ++ sync_log l st.1 st.2.1 i)

/-- One step of the loop of `gtk_constraint_guide_detach` on the solver, the guide and
the calls made so far. -/
def detach_step (l : Nat) (st : GtkConstraintSolver × GtkConstraintGuide × List Call)
    (i : GuideValue) : GtkConstraintSolver × GtkConstraintGuide × List Call :=
  (sync_removed st.1 (st.2.1.constraints i),
    { st.2.1 with constraints := Function.update st.2.1.constraints i none },
    st.2.2 ++ [Call.remove_constraint l (st.2.1.constraints i)])

/-- The non-null handles a guide holds, in slot order. -/
def held_refs (g : GtkConstraintGuide) : List Nat :=
  GuideValue.all.filterMap g.constraints

/-! ## Example states -/

/-- An example world: layout 0 owns a solver that already holds one constraint of the
layout's own, layout 1 exposes no solver. -/
def example_world : World :=
  { solvers := fun l =>
      if l = 0 then some ⟨[⟨0, some ⟨0, "super", .WIDTH⟩, .EQ, ⟨7⟩, .STRONG⟩], 1, 1⟩ else none
    widgets := fun _ => none
    log := [] }

/-- The solver of layout 0 in the example world. -/
def example_solver : GtkConstraintSolver :=
  ⟨[⟨0, some ⟨0, "super", .WIDTH⟩, .EQ, ⟨7⟩, .STRONG⟩], 1, 1⟩

/-- An example guide: minimum 10x20, natural 50x60, maximum 100x200, attached to
layout 0, holding no constraint. -/
def example_guide : GtkConstraintGuide :=
  { values := fun i =>
      match i with
      | .MIN_WIDTH => 10
      | .MIN_HEIGHT => 20
      | .NAT_WIDTH => 50
      | .NAT_HEIGHT => 60
      | .MAX_WIDTH => 100
      | .MAX_HEIGHT => 200
    layout := some 0
    bound_attributes := []
    constraints := fun _ => none }

/-- A world in which layout 0 owns a solver that holds nothing yet. -/
def empty_world : World :=
  { solvers := fun l => if l = 0 then some ⟨[], 0, 0⟩ else none
    widgets := fun _ => none
    log := [] }

/-- The world and the guide reached from a fresh guide by set_layout(layout 0); update;
set_layout(NULL): the guide is no longer attached, but still holds the six handles of
the constraints it registered in the solver of layout 0. -/
def stale_state : World × GtkConstraintGuide :=
  ((gtk_constraint_guide_update empty_world
      (gtk_constraint_guide_set_layout gtk_constraint_guide_new (some 0))).1,
    gtk_constraint_guide_set_layout
      (gtk_constraint_guide_update empty_world
        (gtk_constraint_guide_set_layout gtk_constraint_guide_new (some 0))).2 none)

/-- The world and the guide reached from the example state by update: the guide is
attached to layout 0 and holds the six handles of its constraints. -/
def updated_state : World × GtkConstraintGuide :=
  gtk_constraint_guide_update example_world example_guide

/-- The solver of layout 0 in `updated_state`. -/
def updated_solver : GtkConstraintSolver :=
  (updated_state.1.solvers 0).getD ⟨[], 0, 0⟩

/-! ## Predicates used to state the claims -/

/-- Guide `g'` differs from guide `g` at most in slot `i`: slot `i` holds the value `v`,
and every other slot has the value and the constraint handle it has in `g`. -/
def changes_only_slot (g g' : GtkConstraintGuide) (i : GuideValue) (v : Int) : Prop :=
  g'.values i = v ∧ ∀ j, j ≠ i → g'.values j = g.values j ∧ g'.constraints j = g.constraints j

/-! ## Sequences of operations -/

/-- The sequence attach; update on layout `l`. -/
def attach_update (w : World) (g : GtkConstraintGuide) (l : Nat) :
    World × GtkConstraintGuide :=
  gtk_constraint_guide_update w (gtk_constraint_guide_set_layout g (some l))

/-- The sequence attach; update; detach on layout `l`. -/
def attach_update_detach (w : World) (g : GtkConstraintGuide) (l : Nat) :
    World × GtkConstraintGuide :=
  gtk_constraint_guide_detach (attach_update w g l).1 (attach_update w g l).2

/-- The sequence attach; update; detach; attach; update on layout `l`. -/
def reattach_update (w : World) (g : GtkConstraintGuide) (l : Nat) :
    World × GtkConstraintGuide :=
  attach_update (attach_update_detach w g l).1 (attach_update_detach w g l).2 l

/-! ## Operations on a guide and runs of operations -/

/-- The operations of the file that act on a guide. -/
inductive Op where
  | set_layout (layout : Option Nat)
  | update
  | detach
  | set_min_size (width height : Int)
  | set_nat_size (width height : Int)
  | set_max_size (width height : Int)
  | get_attribute (attr : GtkConstraintAttribute)
  deriving DecidableEq, Repr

/-- The state after an operation. -/
def Op.apply (st : World × GtkConstraintGuide) : Op → World × GtkConstraintGuide
  | .set_layout layout => (st.1, gtk_constraint_guide_set_layout st.2 layout)
  | .update => gtk_constraint_guide_update st.1 st.2
  | .detach => gtk_constraint_guide_detach st.1 st.2
  | .set_min_size width height => gtk_constraint_guide_set_min_size st.1 st.2 width height
  | .set_nat_size width height => gtk_constraint_guide_set_nat_size st.1 st.2 width height
  | .set_max_size width height => gtk_constraint_guide_set_max_size st.1 st.2 width height
  | .get_attribute attr =>
    ((gtk_constraint_guide_get_attribute st.1 st.2 attr).1,
      (gtk_constraint_guide_get_attribute st.1 st.2 attr).2.1)

/-- The state after a sequence of operations. -/
def run (st : World × GtkConstraintGuide) (ops : List Op) : World × GtkConstraintGuide :=
  ops.foldl Op.apply st

/-- The operation is one of set_min_size, set_nat_size, set_max_size. -/
def Op.is_setter : Op → Bool
  | .set_min_size _ _ => true
  | .set_nat_size _ _ => true
  | .set_max_size _ _ => true
  | _ => false

/-- The operation is set_layout. -/
def Op.is_set_layout : Op → Bool
  | .set_layout _ => true
  | _ => false

/-- The operation is update. -/
def Op.is_update : Op → Bool
  | .update => true
  | _ => false

/-- The operation is detach. -/
def Op.is_detach : Op → Bool
  | .detach => true
  | _ => false

/-- The operation is gtk_constraint_guide_get_attribute. -/
def Op.is_get_attribute : Op → Bool
  | .get_attribute _ => true
  | _ => false

/-- The guide has no layout, or its layout exposes no solver. -/
def no_solver (w : World) (g : GtkConstraintGuide) : Prop :=
  ∀ l, g.layout = some l → w.solvers l = none

/-- Every set_layout of the run is applied to a guide that holds no constraint. -/
def attaches_clean : World × GtkConstraintGuide → List Op → Prop
  | _, [] => True
  | st, op :: ops =>
    (op.is_set_layout = true → ∀ i, st.2.constraints i = none) ∧
      attaches_clean (op.apply st) ops

/-- The non-null handles passed to the solver's remove_constraint in a list of calls,
in the order of the calls. -/
def removed_refs (calls : List Call) : List Nat :=
  calls.filterMap (fun c =>
    match c with
    | .remove_constraint _ (some r) => some r
    | _ => none)

/-- The constraint that the handle in slot `i` of the guide denotes in the solver of
the guide's layout. -/
def slot_constraint (w : World) (g : GtkConstraintGuide) (i : GuideValue) :
    Option GtkConstraint :=
  match g.layout, g.constraints i with
  | some l, some r =>
    match w.solvers l with
    | some s => s.constraints.find? (fun c => c.ref = r)
    | none => none
  | _, _ => none

/-- A sequence of calls of the class's `set_property`, each with a property id and a
value. -/
def set_properties (st : World × GtkConstraintGuide) (ps : List (Nat × Int)) :
    World × GtkConstraintGuide :=
  ps.foldl (fun st pv => gtk_constraint_guide_set_property st.1 st.2 pv.1 pv.2) st

/-- The property id is one of the six size properties and the value is in the range of
its specification. -/
def valid_property_value (pv : Nat × Int) : Prop :=
  (∃ i, GuideValue.of_prop_id pv.1 = some i) ∧ 0 ≤ pv.2 ∧ pv.2 ≤ G_MAXINT

/-- Each of the six stored values lies in `[0, G_MAXINT]`. -/
def values_in_range (g : GtkConstraintGuide) : Prop :=
  ∀ i, 0 ≤ g.values i ∧ g.values i ≤ G_MAXINT

/-- State `st'` differs from state `st` at most in the stored values and in the change
notifications recorded: the constraint handles, `bound_attributes`, the layout and every
solver are the same, and the calls made in between are all notifications. -/
def only_values_change (st st' : World × GtkConstraintGuide) : Prop :=
  st'.2.constraints = st.2.constraints ∧ st'.2.bound_attributes = st.2.bound_attributes ∧
  st'.2.layout = st.2.layout ∧ st'.1.solvers = st.1.solvers ∧
  ∃ ns, st'.1.log = st.1.log ++ ns ∧ ∀ c ∈ ns, ∃ p, c = Call.notify p

/-- The cache holds at most one entry for Width, at most one for Height, and no entry
for another attribute. -/
def cache_width_height (cache : List (GtkConstraintAttribute × GtkConstraintVariable)) :
    Prop :=
  (cache.map Prod.fst).Nodup ∧ ∀ e ∈ cache, e.1 = .WIDTH ∨ e.1 = .HEIGHT

/-- Slot `i` of the guide is synchronised with the solver: it holds a handle, handed out
by the solver at or after the mark `f0`, that denotes exactly one constraint of the
solver, and that constraint has the relation and the weight of the slot, the stored
value of the slot as constant and the variable cached for the attribute of the slot. -/
def slot_synced (f0 : Nat) (s : GtkConstraintSolver) (g : GtkConstraintGuide)
    (i : GuideValue) : Prop :=
  ∃ r c, g.constraints i = some r ∧ f0 ≤ r ∧ r < s.fresh_ref ∧
    s.constraints.filter (fun x => x.ref = r) = [c] ∧
    c.relation = relation i ∧ c.weight = weight i ∧ c.expression.constant = g.values i ∧
    ∃ v, c.var = some v ∧ g.bound_attributes.lookup (attr i) = some v

/-- The slots in `S` are synchronised with the solver and hold different handles; the
handles of the other slots, if any, were handed out before the mark `f0`; and every
constraint of the solver handed out at or after `f0` is held by a slot in `S`. -/
def synced (f0 : Nat) (S : GuideValue → Prop) (s : GtkConstraintSolver)
    (g : GtkConstraintGuide) : Prop :=
  f0 ≤ s.fresh_ref ∧ (∀ i, S i → slot_synced f0 s g i) ∧
  (∀ i j, S i → S j → g.constraints i = g.constraints j → i = j) ∧
  (∀ i, ¬ S i → ∀ r, g.constraints i = some r → r < f0) ∧
  (∀ c ∈ s.constraints, f0 ≤ c.ref → ∃ i, S i ∧ g.constraints i = some c.ref)

/-- The handles the guide holds were handed out by the solver. -/
def issued (s : GtkConstraintSolver) (g : GtkConstraintGuide) : Prop :=
  ∀ i r, g.constraints i = some r → r < s.fresh_ref

/-- The guide is attached to layout `l`, the layout exposes a solver, and all six slots
are synchronised with it, with handles handed out at or after the mark `f0`. -/
def live_synced (l f0 : Nat) (st : World × GtkConstraintGuide) : Prop :=
  ∃ s, st.2.layout = some l ∧ st.1.solvers l = some s ∧ synced f0 (fun _ => True) s st.2

/-- Slot `i` holds a non-null handle that is registered in the solver of the guide's
layout, where it denotes exactly one constraint; that constraint has the current
`values[i]` as constant and the relation and the weight of the slot. -/
def slot_registered (st : World × GtkConstraintGuide) (i : GuideValue) : Prop :=
  ∃ l s r c, st.2.layout = some l ∧ st.1.solvers l = some s ∧ st.2.constraints i = some r ∧
    c ∈ s.constraints ∧ c.ref = r ∧ (∀ c' ∈ s.constraints, c'.ref = r → c' = c) ∧
    c.expression.constant = st.2.values i ∧ c.relation = relation i ∧ c.weight = weight i

/-- If the guide is attached to a layout that exposes a solver, the handles the guide
holds were handed out by that solver. -/
def handles_issued (st : World × GtkConstraintGuide) : Prop :=
  ∀ l s, st.2.layout = some l → st.1.solvers l = some s → issued s st.2

/-- Every cached variable is cached under its own attribute. -/
def cache_consistent (g : GtkConstraintGuide) : Prop :=
  ∀ a v, g.bound_attributes.lookup a = some v → v.attr = a

/-- What the constraint of slot `i` says: the attribute of its variable, its relation,
its constant and its weight; `none` when the slot denotes no constraint. -/
def slot_summary (st : World × GtkConstraintGuide) (i : GuideValue) :
    Option (Option GtkConstraintAttribute × GtkConstraintRelation × Int ×
      GtkConstraintWeight) :=
  (slot_constraint st.1 st.2 i).map
    (fun c => (c.var.map (fun v => v.attr), c.relation, c.expression.constant, c.weight))

/-- State `st'` comes after state `st` on layout `l`: the guide is still attached to
`l`, the solver of `l` has handed out no fewer handles, and every slot holds either the
handle it held in `st` or a handle handed out since. -/
def comes_after (l : Nat) (st st' : World × GtkConstraintGuide) : Prop :=
  ∃ s s', st.1.solvers l = some s ∧ st'.1.solvers l = some s' ∧ st'.2.layout = some l ∧
    s.fresh_ref ≤ s'.fresh_ref ∧
    ∀ j, st'.2.constraints j = st.2.constraints j ∨
      ∃ r, st'.2.constraints j = some r ∧ s.fresh_ref ≤ r

/-- The discipline of removals since the calls `lg0`: no non-null handle was passed to
remove_constraint twice, no handle that was removed is still held by the guide, the
handles the guide holds are different from one another and were handed out by the
solver of its layout, as were the handles removed. -/
def removal_discipline (lg0 : List Call) (st : World × GtkConstraintGuide) : Prop :=
  ∃ calls, st.1.log = lg0 ++ calls ∧ (removed_refs calls).Nodup ∧
    (∀ r ∈ removed_refs calls, r ∉ held_refs st.2) ∧
    (∀ i j r, st.2.constraints i = some r → st.2.constraints j = some r → i = j) ∧
    handles_issued st ∧
    (∀ l s, st.2.layout = some l → st.1.solvers l = some s →
      ∀ r ∈ removed_refs calls, r < s.fresh_ref)

/-! ## What a guide leaves alone in the solver -/

/-- The constraints of solver `s` whose handle guide `g` does not hold, in the order
they are registered. -/
def rest_constraints (s : GtkConstraintSolver) (g : GtkConstraintGuide) :
    List GtkConstraint :=
  s.constraints.filter (fun c => c.ref ∉ held_refs g)

/-- The constraints registered in the solver of the guide's layout whose handle the guide
does not hold: those of other guides and of the layout itself.  `none` when the guide has
no layout or the layout exposes no solver. -/
def other_constraints (st : World × GtkConstraintGuide) : Option (List GtkConstraint) :=
  match st.2.layout with
  | some l => (st.1.solvers l).map (fun s => rest_constraints s st.2)
  | none => none

/-- The number of constraints registered in the solver of the guide's layout. -/
def solver_size (st : World × GtkConstraintGuide) : Option Nat :=
  match st.2.layout with
  | some l => (st.1.solvers l).map (fun s => s.constraints.length)
  | none => none

/-- What the constraint of slot `i` says: its variable, its relation, its constant and
its weight; `none` when the slot denotes no constraint. -/
def slot_tuple (st : World × GtkConstraintGuide) (i : GuideValue) :
    Option (Option GtkConstraintVariable × GtkConstraintRelation × Int ×
      GtkConstraintWeight) :=
  (slot_constraint st.1 st.2 i).map
    (fun c => (c.var, c.relation, c.expression.constant, c.weight))

/-- The state after `gtk_constraint_guide_update` is called twice in a row. -/
def update_twice (w : World) (g : GtkConstraintGuide) : World × GtkConstraintGuide :=
  gtk_constraint_guide_update (gtk_constraint_guide_update w g).1
    (gtk_constraint_guide_update w g).2

/-! ## Which handles a guide passes to the solver -/

/-- The handles known to belong to a guide once a call is made: a handle returned by
add_constraint joins them. -/
def own_after (own : List Nat) (c : Call) : List Nat :=
  match c with
  | .add_constraint _ r => r :: own
  | _ => own

/-- The handles known to belong to a guide after a list of calls. -/
def owned (own : List Nat) (calls : List Call) : List Nat :=
  calls.foldl own_after own

/-- A call respects the handles `own`: if it is a remove_constraint with a non-null
handle, the handle is one of `own`. -/
def removes_own_call (own : List Nat) (c : Call) : Bool :=
  match c with
  | .remove_constraint _ (some r) => decide (r ∈ own)
  | _ => true

/-- Every non-null handle passed to remove_constraint in the calls is, at the time of
the call, one of the handles `own` or a handle an earlier add_constraint of the calls
returned. -/
def removes_own : List Nat → List Call → Bool
  | _, [] => true
  | own, c :: cs => removes_own_call own c && removes_own (own_after own c) cs

/-- The invariant of a run of operations on a guide attached to layout `l`, relative to
the mark `f0`, the handles `own` the guide held at the start and the calls `lg0` made
before: the guide is attached to `l`, whose solver has handed out the handles below a
mark not smaller than `f0`; every handle the guide holds is one of `own` or was handed
out at or after `f0`; every non-null handle passed to remove_constraint since was, at
the time, one of `own` or returned by add_constraint since; the handles the guide holds
are of that kind; and the handles returned by add_constraint since were handed out at or
after `f0`. -/
def frame_inv (l f0 : Nat) (own : List Nat) (lg0 : List Call)
    (st : World × GtkConstraintGuide) : Prop :=
  ∃ s calls, st.2.layout = some l ∧ st.1.solvers l = some s ∧ f0 ≤ s.fresh_ref ∧
    (∀ i r, st.2.constraints i = some r → r ∈ own ∨ f0 ≤ r) ∧
    st.1.log = lg0 ++ calls ∧ removes_own own calls = true ∧
    (∀ r ∈ held_refs st.2, r ∈ owned own calls) ∧
    (∀ r ∈ owned own calls, r ∈ own ∨ f0 ≤ r)

/-- The world and the first guide once two guides attached to layout 0 of the example
world have both been updated: the second guide is the guide of `updated_state`, which
holds the handles 1 to 6; the first guide holds the handles 7 to 12. -/
def shared_state : World × GtkConstraintGuide :=
  gtk_constraint_guide_update updated_state.1
    { example_guide with values := fun _ => 5 }

/-! ## The AT-SPI Action interface (`a11y/gtkatspiaction.c`) -/

/-- The value of an `int` expression: the integer reduced to 32 bits, two's complement. -/
def int_wrap (x : Int) : Int :=
  (x + 2147483648) % 4294967296 - 2147483648

/-- Modelled from the spec: the action muxer is a collaborator outside the sources at
hand and is kept abstract.  `list_actions` is the string array
`gtk_action_muxer_list_actions` returns, without its `NULL` terminator; `query_action
name` is what `gtk_action_muxer_query_action` answers: `none` when it returns `FALSE`,
otherwise whether the action is enabled and its parameter type (`none` for `NULL`). -/
structure GtkActionMuxer where
  list_actions : List String
  query_action : String → Option (Bool × Option String)

/-- The function `is_valid_action`: the action exists, is enabled and takes no
parameter. -/
def is_valid_action (muxer : GtkActionMuxer) (action_name : String) : Bool :=
  match muxer.query_action action_name with
  | none => false
  | some (enabled, param_type) =>
    if !enabled || param_type.isSome then false else true

/-- The length `g_strv_length` finds, as the `int` it is assigned to. -/
def g_strv_length (actions : List String) : Int :=
  int_wrap actions.length

/-- The entry `actions[k]` of a `NULL`-terminated string array: `none` is `NULL`, which
is what the entry after the last string holds. -/
def strv_index (actions : List String) (k : Int) : Option String :=
  if k < 0 then none else actions.get? k.toNat

/-- The function `add_muxer_actions`: the loop visits `actions[0]` to
`actions[n_actions - 1]` in order and adds an entry for each valid action. -/
def add_muxer_actions (muxer : GtkActionMuxer) (actions : List String) (n_actions : Int)
    (builder : List (String × String × String)) : List (String × String × String) :=
  (actions.take n_actions.toNat).foldl
    (fun b a => if !is_valid_action muxer a then b else b ++ [(a, a, "<VoidSymbol>")])
    builder

/-- The loop of `get_action_at_index` on the entries still to visit: the value of
`real_pos` when the loop is left, by `break` or at the end. -/
def get_action_at_index_loop (muxer : GtkActionMuxer) (pos : Int) :
    List String → Int → Int
  | [], real_pos => real_pos
  | a :: rest, real_pos =>
    if !is_valid_action muxer a then get_action_at_index_loop muxer pos rest real_pos
    else if real_pos = pos then real_pos
    else get_action_at_index_loop muxer pos rest (int_wrap (real_pos + 1))

/-- The function `get_action_at_index`: the loop, then `return actions[real_pos]`. -/
def get_action_at_index (muxer : GtkActionMuxer) (actions : List String) (n_actions : Int)
    (pos : Int) : Option String :=
  strv_index actions (get_action_at_index_loop muxer pos (actions.take n_actions.toNat) 0)

/-- The function `get_valid_actions`. -/
def get_valid_actions (muxer : GtkActionMuxer) (actions : List String) (n_actions : Int) :
    Int :=
  (actions.take n_actions.toNat).foldl
    (fun n_enabled_actions a =>
      if !is_valid_action muxer a then n_enabled_actions
      else int_wrap (n_enabled_actions + 1))
    0

/-- What a method call is answered with. -/
inductive MethodReply where
  | return_string (s : String)
  | return_boolean (b : Bool)
  | return_actions (entries : List (String × String × String))
  | return_error (message : String) (action_idx : Int)
  | no_reply
  deriving DecidableEq, Repr

/-- The widget as `widget_handle_method` sees it: its action muxer (`none` for `NULL`),
whether it is sensitive, the result of activating an action, and the actions activated
so far. -/
structure ActionWidget where
  muxer : Option GtkActionMuxer
  is_sensitive : Bool
  activate_action : String → Bool
  activated : List String

/-- The function `widget_handle_method`, `action_idx` being the `int` of the
parameters: the reply and the widget after the call. -/
def widget_handle_method (widget : ActionWidget) (method_name : String) (action_idx : Int) :
    MethodReply × ActionWidget :=
  match widget.muxer with
  | none => (.no_reply, widget)
  | some muxer =>
    let actions := muxer.list_actions
    let n_actions := g_strv_length actions
    if method_name = "GetName" ∨ method_name = "GetLocalizedName" ∨
        method_name = "GetDescription" then
      match get_action_at_index muxer actions n_actions action_idx with
      | some action =>
        if widget.is_sensitive then (.return_string action, widget)
        else (.return_error "No action with index" action_idx, widget)
      | none => (.return_error "No action with index" action_idx, widget)
    else if method_name = "DoAction" then
      match get_action_at_index muxer actions n_actions action_idx with
      | some action =>
        if widget.is_sensitive then
          (.return_boolean (widget.activate_action action),
            { widget with activated := widget.activated ++ [action] })
        else (.return_error "No action with index" action_idx, widget)
      | none => (.return_error "No action with index" action_idx, widget)
    else if method_name = "GetKeyBinding" then
      match get_action_at_index muxer actions n_actions action_idx with
      | some _ =>
        if widget.is_sensitive then (.return_string "<VoidSymbol>", widget)
        else (.return_error "No action with index" action_idx, widget)
      | none => (.return_error "No action with index" action_idx, widget)
    else if method_name = "GetActions" then
      (.return_actions
        (if n_actions ≥ 0 ∧ widget.is_sensitive then add_muxer_actions muxer actions n_actions []
          else []), widget)
    else (.no_reply, widget)

/-- The `NActions` branch of `widget_handle_get_property`: `none` when the widget has no
muxer. -/
def widget_handle_get_property_n_actions (widget : ActionWidget) : Option Int :=
  match widget.muxer with
  | none => none
  | some muxer =>
    some (get_valid_actions muxer muxer.list_actions (g_strv_length muxer.list_actions))

/-- An example muxer: the actions `a` and `b`, of which `a` is disabled and `b` is
enabled and takes no parameter. -/
def example_muxer : GtkActionMuxer :=
  { list_actions := ["a", "b"]
    query_action := fun name =>
      if name = "a" then some (false, none)
      else if name = "b" then some (true, none)
      else none }

/-- A sensitive widget with the example muxer; activating an action succeeds. -/
def example_action_widget : ActionWidget :=
  { muxer := some example_muxer
    is_sensitive := true
    activate_action := fun _ => true
    activated := [] }

/-- The valid actions of a list, in list order. -/
def valid_actions (muxer : GtkActionMuxer) (actions : List String) : List String :=
  actions.filter (is_valid_action muxer)

/-! ## The AT-SPI Accessible interface (`a11y/gtkatspicontext.c`): children -/

/-- Modelled from the spec: the widget tree is a collaborator outside the sources at
hand and is kept abstract.  A widget is named by a number.  `children widget` are the
widgets that `gtk_widget_get_first_child (widget)` and then `gtk_widget_get_next_sibling`
yield, in that order, until `NULL`; `parent` is `gtk_widget_get_parent` (`none` for
`NULL`); `should_present` is `gtk_accessible_should_present`. -/
structure WidgetTree where
  children : Nat → List Nat
  parent : Nat → Option Nat
  should_present : Nat → Bool

/-- The loop of the `GetChildAtIndex` branch of `handle_accessible_method` on the
siblings still to visit: the value of `child` when the loop is left, `none` for `NULL`. -/
def get_child_at_index_loop (tree : WidgetTree) (idx : Int) : List Nat → Int → Option Nat
  | [], _ => none
  | child :: rest, real_idx =>
    if !tree.should_present child then get_child_at_index_loop tree idx rest real_idx
    else if real_idx = idx then some child
    else get_child_at_index_loop tree idx rest (int_wrap (real_idx + 1))

/-- The `GetChildAtIndex` branch of `handle_accessible_method`, `idx` being the `int` of
the parameters: the child whose reference is returned, or `none` when the method
answers with the error "No child with index". -/
def handle_accessible_method_get_child_at_index (tree : WidgetTree) (widget : Nat)
    (idx : Int) : Option Nat :=
  get_child_at_index_loop tree idx (tree.children widget) 0

/-- The `ChildCount` branch of `handle_accessible_get_property`. -/
def handle_accessible_get_property_child_count (tree : WidgetTree) (widget : Nat) : Int :=
  (tree.children widget).foldl
    (fun n_children child =>
      if !tree.should_present child then n_children else int_wrap (n_children + 1))
    0

/-- The loop of `get_index_in_parent` on the siblings still to visit. -/
def get_index_in_parent_loop (tree : WidgetTree) (widget : Nat) : List Nat → Int → Int
  | [], _ => -1
  | child :: rest, idx =>
    if !tree.should_present child then get_index_in_parent_loop tree widget rest idx
    else if child = widget then idx
    else get_index_in_parent_loop tree widget rest (int_wrap (idx + 1))

/-- The function `get_index_in_parent`; a widget without parent has no siblings to
visit. -/
def get_index_in_parent (tree : WidgetTree) (widget : Nat) : Int :=
  match tree.parent widget with
  | none => -1
  | some parent => get_index_in_parent_loop tree widget (tree.children parent) 0

/-- The children of a widget that are presented, in sibling order. -/
def presented_children (tree : WidgetTree) (widget : Nat) : List Nat :=
  (tree.children widget).filter tree.should_present

/-- An example tree: widget 0 has the children 1, 2, 3, 4, of which 2 is not
presented. -/
def example_tree : WidgetTree :=
  { children := fun w => if w = 0 then [1, 2, 3, 4] else []
    parent := fun w => if 1 ≤ w ∧ w ≤ 4 then some 0 else none
    should_present := fun w => w ≠ 2 }

/-! ## The AT-SPI Accessible interface (`a11y/gtkatspicontext.c`): the state set -/

/-- Modelled from the spec: `AtspiStateType` is declared in the AT-SPI headers, outside
the sources at hand; these are the members the file names. -/
inductive AtspiStateType where
  | INVALID
  | BUSY
  | CHECKED
  | EDITABLE
  | EXPANDABLE
  | EXPANDED
  | FOCUSABLE
  | FOCUSED
  | HORIZONTAL
  | MODAL
  | MULTI_LINE
  | PRESSED
  | SELECTABLE
  | SELECTED
  | SENSITIVE
  | VERTICAL
  | VISIBLE
  | INDETERMINATE
  | READ_ONLY
  deriving DecidableEq, Repr

/-- Modelled from the spec: the value of the enumeration member, as the AT-SPI headers
number them; the values are different from one another and smaller than 64. -/
def AtspiStateType.toNat : AtspiStateType → Nat
  | .INVALID => 0
  | .BUSY => 3
  | .CHECKED => 4
  | .EDITABLE => 7
  | .EXPANDABLE => 9
  | .EXPANDED => 10
  | .FOCUSABLE => 11
  | .FOCUSED => 12
  | .HORIZONTAL => 14
  | .MODAL => 16
  | .MULTI_LINE => 17
  | .PRESSED => 20
  | .SELECTABLE => 22
  | .SELECTED => 23
  | .SENSITIVE => 24
  | .VERTICAL => 29
  | .VISIBLE => 30
  | .INDETERMINATE => 32
  | .READ_ONLY => 43

/-- Modelled from the spec: `GtkAccessibleRole` is declared in a header outside the
sources at hand; the three roles the file names are told apart from all others. -/
inductive GtkAccessibleRole where
  | TEXT_BOX
  | SEARCH_BOX
  | SPIN_BUTTON
  | OTHER (role : Nat)
  deriving DecidableEq, Repr

/-- Modelled from the spec: the accessible properties the file names. -/
inductive GtkAccessibleProperty where
  | READ_ONLY
  | ORIENTATION
  | MODAL
  | MULTI_LINE
  | PLACEHOLDER
  deriving DecidableEq, Repr

/-- Modelled from the spec: the accessible states the file names. -/
inductive GtkAccessibleState where
  | BUSY
  | CHECKED
  | DISABLED
  | EXPANDED
  | INVALID
  | PRESSED
  | SELECTED
  deriving DecidableEq, Repr

/-- Modelled from the spec: the platform states the file names. -/
inductive GtkAccessiblePlatformState where
  | FOCUSABLE
  | FOCUSED
  deriving DecidableEq, Repr

/-- Modelled from the spec: `GtkAccessibleTristate`. -/
inductive GtkAccessibleTristate where
  | FALSE
  | TRUE
  | MIXED
  deriving DecidableEq, Repr

/-- Modelled from the spec: `GtkAccessibleInvalidState`. -/
inductive GtkAccessibleInvalidState where
  | FALSE
  | TRUE
  | GRAMMAR
  | SPELLING
  deriving DecidableEq, Repr

/-- Modelled from the spec: `GtkOrientation`. -/
inductive GtkOrientation where
  | HORIZONTAL
  | VERTICAL
  deriving DecidableEq, Repr

/-- Modelled from the spec: `GtkAccessibleValueType`, the `type` of a value class; the
file names `BOOLEAN` only. -/
inductive GtkAccessibleValueType where
  | UNDEFINED
  | BOOLEAN
  | OTHER (type : Nat)
  deriving DecidableEq, Repr

/-- Modelled from the spec: an accessible value is a collaborator outside the sources at
hand and is kept abstract: it is given by the type of its class and by what each of the
getters the file calls answers for it. -/
structure GtkAccessibleValue where
  value_class_type : GtkAccessibleValueType
  boolean_value : Bool
  tristate_value : GtkAccessibleTristate
  invalid_value : GtkAccessibleInvalidState
  orientation_value : GtkOrientation
  deriving DecidableEq, Repr

/-- Modelled from the spec: `gtk_boolean_accessible_value_get`. -/
def gtk_boolean_accessible_value_get (value : GtkAccessibleValue) : Bool :=
  value.boolean_value

/-- Modelled from the spec: `gtk_tristate_accessible_value_get`. -/
def gtk_tristate_accessible_value_get (value : GtkAccessibleValue) : GtkAccessibleTristate :=
  value.tristate_value

/-- Modelled from the spec: `gtk_invalid_accessible_value_get`. -/
def gtk_invalid_accessible_value_get (value : GtkAccessibleValue) :
    GtkAccessibleInvalidState :=
  value.invalid_value

/-- Modelled from the spec: `gtk_orientation_accessible_value_get`. -/
def gtk_orientation_accessible_value_get (value : GtkAccessibleValue) : GtkOrientation :=
  value.orientation_value

/-- Modelled from the spec: the AT context as `collect_states` reads it, kept abstract:
its role, what `gtk_at_context_has_accessible_property`, `..._get_accessible_property`,
`..._has_accessible_state` and `..._get_accessible_state` answer, and what
`gtk_accessible_get_platform_state` answers for its accessible. -/
structure GtkATContext where
  accessible_role : GtkAccessibleRole
  has_accessible_property : GtkAccessibleProperty → Bool
  get_accessible_property : GtkAccessibleProperty → GtkAccessibleValue
  has_accessible_state : GtkAccessibleState → Bool
  get_accessible_state : GtkAccessibleState → GtkAccessibleValue
  get_platform_state : GtkAccessiblePlatformState → Bool

/-- The function `set_atspi_state` on the 64-bit word `*states`. -/
def set_atspi_state (states : Nat) (state : AtspiStateType) : Nat :=
  (states ||| (1 <<< state.toNat) % 2 ^ 64) % 2 ^ 64

/-- The function `unset_atspi_state` on the 64-bit word `*states`; the complement of a
64-bit word is its exclusive or with the word of 64 ones. -/
def unset_atspi_state (states : Nat) (state : AtspiStateType) : Nat :=
  (states &&& ((2 ^ 64 - 1) ^^^ ((1 <<< state.toNat) % 2 ^ 64))) % 2 ^ 64

/-- The block of `collect_states` on the role. -/
def collect_states_editable (ctx : GtkATContext) (states : Nat) : Nat :=
  if ctx.accessible_role = .TEXT_BOX ∨ ctx.accessible_role = .SEARCH_BOX ∨
      ctx.accessible_role = .SPIN_BUTTON then
    set_atspi_state states .EDITABLE
  else states

/-- The block of `collect_states` on the property `READ_ONLY`. -/
def collect_states_read_only (ctx : GtkATContext) (states : Nat) : Nat :=
  if ctx.has_accessible_property .READ_ONLY then
    if gtk_boolean_accessible_value_get (ctx.get_accessible_property .READ_ONLY) then
      unset_atspi_state (set_atspi_state states .READ_ONLY) .EDITABLE
    else states
  else states

/-- The two blocks of `collect_states` on the platform states. -/
def collect_states_focus (ctx : GtkATContext) (states : Nat) : Nat :=
  let states :=
    if ctx.get_platform_state .FOCUSABLE then set_atspi_state states .FOCUSABLE else states
  if ctx.get_platform_state .FOCUSED then set_atspi_state states .FOCUSED else states

/-- The block of `collect_states` on the property `ORIENTATION`. -/
def collect_states_orientation (ctx : GtkATContext) (states : Nat) : Nat :=
  if ctx.has_accessible_property .ORIENTATION then
    if gtk_orientation_accessible_value_get (ctx.get_accessible_property .ORIENTATION) =
        .HORIZONTAL then
      set_atspi_state states .HORIZONTAL
    else set_atspi_state states .VERTICAL
  else states

/-- The block of `collect_states` on the property `MODAL`. -/
def collect_states_modal (ctx : GtkATContext) (states : Nat) : Nat :=
  if ctx.has_accessible_property .MODAL then
    if gtk_boolean_accessible_value_get (ctx.get_accessible_property .MODAL) then
      set_atspi_state states .MODAL
    else states
  else states

/-- The block of `collect_states` on the property `MULTI_LINE`. -/
def collect_states_multi_line (ctx : GtkATContext) (states : Nat) : Nat :=
  if ctx.has_accessible_property .MULTI_LINE then
    if gtk_boolean_accessible_value_get (ctx.get_accessible_property .MULTI_LINE) then
      set_atspi_state states .MULTI_LINE
    else states
  else states

/-- The block of `collect_states` on the state `BUSY`. -/
def collect_states_busy (ctx : GtkATContext) (states : Nat) : Nat :=
  if ctx.has_accessible_state .BUSY then
    if gtk_boolean_accessible_value_get (ctx.get_accessible_state .BUSY) then
      set_atspi_state states .BUSY
    else states
  else states

/-- The block of `collect_states` on the state `CHECKED`. -/
def collect_states_checked (ctx : GtkATContext) (states : Nat) : Nat :=
  if ctx.has_accessible_state .CHECKED then
    match gtk_tristate_accessible_value_get (ctx.get_accessible_state .CHECKED) with
    | .TRUE => set_atspi_state states .CHECKED
    | .MIXED => set_atspi_state states .INDETERMINATE
    | .FALSE => states
  else states

/-- The block of `collect_states` on the state `DISABLED`. -/
def collect_states_disabled (ctx : GtkATContext) (states : Nat) : Nat :=
  if ctx.has_accessible_state .DISABLED then
    if !gtk_boolean_accessible_value_get (ctx.get_accessible_state .DISABLED) then
      set_atspi_state states .SENSITIVE
    else states
  else set_atspi_state states .SENSITIVE

/-- The block of `collect_states` on the state `EXPANDED`. -/
def collect_states_expanded (ctx : GtkATContext) (states : Nat) : Nat :=
  if ctx.has_accessible_state .EXPANDED then
    if (ctx.get_accessible_state .EXPANDED).value_class_type = .BOOLEAN then
      let states := set_atspi_state states .EXPANDABLE
      if gtk_boolean_accessible_value_get (ctx.get_accessible_state .EXPANDED) then
        set_atspi_state states .EXPANDED
      else states
    else states
  else states

/-- The block of `collect_states` on the state `INVALID`. -/
def collect_states_invalid (ctx : GtkATContext) (states : Nat) : Nat :=
  if ctx.has_accessible_state .INVALID then
    match gtk_invalid_accessible_value_get (ctx.get_accessible_state .INVALID) with
    | .TRUE => set_atspi_state states .INVALID
    | .GRAMMAR => set_atspi_state states .INVALID
    | .SPELLING => set_atspi_state states .INVALID
    | .FALSE => states
  else states

/-- The block of `collect_states` on the state `PRESSED`. -/
def collect_states_pressed (ctx : GtkATContext) (states : Nat) : Nat :=
  if ctx.has_accessible_state .PRESSED then
    match gtk_tristate_accessible_value_get (ctx.get_accessible_state .PRESSED) with
    | .TRUE => set_atspi_state states .PRESSED
    | .MIXED => set_atspi_state states .INDETERMINATE
    | .FALSE => states
  else states

/-- The block of `collect_states` on the state `SELECTED`. -/
def collect_states_selected (ctx : GtkATContext) (states : Nat) : Nat :=
  if ctx.has_accessible_state .SELECTED then
    if (ctx.get_accessible_state .SELECTED).value_class_type = .BOOLEAN then
      let states := set_atspi_state states .SELECTABLE
      if gtk_boolean_accessible_value_get (ctx.get_accessible_state .SELECTED) then
        set_atspi_state states .SELECTED
      else states
    else states
  else states

/-- The 64-bit word `states` of `collect_states` when the function reaches its last two
statements. -/
def collect_states_word (ctx : GtkATContext) : Nat :=
  let states := 0
  let states := set_atspi_state states .VISIBLE
  let states := collect_states_editable ctx states
  let states := collect_states_read_only ctx states
  let states := collect_states_focus ctx states
  let states := collect_states_orientation ctx states
  let states := collect_states_modal ctx states
  let states := collect_states_multi_line ctx states
  let states := collect_states_busy ctx states
  let states := collect_states_checked ctx states
  let states := collect_states_disabled ctx states
  let states := collect_states_expanded ctx states
  let states := collect_states_invalid ctx states
  let states := collect_states_pressed ctx states
  let states := collect_states_selected ctx states
  states

/-- The function `collect_states`: the low and the high 32 bits of the word are added to
the builder. -/
def collect_states (ctx : GtkATContext) (builder : List Nat) : List Nat :=
  builder ++ [(collect_states_word ctx &&& 0xffffffff) % 2 ^ 32,
    (collect_states_word ctx >>> 32) % 2 ^ 32]

/-- Whether a state is in the state set that the two words `collect_states` adds
describe: states 0 to 31 are the bits of the first word, states 32 to 63 those of the
second. -/
def state_set_has (words : List Nat) (state : AtspiStateType) : Bool :=
  if state.toNat < 32 then (words.getD 0 0).testBit state.toNat
  else (words.getD 1 0).testBit (state.toNat - 32)

/-- An example context: a text box that is read-only, disabled and expanded. -/
def example_context : GtkATContext :=
  { accessible_role := .TEXT_BOX
    has_accessible_property := fun p => p = .READ_ONLY
    get_accessible_property := fun _ => ⟨.BOOLEAN, true, .FALSE, .FALSE, .HORIZONTAL⟩
    has_accessible_state := fun s => s = .DISABLED ∨ s = .EXPANDED
    get_accessible_state := fun _ => ⟨.BOOLEAN, true, .FALSE, .FALSE, .HORIZONTAL⟩
    get_platform_state := fun _ => false }

/-! ## The AT-SPI context (`a11y/gtkatspicontext.c`): objects registered on the bus -/

/-- The interface descriptions `atspi_accessible_interface`, `atspi_component_interface`,
`atspi_text_interface`, `atspi_editable_text_interface`, `atspi_value_interface` and
`atspi_selection_interface`. -/
inductive AtspiInterface where
  | accessible
  | component
  | text
  | editable_text
  | value
  | selection
  deriving DecidableEq, Repr

/-- Modelled from the spec: the bus connection is a collaborator outside the sources at
hand and is kept abstract.  `register_result k` is the registration id the connection
answers its `k`-th registration with; `registered` and `unregistered` record the calls
of `g_dbus_connection_register_object` (interface and id answered) and of
`g_dbus_connection_unregister_object` (id passed), in the order they are made. -/
structure GDBusConnection where
  register_result : Nat → Nat
  registered : List (AtspiInterface × Nat)
  unregistered : List Nat

/-- Modelled from the spec: `g_dbus_connection_register_object`; the id is a `guint`. -/
def g_dbus_connection_register_object (connection : GDBusConnection)
    (interface_info : AtspiInterface) : GDBusConnection × Nat :=
  ({ connection with
      registered := connection.registered ++
        [(interface_info, connection.register_result connection.registered.length % 2 ^ 32)] },
    connection.register_result connection.registered.length % 2 ^ 32)

/-- Modelled from the spec: `g_dbus_connection_unregister_object`. -/
def g_dbus_connection_unregister_object (connection : GDBusConnection)
    (registration_id : Nat) : GDBusConnection :=
  { connection with unregistered := connection.unregistered ++ [registration_id] }

/-- The fields of `struct _GtkAtSpiContext` that registering uses: the connection, the
interfaces collected, the array `registration_ids`, which has 20 entries, and
`n_registered_objects`. -/
structure GtkAtSpiContext where
  connection : GDBusConnection
  interfaces : List AtspiInterface
  registration_ids : List Nat
  n_registered_objects : Nat

/-- Modelled from the spec: the widget as `gtk_at_spi_context_register_object` sees it:
whether `gtk_atspi_get_text_vtable`, `gtk_atspi_get_editable_text_vtable`,
`gtk_atspi_get_value_vtable` and `gtk_atspi_get_selection_vtable`, defined outside the
sources at hand, answer with a vtable for it. -/
structure AccessibleWidget where
  text_vtable : Bool
  editable_text_vtable : Bool
  value_vtable : Bool
  selection_vtable : Bool
  deriving DecidableEq, Repr

/-- The function `gtk_atspi_get_component_vtable` of `a11y/gtkatspicomponent.c`: it
returns `&component_vtable` for every widget, which is not `NULL`. -/
def gtk_atspi_get_component_vtable (_widget : AccessibleWidget) : Bool := true

/-- Modelled from the spec: `gtk_atspi_get_text_vtable`, not `NULL`. -/
def gtk_atspi_get_text_vtable (widget : AccessibleWidget) : Bool := widget.text_vtable

/-- Modelled from the spec: `gtk_atspi_get_editable_text_vtable`, not `NULL`. -/
def gtk_atspi_get_editable_text_vtable (widget : AccessibleWidget) : Bool :=
  widget.editable_text_vtable

/-- Modelled from the spec: `gtk_atspi_get_value_vtable`, not `NULL`. -/
def gtk_atspi_get_value_vtable (widget : AccessibleWidget) : Bool := widget.value_vtable

/-- Modelled from the spec: `gtk_atspi_get_selection_vtable`, not `NULL`. -/
def gtk_atspi_get_selection_vtable (widget : AccessibleWidget) : Bool :=
  widget.selection_vtable

/-- The three statements `gtk_at_spi_context_register_object` repeats for each
interface, on the context and the builder `interfaces`: the interface is added to the
builder, the id the connection answers with is stored in
`registration_ids[n_registered_objects]`, and `n_registered_objects` is incremented.
`none` is a state the function does not return for: a store outside the array. -/
def register_interface (st : Option (GtkAtSpiContext × List AtspiInterface))
    (interface_info : AtspiInterface) : Option (GtkAtSpiContext × List AtspiInterface) :=
  match st with
  | none => none
  | some (self, interfaces) =>
    if self.n_registered_objects < self.registration_ids.length then
      some ({ self with
          connection := (g_dbus_connection_register_object self.connection interface_info).1
          registration_ids := self.registration_ids.set self.n_registered_objects
            (g_dbus_connection_register_object self.connection interface_info).2
          n_registered_objects := (self.n_registered_objects + 1) % 2 ^ 32 },
        interfaces ++ [interface_info])
    else none

/-- The function `gtk_at_spi_context_register_object`. -/
def gtk_at_spi_context_register_object (self : GtkAtSpiContext) (widget : AccessibleWidget) :
    Option GtkAtSpiContext :=
  let st := some (self, [])
  let st := register_interface st .accessible
  let st := if gtk_atspi_get_component_vtable widget then register_interface st .component
    else st
  let st := if gtk_atspi_get_text_vtable widget then register_interface st .text else st
  let st := if gtk_atspi_get_editable_text_vtable widget then
      register_interface st .editable_text
    else st
  let st := if gtk_atspi_get_value_vtable widget then register_interface st .value else st
  let st := if gtk_atspi_get_selection_vtable widget then register_interface st .selection
    else st
  st.map (fun p => { p.1 with interfaces := p.2 })

/-- The loop of `gtk_at_spi_context_unregister_object`, for at most `fuel` rounds; `none`
is a context the loop does not return for: a read outside the array, or rounds left to
do when the fuel is used up. -/
def unregister_object_loop : Nat → GtkAtSpiContext → Option GtkAtSpiContext
  | 0, self => if self.n_registered_objects > 0 then none else some self
  | fuel + 1, self =>
    if self.n_registered_objects > 0 then
      if self.n_registered_objects - 1 < self.registration_ids.length then
        unregister_object_loop fuel
          { self with
            n_registered_objects := self.n_registered_objects - 1
            connection := g_dbus_connection_unregister_object self.connection
              (self.registration_ids.getD (self.n_registered_objects - 1) 0)
            registration_ids := self.registration_ids.set (self.n_registered_objects - 1) 0 }
      else none
    else some self

/-- The function `gtk_at_spi_context_unregister_object`: each round decrements
`n_registered_objects`, so that many rounds are enough. -/
def gtk_at_spi_context_unregister_object (self : GtkAtSpiContext) : Option GtkAtSpiContext :=
  unregister_object_loop self.n_registered_objects self

/-- A context as `gtk_at_spi_context_init` leaves it: nothing registered, the array
zero-filled; the connection answers its `k`-th registration with the id `k + 1`. -/
def example_at_spi_context : GtkAtSpiContext :=
  { connection := { register_result := fun k => k + 1, registered := [], unregistered := [] }
    interfaces := []
    registration_ids := List.replicate 20 0
    n_registered_objects := 0 }

/-- A widget with a text and a value vtable. -/
def example_accessible_widget : AccessibleWidget :=
  { text_vtable := true, editable_text_vtable := false, value_vtable := true,
    selection_vtable := false }

/-- Context `self'` is context `self` with `k` more objects registered: the `k` ids the
connection answered with are stored at the indices from `self.n_registered_objects` on,
in the order of the registrations, the other entries of the array are as they were, and
nothing was unregistered. -/
def registered_more (self self' : GtkAtSpiContext) (k : Nat) : Prop :=
  self'.n_registered_objects = self.n_registered_objects + k ∧
  self'.registration_ids.length = self.registration_ids.length ∧
  (∃ new : List (AtspiInterface × Nat), new.length = k ∧
    self'.connection.registered = self.connection.registered ++ new ∧
    self'.registration_ids.take (self.n_registered_objects + k) =
      self.registration_ids.take self.n_registered_objects ++ new.map Prod.snd) ∧
  self'.registration_ids.drop (self.n_registered_objects + k) =
    self.registration_ids.drop (self.n_registered_objects + k) ∧
  self'.connection.unregistered = self.connection.unregistered

/-! ## Auxiliary facts -/

theorem GuideValue.all_eq : GuideValue.all =
    [.MIN_WIDTH, .MIN_HEIGHT, .NAT_WIDTH, .NAT_HEIGHT, .MAX_WIDTH, .MAX_HEIGHT] := by
  decide

theorem foldr_max_base_le (l : List GtkConstraint) (n : Nat) :
    n ≤ (l.map (fun c => c.ref + 1)).foldr max n := by
  induction l with
  | nil => simp
  | cons c cs ih => simp only [List.map_cons, List.foldr_cons]; omega

theorem foldr_max_mem_lt (l : List GtkConstraint) (n : Nat) (c : GtkConstraint)
    (hc : c ∈ l) : c.ref < (l.map (fun c => c.ref + 1)).foldr max n := by
  induction l with
  | nil => simp at hc
  | cons d ds ih =>
    simp only [List.map_cons, List.foldr_cons]
    rcases List.mem_cons.mp hc with h | h
    · subst h; omega
    · have := ih h; omega

theorem foldr_max_le_of_bound (l : List GtkConstraint) (n : Nat)
    (h : ∀ c ∈ l, c.ref < n) : (l.map (fun c => c.ref + 1)).foldr max n ≤ n := by
  induction l with
  | nil => simp
  | cons d ds ih =>
    simp only [List.map_cons, List.foldr_cons]
    have h1 := ih (fun c hc => h c (List.mem_cons_of_mem _ hc))
    have h2 := h d (List.mem_cons_self _ _)
    omega

theorem GtkConstraintSolver.next_ref_le_fresh_ref (s : GtkConstraintSolver) :
    s.next_ref ≤ s.fresh_ref :=
  foldr_max_base_le _ _

theorem GtkConstraintSolver.ref_lt_fresh_ref (s : GtkConstraintSolver) (c : GtkConstraint)
    (hc : c ∈ s.constraints) : c.ref < s.fresh_ref :=
  foldr_max_mem_lt _ _ c hc

theorem GtkConstraintSolver.fresh_ref_remove (s : GtkConstraintSolver) (r : Nat) :
    (s.remove r).fresh_ref = s.fresh_ref := by
  apply le_antisymm
  · exact foldr_max_le_of_bound _ _
      (fun c hc => s.ref_lt_fresh_ref c (List.mem_of_mem_filter hc))
  · exact (s.remove r).next_ref_le_fresh_ref

theorem GtkConstraintSolver.fresh_ref_add (s : GtkConstraintSolver)
    (v : Option GtkConstraintVariable) (rel : GtkConstraintRelation)
    (e : GtkConstraintExpression) (wt : GtkConstraintWeight) :
    (s.add v rel e wt).fresh_ref = s.fresh_ref + 1 := by
  have hn : (s.add v rel e wt).next_ref = s.fresh_ref + 1 := rfl
  apply le_antisymm
  · rw [← hn]
    refine foldr_max_le_of_bound _ _ (fun c hc => ?_)
    simp only [GtkConstraintSolver.add, List.mem_append, List.mem_singleton] at hc
    rcases hc with h | h
    · have := s.ref_lt_fresh_ref c h; omega
    · subst h
      show s.fresh_ref < (s.add v rel e wt).next_ref
      omega
  · rw [← hn]; exact (s.add v rel e wt).next_ref_le_fresh_ref

theorem fresh_ref_sync_removed (s : GtkConstraintSolver) (c : Option Nat) :
    (sync_removed s c).fresh_ref = s.fresh_ref := by
  cases c with
  | none => rfl
  | some r => exact s.fresh_ref_remove r

theorem fresh_ref_bind_solver (cache : List (GtkConstraintAttribute × GtkConstraintVariable))
    (s : GtkConstraintSolver) (a : GtkConstraintAttribute) :
    (bind_solver cache s a).fresh_ref = s.fresh_ref := by
  unfold bind_solver
  cases cache.lookup a <;> rfl

theorem fresh_ref_n_variables (s : GtkConstraintSolver) (k : Nat) :
    ({ s with n_variables := k } : GtkConstraintSolver).fresh_ref = s.fresh_ref := rfl

theorem update_constraint_live (w : World) (g : GtkConstraintGuide) (i : GuideValue)
    (l : Nat) (s : GtkConstraintSolver) (hl : g.layout = some l)
    (hs : w.solvers l = some s) :
    gtk_constraint_guide_update_constraint w g i =
      (⟨Function.update w.solvers l (some (sync_solver s g i)), w.widgets,
          w.log ++ sync_log l s g i⟩, sync_guide s g i) := by
  unfold gtk_constraint_guide_update_constraint
  simp only [hl, gtk_constraint_layout_get_solver, hs]
  cases hc : g.constraints i <;> cases hk : g.bound_attributes.lookup (attr i) <;>
    simp [hc, hk, gtk_constraint_layout_get_attribute, gtk_constraint_solver_add_constraint,
      gtk_constraint_solver_remove_constraint,
      World.emit, World.set_solver, hs, sync_solver, sync_guide, sync_log, sync_removed,
      bind_var, bind_cache, bind_solver, bind_log, hl, fresh_ref_n_variables,
      GtkConstraintSolver.fresh_ref_remove]

theorem sync_guide_layout (s : GtkConstraintSolver) (g : GtkConstraintGuide) (i : GuideValue) :
    (sync_guide s g i).layout = g.layout := rfl

theorem sync_guide_values (s : GtkConstraintSolver) (g : GtkConstraintGuide) (i : GuideValue) :
    (sync_guide s g i).values = g.values := rfl

theorem update_constraint_fold_live (l : Nat) (is : List GuideValue) :
    ∀ (w : World) (g : GtkConstraintGuide) (s : GtkConstraintSolver),
      g.layout = some l → w.solvers l = some s →
      is.foldl (fun st i => gtk_constraint_guide_update_constraint st.1 st.2 i) (w, g) =
        (⟨Function.update w.solvers l (some (is.foldl (sync l) (s, g, w.log)).1), w.widgets,
            (is.foldl (sync l) (s, g, w.log)).2.2⟩,
          (is.foldl (sync l) (s, g, w.log)).2.1) := by
  induction is with
  | nil =>
    intro w g s _ hs
    simp [← hs]
  | cons i is ih =>
    intro w g s hl hs
    simp only [List.foldl_cons]
    rw [update_constraint_live w g i l s hl hs]
    rw [ih _ (sync_guide s g i) (sync_solver s g i) (by rw [sync_guide_layout]; exact hl)
      (by simp)]
    simp [sync]

theorem update_live (w : World) (g : GtkConstraintGuide) (l : Nat) (s : GtkConstraintSolver)
    (hl : g.layout = some l) (hs : w.solvers l = some s) :
    gtk_constraint_guide_update w g =
      (⟨Function.update w.solvers l (some (GuideValue.all.foldl (sync l) (s, g, w.log)).1),
          w.widgets, (GuideValue.all.foldl (sync l) (s, g, w.log)).2.2⟩,
        (GuideValue.all.foldl (sync l) (s, g, w.log)).2.1) :=
  update_constraint_fold_live l GuideValue.all w g s hl hs

theorem remove_constraint_live (w : World) (l : Nat) (s : GtkConstraintSolver)
    (c : Option Nat) (hs : w.solvers l = some s) :
    gtk_constraint_solver_remove_constraint w l c =
      ⟨Function.update w.solvers l (some (sync_removed s c)), w.widgets,
        w.log ++ [Call.remove_constraint l c]⟩ := by
  cases c with
  | none =>
    have h : Function.update w.solvers l (some s) = w.solvers := by
      rw [← hs, Function.update_eq_self]
    simp [gtk_constraint_solver_remove_constraint, World.emit, hs, sync_removed, h]
  | some r =>
    simp [gtk_constraint_solver_remove_constraint, World.emit, World.set_solver, hs,
      sync_removed]

theorem detach_fold_live (l : Nat) (is : List GuideValue) :
    ∀ (w : World) (g : GtkConstraintGuide) (s : GtkConstraintSolver),
      w.solvers l = some s →
      is.foldl (fun (st : World × GtkConstraintGuide) i =>
          (gtk_constraint_solver_remove_constraint st.1 l (st.2.constraints i),
            { st.2 with constraints := Function.update st.2.constraints i none })) (w, g) =
        (⟨Function.update w.solvers l (some (is.foldl (detach_step l) (s, g, w.log)).1),
            w.widgets, (is.foldl (detach_step l) (s, g, w.log)).2.2⟩,
          (is.foldl (detach_step l) (s, g, w.log)).2.1) := by
  induction is with
  | nil =>
    intro w g s hs
    simp [← hs]
  | cons i is ih =>
    intro w g s hs
    simp only [List.foldl_cons]
    rw [remove_constraint_live w l s _ hs]
    rw [ih _ _ (sync_removed s (g.constraints i)) (by simp)]
    simp [detach_step]

theorem detach_live (w : World) (g : GtkConstraintGuide) (l : Nat) (s : GtkConstraintSolver)
    (hl : g.layout = some l) (hs : w.solvers l = some s) :
    gtk_constraint_guide_detach w g =
      (⟨Function.update w.solvers l
            (some (GuideValue.all.foldl (detach_step l) (s, g, w.log)).1),
          w.widgets, (GuideValue.all.foldl (detach_step l) (s, g, w.log)).2.2⟩,
        { (GuideValue.all.foldl (detach_step l) (s, g, w.log)).2.1 with
          bound_attributes := [] }) := by
  unfold gtk_constraint_guide_detach
  simp only [hl, gtk_constraint_layout_get_solver, hs]
  rw [detach_fold_live l GuideValue.all w g s hs]

theorem detach_no_layout (w : World) (g : GtkConstraintGuide) (hl : g.layout = none) :
    gtk_constraint_guide_detach w g = (w, g) := by
  simp [gtk_constraint_guide_detach, hl]

theorem detach_no_solver (w : World) (g : GtkConstraintGuide) (l : Nat)
    (hl : g.layout = some l) (hs : w.solvers l = none) :
    gtk_constraint_guide_detach w g = (w, g) := by
  simp [gtk_constraint_guide_detach, hl, gtk_constraint_layout_get_solver, hs]

theorem detach_steps_guide (l : Nat) (s : GtkConstraintSolver) (g : GtkConstraintGuide)
    (lg : List Call) :
    (GuideValue.all.foldl (detach_step l) (s, g, lg)).2.1 =
      { g with constraints := fun _ => none } := by
  simp only [GuideValue.all_eq, List.foldl_cons, List.foldl_nil, detach_step]
  congr 1
  funext i
  cases i <;> simp [Function.update]

theorem sync_removed_constraints (s : GtkConstraintSolver) (c : Option Nat) :
    (sync_removed s c).constraints = s.constraints.filter (fun x => c ≠ some x.ref) := by
  cases c with
  | none => simp [sync_removed]
  | some r =>
    simp only [sync_removed, GtkConstraintSolver.remove]
    apply List.filter_congr
    intro x _
    simp [eq_comm]

theorem mem_held_refs (g : GtkConstraintGuide) (r : Nat) :
    r ∈ held_refs g ↔ ∃ i, g.constraints i = some r := by
  simp only [held_refs, List.mem_filterMap, GuideValue.all_eq]
  constructor
  · rintro ⟨i, _, h⟩; exact ⟨i, h⟩
  · rintro ⟨i, h⟩; exact ⟨i, by cases i <;> simp, h⟩

theorem detach_steps_constraints (l : Nat) (s : GtkConstraintSolver) (g : GtkConstraintGuide)
    (lg : List Call) :
    (GuideValue.all.foldl (detach_step l) (s, g, lg)).1.constraints =
      s.constraints.filter (fun c => c.ref ∉ held_refs g) := by
  simp only [GuideValue.all_eq, List.foldl_cons, List.foldl_nil, detach_step]
  simp only [sync_removed_constraints, List.filter_filter]
  apply List.filter_congr
  intro x _
  rw [Bool.eq_iff_iff]
  simp only [mem_held_refs, Function.update, Bool.and_eq_true, Bool.not_eq_true',
    decide_eq_false_iff_not, decide_eq_true_eq, Bool.not_eq_eq_eq_not, Bool.not_true]
  simp
  constructor
  · intro h i
    cases i <;> simp_all
  · intro h
    exact ⟨h _, h _, h _, h _, h _, h _⟩

theorem sync_solver_constraints (s : GtkConstraintSolver) (g : GtkConstraintGuide)
    (i : GuideValue) :
    (sync_solver s g i).constraints =
      (sync_removed s (g.constraints i)).constraints ++
        [⟨s.fresh_ref,
          some (bind_var g.bound_attributes (sync_removed s (g.constraints i)) (attr i) "guide"),
          relation i, gtk_constraint_expression_new (g.values i), weight i⟩] := by
  simp [sync_solver, GtkConstraintSolver.add, fresh_ref_bind_solver, fresh_ref_sync_removed]
  unfold bind_solver
  cases g.bound_attributes.lookup (attr i) <;> rfl

theorem sync_solver_fresh_ref (s : GtkConstraintSolver) (g : GtkConstraintGuide)
    (i : GuideValue) : (sync_solver s g i).fresh_ref = s.fresh_ref + 1 := by
  simp [sync_solver, GtkConstraintSolver.fresh_ref_add, fresh_ref_bind_solver,
    fresh_ref_sync_removed]

/-! ## The claims -/

/-- C1, the code at the claim's input: a guide fresh from `gtk_constraint_guide_new`
reads back a minimum size of (0, 0) and a natural size of (0, 0), but a maximum size of
(0, 0) and not of (G_MAXINT, G_MAXINT), although the property specifications of
`max-width` and `max-height` declare `G_MAXINT` as their default. -/
theorem new_guide_max_size_is_zero :
    (gtk_constraint_guide_get_min_size gtk_constraint_guide_new).2 = (0, 0) ∧
    (gtk_constraint_guide_get_nat_size gtk_constraint_guide_new).2 = (0, 0) ∧
    (gtk_constraint_guide_get_max_size gtk_constraint_guide_new).2 = (0, 0) ∧
    (gtk_constraint_guide_get_max_size gtk_constraint_guide_new).2 ≠ (G_MAXINT, G_MAXINT) ∧
    (guide_props PROP_MAX_WIDTH).map (fun p => p.default_value) = some G_MAXINT ∧
    (guide_props PROP_MAX_HEIGHT).map (fun p => p.default_value) = some G_MAXINT := by
  decide

/-- C2: for a guide attached to a layout with a live solver and holding no constraints,
`gtk_constraint_guide_update` appends exactly six constraints to the solver's
constraints, one per slot in the order MinWidth, MinHeight, NatWidth, NatHeight,
MaxWidth, MaxHeight, with relations GE, GE, EQ, EQ, LE, LE, weights Required, Required,
Medium, Medium, Required, Required and the slot's value as constant; the handle stored
in each slot is the handle of its constraint. -/
theorem update_adds_six_constraints (w : World) (g : GtkConstraintGuide) (l : Nat)
    (s : GtkConstraintSolver) (hl : g.layout = some l) (hs : w.solvers l = some s)
    (hnone : ∀ i, g.constraints i = none) :
    ∃ cs, ((gtk_constraint_guide_update w g).1.solvers l).map (fun s' => s'.constraints) =
        some (s.constraints ++ cs) ∧
      cs.length = 6 ∧
      cs.map (fun c => (c.relation, c.weight, c.expression.constant)) =
        [(.GE, .REQUIRED, g.values .MIN_WIDTH), (.GE, .REQUIRED, g.values .MIN_HEIGHT),
          (.EQ, .MEDIUM, g.values .NAT_WIDTH), (.EQ, .MEDIUM, g.values .NAT_HEIGHT),
          (.LE, .REQUIRED, g.values .MAX_WIDTH), (.LE, .REQUIRED, g.values .MAX_HEIGHT)] ∧
      cs.map (fun c => some c.ref) =
        GuideValue.all.map (gtk_constraint_guide_update w g).2.constraints := by
  rw [update_live w g l s hl hs]
  simp only [Function.update_same, Option.map_some']
  generalize hX : (GuideValue.all.foldl (sync l) (s, g, w.log)).1.constraints = X
  generalize hY : (GuideValue.all.foldl (sync l) (s, g, w.log)).2.1.constraints = Y
  simp only [GuideValue.all_eq, List.foldl_cons, List.foldl_nil, sync] at hX hY
  simp [sync_solver_constraints, sync_guide, Function.update, hnone, sync_removed,
    sync_solver_fresh_ref] at hX hY
  subst hX hY
  refine ⟨_, rfl, rfl, ?_, ?_⟩
  · simp [relation, weight, gtk_constraint_expression_new]
  · simp [GuideValue.all_eq]
/-- C2, at the guide with minimum 10x20, natural 50x60 and maximum 100x200. -/
theorem update_adds_six_constraints_witness :
    example_guide.layout = some 0 ∧ example_world.solvers 0 = some example_solver ∧
    (∀ i, example_guide.constraints i = none) ∧
    ∃ cs, ((gtk_constraint_guide_update example_world example_guide).1.solvers 0).map
        (fun s' => s'.constraints) = some (example_solver.constraints ++ cs) ∧
      cs.length = 6 ∧
      cs.map (fun c => (c.relation, c.weight, c.expression.constant)) =
        [(.GE, .REQUIRED, example_guide.values .MIN_WIDTH),
          (.GE, .REQUIRED, example_guide.values .MIN_HEIGHT),
          (.EQ, .MEDIUM, example_guide.values .NAT_WIDTH),
          (.EQ, .MEDIUM, example_guide.values .NAT_HEIGHT),
          (.LE, .REQUIRED, example_guide.values .MAX_WIDTH),
          (.LE, .REQUIRED, example_guide.values .MAX_HEIGHT)] ∧
      cs.map (fun c => some c.ref) =
        GuideValue.all.map
          (gtk_constraint_guide_update example_world example_guide).2.constraints :=
  ⟨rfl, rfl, fun _ => rfl,
    update_adds_six_constraints example_world example_guide 0 example_solver rfl rfl
      (fun _ => rfl)⟩

theorem get_attribute_live (w : World) (l : Nat) (s : GtkConstraintSolver)
    (a : GtkConstraintAttribute) (anchor : String) (widget : Option Nat)
    (cache : List (GtkConstraintAttribute × GtkConstraintVariable))
    (hs : w.solvers l = some s) :
    gtk_constraint_layout_get_attribute w (some l) a anchor widget cache =
      (⟨Function.update w.solvers l (some (bind_solver cache s a)), w.widgets,
          w.log ++ bind_log cache s l a anchor widget⟩,
        bind_cache cache s a anchor, some (bind_var cache s a anchor)) := by
  have h : Function.update w.solvers l (some s) = w.solvers := by
    rw [← hs, Function.update_eq_self]
  cases hk : cache.lookup a <;>
    simp [gtk_constraint_layout_get_attribute, World.emit, World.set_solver, hs, hk,
      bind_solver, bind_log, bind_cache, bind_var, h]

theorem bind_var_sync_removed (cache : List (GtkConstraintAttribute × GtkConstraintVariable))
    (s : GtkConstraintSolver) (c : Option Nat) (a : GtkConstraintAttribute) (anchor : String) :
    bind_var cache (sync_removed s c) a anchor = bind_var cache s a anchor := by
  cases c <;> rfl

theorem bind_cache_sync_removed
    (cache : List (GtkConstraintAttribute × GtkConstraintVariable))
    (s : GtkConstraintSolver) (c : Option Nat) (a : GtkConstraintAttribute) (anchor : String) :
    bind_cache cache (sync_removed s c) a anchor = bind_cache cache s a anchor := by
  cases c <;> rfl

/-- C3: for every slot `i` of a guide attached to a layout with a solver, the handle
`gtk_constraint_guide_update_constraint` stores in slot `i` denotes one constraint of
the solver, the one added last; that constraint is on the variable the binder returns
for the attribute Width when `i` is MinWidth, NatWidth or MaxWidth and Height otherwise,
asked with the anchor name "guide", no widget and the cache `bound_attributes`, and its
right-hand side is the constant expression of value `values[i]`. -/
theorem update_constraint_variable_and_constant (w : World) (g : GtkConstraintGuide)
    (i : GuideValue) (l : Nat) (s : GtkConstraintSolver) (hl : g.layout = some l)
    (hs : w.solvers l = some s) :
    ∃ s' c, (gtk_constraint_guide_update_constraint w g i).1.solvers l = some s' ∧
      s'.constraints.getLast? = some c ∧
      (gtk_constraint_guide_update_constraint w g i).2.constraints i = some c.ref ∧
      (∀ c' ∈ s'.constraints, c'.ref = c.ref → c' = c) ∧
      c.var = (gtk_constraint_layout_get_attribute w (some l)
        (if i = .MIN_WIDTH ∨ i = .NAT_WIDTH ∨ i = .MAX_WIDTH then .WIDTH else .HEIGHT)
        "guide" none g.bound_attributes).2.2 ∧
      c.expression = gtk_constraint_expression_new (g.values i) ∧
      c.expression.constant = g.values i := by
  have ha : (if i = .MIN_WIDTH ∨ i = .NAT_WIDTH ∨ i = .MAX_WIDTH then
      GtkConstraintAttribute.WIDTH else .HEIGHT) = attr i := by
    cases i <;> simp [attr]
  rw [update_constraint_live w g i l s hl hs, ha, get_attribute_live w l s _ _ _ _ hs]
  refine ⟨sync_solver s g i, ⟨s.fresh_ref,
    some (bind_var g.bound_attributes (sync_removed s (g.constraints i)) (attr i) "guide"),
    relation i, gtk_constraint_expression_new (g.values i), weight i⟩,
    by simp, ?_, ?_, ?_, ?_, rfl, rfl⟩
  · rw [sync_solver_constraints]; simp
  · simp [sync_guide]
  · intro c' hc' hr
    rw [sync_solver_constraints] at hc'
    rcases List.mem_append.mp hc' with h | h
    · have hlt := (sync_removed s (g.constraints i)).ref_lt_fresh_ref c' h
      rw [fresh_ref_sync_removed] at hlt
      simp at hr
      omega
    · simpa using h
  · simp [bind_var_sync_removed]
/-- C3, at slot NatHeight of the example guide. -/
theorem update_constraint_variable_and_constant_witness :
    example_guide.layout = some 0 ∧ example_world.solvers 0 = some example_solver ∧
    ∃ s' c, (gtk_constraint_guide_update_constraint example_world example_guide
        .NAT_HEIGHT).1.solvers 0 = some s' ∧
      s'.constraints.getLast? = some c ∧
      (gtk_constraint_guide_update_constraint example_world example_guide
        .NAT_HEIGHT).2.constraints .NAT_HEIGHT = some c.ref ∧
      (∀ c' ∈ s'.constraints, c'.ref = c.ref → c' = c) ∧
      c.var = (gtk_constraint_layout_get_attribute example_world (some 0)
        (if GuideValue.NAT_HEIGHT = .MIN_WIDTH ∨ GuideValue.NAT_HEIGHT = .NAT_WIDTH ∨
          GuideValue.NAT_HEIGHT = .MAX_WIDTH then .WIDTH else .HEIGHT)
        "guide" none example_guide.bound_attributes).2.2 ∧
      c.expression = gtk_constraint_expression_new (example_guide.values .NAT_HEIGHT) ∧
      c.expression.constant = example_guide.values .NAT_HEIGHT :=
  ⟨rfl, rfl,
    update_constraint_variable_and_constant example_world example_guide .NAT_HEIGHT 0
      example_solver rfl rfl⟩

theorem sync_fold_layout (l : Nat) (is : List GuideValue) :
    ∀ (s : GtkConstraintSolver) (g : GtkConstraintGuide) (lg : List Call),
      (is.foldl (sync l) (s, g, lg)).2.1.layout = g.layout := by
  induction is with
  | nil => intro s g lg; rfl
  | cons i is ih => intro s g lg; simp only [List.foldl_cons]; rw [sync, ih]; rfl

theorem sync_fold_values (l : Nat) (is : List GuideValue) :
    ∀ (s : GtkConstraintSolver) (g : GtkConstraintGuide) (lg : List Call),
      (is.foldl (sync l) (s, g, lg)).2.1.values = g.values := by
  induction is with
  | nil => intro s g lg; rfl
  | cons i is ih => intro s g lg; simp only [List.foldl_cons]; rw [sync, ih]; rfl

/-- C4, as amended: for every solver state and every guide that holds no constraint,
the sequence set_layout(layout); update; detach on a layout with a live solver leaves
the solver's constraints equal to what they were before the attach; update had added
six constraints, detach removes these six and nothing else. -/
theorem attach_update_detach_restores (w : World) (g : GtkConstraintGuide) (l : Nat)
    (s : GtkConstraintSolver) (hs : w.solvers l = some s)
    (hnone : ∀ i, g.constraints i = none) :
    ((gtk_constraint_guide_update w (gtk_constraint_guide_set_layout g (some l))).1.solvers
        l).map (fun s' => s'.constraints.length) = some (s.constraints.length + 6) ∧
    ((gtk_constraint_guide_detach
        (gtk_constraint_guide_update w (gtk_constraint_guide_set_layout g (some l))).1
        (gtk_constraint_guide_update w (gtk_constraint_guide_set_layout g (some l))).2).1.solvers
        l).map (fun s' => s'.constraints) = some s.constraints := by
  have hl : (gtk_constraint_guide_set_layout g (some l)).layout = some l := rfl
  have hn : ∀ i, (gtk_constraint_guide_set_layout g (some l)).constraints i = none := hnone
  generalize gtk_constraint_guide_set_layout g (some l) = g1 at hl hn ⊢
  rw [update_live w g1 l s hl hs]
  rw [detach_live _ _ l (GuideValue.all.foldl (sync l) (s, g1, w.log)).1
    (by rw [sync_fold_layout]; exact hl) (by simp)]
  simp only [Function.update_same, Option.map_some', detach_steps_constraints]
  have hh : ∀ r, r ∈ held_refs (GuideValue.all.foldl (sync l) (s, g1, w.log)).2.1 ↔
      s.fresh_ref ≤ r ∧ r < s.fresh_ref + 6 := by
    intro r
    rw [mem_held_refs]
    generalize hY : (GuideValue.all.foldl (sync l) (s, g1, w.log)).2.1.constraints = Y
    simp only [GuideValue.all_eq, List.foldl_cons, List.foldl_nil, sync] at hY
    simp [sync_guide, Function.update, sync_solver_fresh_ref] at hY
    subst hY
    constructor
    · rintro ⟨i, hi⟩
      cases i <;> simp at hi <;> omega
    · rintro ⟨h1, h2⟩
      have : r = s.fresh_ref ∨ r = s.fresh_ref + 1 ∨ r = s.fresh_ref + 2 ∨
        r = s.fresh_ref + 3 ∨ r = s.fresh_ref + 4 ∨ r = s.fresh_ref + 5 := by omega
      rcases this with h | h | h | h | h | h
      · exact ⟨.MIN_WIDTH, by simp [h]⟩
      · exact ⟨.MIN_HEIGHT, by simp [h]⟩
      · exact ⟨.NAT_WIDTH, by simp [h]⟩
      · exact ⟨.NAT_HEIGHT, by simp [h]⟩
      · exact ⟨.MAX_WIDTH, by simp [h]⟩
      · exact ⟨.MAX_HEIGHT, by simp [h]⟩
  generalize hX : (GuideValue.all.foldl (sync l) (s, g1, w.log)).1.constraints = X
  generalize held_refs (GuideValue.all.foldl (sync l) (s, g1, w.log)).2.1 = H at hh
  simp only [GuideValue.all_eq, List.foldl_cons, List.foldl_nil, sync] at hX
  simp [sync_solver_constraints, sync_guide, Function.update, hn, sync_removed,
    sync_solver_fresh_ref] at hX
  subst hX
  refine ⟨by simp, ?_⟩
  rw [List.filter_append]
  have h1 : s.constraints.filter (fun c => decide (c.ref ∉ H)) = s.constraints := by
    rw [List.filter_eq_self]
    intro c hc
    have := s.ref_lt_fresh_ref c hc
    simp [hh]
    omega
  rw [h1]
  simp [hh]
  omega
/-- C4, at the example guide and the example world. -/
theorem attach_update_detach_restores_witness :
    example_world.solvers 0 = some example_solver ∧
    (∀ i, example_guide.constraints i = none) ∧
    ((gtk_constraint_guide_update example_world
        (gtk_constraint_guide_set_layout example_guide (some 0))).1.solvers
        0).map (fun s' => s'.constraints.length) = some (example_solver.constraints.length + 6) ∧
    ((gtk_constraint_guide_detach
        (gtk_constraint_guide_update example_world
          (gtk_constraint_guide_set_layout example_guide (some 0))).1
        (gtk_constraint_guide_update example_world
          (gtk_constraint_guide_set_layout example_guide (some 0))).2).1.solvers
        0).map (fun s' => s'.constraints) = some example_solver.constraints :=
  ⟨rfl, fun _ => rfl,
    attach_update_detach_restores example_world example_guide 0 example_solver rfl
      (fun _ => rfl)⟩

/-- C4 as stated fails for a guide that still holds handles: from the state reached by
set_layout(layout 0); update; set_layout(NULL) the guide is unattached and the solver of
layout 0 holds six constraints; after set_layout(layout 0); update; detach it holds
none. -/
theorem attach_update_detach_counterexample :
    stale_state.2.layout = none ∧
    (stale_state.1.solvers 0).map (fun s => s.constraints.length) = some 6 ∧
    ((gtk_constraint_guide_detach
        (gtk_constraint_guide_update stale_state.1
          (gtk_constraint_guide_set_layout stale_state.2 (some 0))).1
        (gtk_constraint_guide_update stale_state.1
          (gtk_constraint_guide_set_layout stale_state.2 (some 0))).2).1.solvers
        0).map (fun s => s.constraints.length) = some 0 ∧
    ((gtk_constraint_guide_detach
        (gtk_constraint_guide_update stale_state.1
          (gtk_constraint_guide_set_layout stale_state.2 (some 0))).1
        (gtk_constraint_guide_update stale_state.1
          (gtk_constraint_guide_set_layout stale_state.2 (some 0))).2).1.solvers
        0).map (fun s => s.constraints) ≠
      (stale_state.1.solvers 0).map (fun s => s.constraints) := by
  decide
theorem detach_steps_solver_of_none (l : Nat) (s : GtkConstraintSolver)
    (g : GtkConstraintGuide) (lg : List Call) (hnone : ∀ i, g.constraints i = none) :
    (GuideValue.all.foldl (detach_step l) (s, g, lg)).1 = s := by
  simp only [GuideValue.all_eq, List.foldl_cons, List.foldl_nil, detach_step]
  simp [Function.update, hnone, sync_removed]

theorem detach_layout (w : World) (g : GtkConstraintGuide) :
    (gtk_constraint_guide_detach w g).2.layout = g.layout := by
  cases hl : g.layout with
  | none => rw [detach_no_layout w g hl, hl]
  | some l =>
    cases hs : w.solvers l with
    | none => rw [detach_no_solver w g l hl hs, hl]
    | some s => rw [detach_live w g l s hl hs, detach_steps_guide]; exact hl

theorem detach_guide_live (w : World) (g : GtkConstraintGuide) (l : Nat)
    (s : GtkConstraintSolver) (hl : g.layout = some l) (hs : w.solvers l = some s) :
    (gtk_constraint_guide_detach w g).2 =
      { g with constraints := fun _ => none, bound_attributes := [] } := by
  rw [detach_live w g l s hl hs, detach_steps_guide]

/-- C5, as amended: for every guide state, calling `gtk_constraint_guide_detach` twice
in a row leaves the guide, and the solvers, as calling it once does; detach leaves
`layout` as it was; and when the layout of the guide exposes a solver, after the call
all six `constraints[i]` are `None` and `bound_attributes` is empty. -/
theorem detach_twice_eq_detach_once (w : World) (g : GtkConstraintGuide) :
    (gtk_constraint_guide_detach (gtk_constraint_guide_detach w g).1
        (gtk_constraint_guide_detach w g).2).2 = (gtk_constraint_guide_detach w g).2 ∧
    (gtk_constraint_guide_detach (gtk_constraint_guide_detach w g).1
        (gtk_constraint_guide_detach w g).2).1.solvers =
      (gtk_constraint_guide_detach w g).1.solvers ∧
    (gtk_constraint_guide_detach w g).2.layout = g.layout ∧
    (∀ l s, g.layout = some l → w.solvers l = some s →
      (∀ i, (gtk_constraint_guide_detach w g).2.constraints i = none) ∧
      (gtk_constraint_guide_detach w g).2.bound_attributes = []) := by
  refine ⟨?_, ?_, detach_layout w g, ?_⟩
  · cases hl : g.layout with
    | none => simp [detach_no_layout w g hl]
    | some l =>
      cases hs : w.solvers l with
      | none => simp [detach_no_solver w g l hl hs]
      | some s =>
        rw [detach_live w g l s hl hs, detach_steps_guide]
        dsimp only
        rw [detach_guide_live _ { g with constraints := fun _ => none, bound_attributes := [] }
          l _ hl (Function.update_same _ _ _)]
  · cases hl : g.layout with
    | none => simp [detach_no_layout w g hl]
    | some l =>
      cases hs : w.solvers l with
      | none => simp [detach_no_solver w g l hl hs]
      | some s =>
        rw [detach_live w g l s hl hs, detach_steps_guide]
        dsimp only
        rw [detach_live _ { g with constraints := fun _ => none, bound_attributes := [] }
          l _ hl (Function.update_same _ _ _)]
        simp only [Function.update_idem]
        rw [detach_steps_solver_of_none _ _ _ _ (fun _ => rfl)]
  · intro l s hl hs
    rw [detach_guide_live w g l s hl hs]
    exact ⟨fun _ => rfl, rfl⟩
/-- C5, at the example guide after update. -/
theorem detach_twice_eq_detach_once_witness :
    updated_state.2.layout = some 0 ∧ updated_state.1.solvers 0 = some updated_solver ∧
    (∀ i, (gtk_constraint_guide_detach updated_state.1 updated_state.2).2.constraints i =
      none) ∧
    (gtk_constraint_guide_detach updated_state.1 updated_state.2).2.bound_attributes = [] :=
  ⟨by decide, by decide,
    (detach_twice_eq_detach_once updated_state.1 updated_state.2).2.2.2 0 updated_solver
      (by decide) (by decide)⟩

/-- C5 as stated fails: after two calls of detach on the attached example guide `layout`
is still layout 0, not `None`; and on the unattached guide of `stale_state`, which holds
handles and cached variables, two calls of detach leave the handles and the cache as
they were. -/
theorem detach_twice_counterexample :
    (gtk_constraint_guide_detach
        (gtk_constraint_guide_detach updated_state.1 updated_state.2).1
        (gtk_constraint_guide_detach updated_state.1 updated_state.2).2).2.layout = some 0 ∧
    stale_state.2.layout = none ∧
    (gtk_constraint_guide_detach
        (gtk_constraint_guide_detach stale_state.1 stale_state.2).1
        (gtk_constraint_guide_detach stale_state.1 stale_state.2).2).2.bound_attributes.length
      = 2 ∧
    GuideValue.all.map (gtk_constraint_guide_detach
        (gtk_constraint_guide_detach stale_state.1 stale_state.2).1
        (gtk_constraint_guide_detach stale_state.1 stale_state.2).2).2.constraints =
      [some 0, some 1, some 2, some 3, some 4, some 5] := by
  decide
theorem update_constraint_no_layout (w : World) (g : GtkConstraintGuide) (i : GuideValue)
    (hl : g.layout = none) : gtk_constraint_guide_update_constraint w g i = (w, g) := by
  simp [gtk_constraint_guide_update_constraint, hl]

theorem update_constraint_no_solver (w : World) (g : GtkConstraintGuide) (i : GuideValue)
    (l : Nat) (hl : g.layout = some l) (hs : w.solvers l = none) :
    gtk_constraint_guide_update_constraint w g i = (w, g) := by
  simp [gtk_constraint_guide_update_constraint, hl, gtk_constraint_layout_get_solver, hs]

theorem update_constraint_values (w : World) (g : GtkConstraintGuide) (i : GuideValue) :
    (gtk_constraint_guide_update_constraint w g i).2.values = g.values := by
  cases hl : g.layout with
  | none => rw [update_constraint_no_layout w g i hl]
  | some l =>
    cases hs : w.solvers l with
    | none => rw [update_constraint_no_solver w g i l hl hs]
    | some s => rw [update_constraint_live w g i l s hl hs]; rfl

theorem update_constraint_layout (w : World) (g : GtkConstraintGuide) (i : GuideValue) :
    (gtk_constraint_guide_update_constraint w g i).2.layout = g.layout := by
  cases hl : g.layout with
  | none => rw [update_constraint_no_layout w g i hl, hl]
  | some l =>
    cases hs : w.solvers l with
    | none => rw [update_constraint_no_solver w g i l hl hs, hl]
    | some s => rw [update_constraint_live w g i l s hl hs]; exact hl

theorem update_constraint_constraints_ne (w : World) (g : GtkConstraintGuide)
    (i j : GuideValue) (hj : j ≠ i) :
    (gtk_constraint_guide_update_constraint w g i).2.constraints j = g.constraints j := by
  cases hl : g.layout with
  | none => rw [update_constraint_no_layout w g i hl]
  | some l =>
    cases hs : w.solvers l with
    | none => rw [update_constraint_no_solver w g i l hl hs]
    | some s =>
      rw [update_constraint_live w g i l s hl hs]
      simp [sync_guide, Function.update_noteq hj]

theorem set_property_changes_only_slot (w : World) (g : GtkConstraintGuide) (p : Nat)
    (i : GuideValue) (val : Int) (hp : GuideValue.of_prop_id p = some i) :
    changes_only_slot g (gtk_constraint_guide_set_property w g p val).2 i val := by
  unfold gtk_constraint_guide_set_property
  simp only [hp]
  by_cases hv : g.values i = val
  · simp [hv, changes_only_slot]
  · simp only [ne_eq, hv, not_false_eq_true, if_true]
    refine ⟨?_, fun j hj => ⟨?_, ?_⟩⟩
    · rw [update_constraint_values]; simp
    · rw [update_constraint_values]; simp [Function.update_noteq hj]
    · rw [update_constraint_constraints_ne _ _ _ _ hj]

theorem g_object_set_min_width (w : World) (g : GtkConstraintGuide) (v : Int) :
    g_object_set w g "min-width" v =
      if 0 ≤ v ∧ v ≤ G_MAXINT then gtk_constraint_guide_set_property w g PROP_MIN_WIDTH v
      else (w, g) := rfl

theorem g_object_set_min_height (w : World) (g : GtkConstraintGuide) (v : Int) :
    g_object_set w g "min-height" v =
      if 0 ≤ v ∧ v ≤ G_MAXINT then gtk_constraint_guide_set_property w g PROP_MIN_HEIGHT v
      else (w, g) := rfl

theorem g_object_set_nat_width (w : World) (g : GtkConstraintGuide) (v : Int) :
    g_object_set w g "nat-width" v =
      if 0 ≤ v ∧ v ≤ G_MAXINT then gtk_constraint_guide_set_property w g PROP_NAT_WIDTH v
      else (w, g) := rfl

theorem g_object_set_nat_height (w : World) (g : GtkConstraintGuide) (v : Int) :
    g_object_set w g "nat-height" v =
      if 0 ≤ v ∧ v ≤ G_MAXINT then gtk_constraint_guide_set_property w g PROP_NAT_HEIGHT v
      else (w, g) := rfl

theorem g_object_set_max_width (w : World) (g : GtkConstraintGuide) (v : Int) :
    g_object_set w g "max-width" v =
      if 0 ≤ v ∧ v ≤ G_MAXINT then gtk_constraint_guide_set_property w g PROP_MAX_WIDTH v
      else (w, g) := rfl

theorem g_object_set_max_height (w : World) (g : GtkConstraintGuide) (v : Int) :
    g_object_set w g "max-height" v =
      if 0 ≤ v ∧ v ≤ G_MAXINT then gtk_constraint_guide_set_property w g PROP_MAX_HEIGHT v
      else (w, g) := rfl
theorem set_min_size_height (w : World) (g : GtkConstraintGuide) (h : Int)
    (h0 : 0 ≤ h) (h1 : h ≤ G_MAXINT) :
    gtk_constraint_guide_set_min_size w g (-1) h =
      gtk_constraint_guide_set_property w g PROP_MIN_HEIGHT h := by
  have h2 : h ≥ -1 := by omega
  have h3 : h ≠ -1 := by omega
  simp [gtk_constraint_guide_set_min_size, g_object_set_min_height, g_object_freeze_notify,
    g_object_thaw_notify, h0, h1, h2, h3]

theorem set_min_size_width (w : World) (g : GtkConstraintGuide) (v : Int)
    (h0 : 0 ≤ v) (h1 : v ≤ G_MAXINT) :
    gtk_constraint_guide_set_min_size w g v (-1) =
      gtk_constraint_guide_set_property w g PROP_MIN_WIDTH v := by
  have h2 : v ≥ -1 := by omega
  have h3 : v ≠ -1 := by omega
  simp [gtk_constraint_guide_set_min_size, g_object_set_min_width, g_object_freeze_notify,
    g_object_thaw_notify, h0, h1, h2, h3]

theorem set_nat_size_height (w : World) (g : GtkConstraintGuide) (h : Int)
    (h0 : 0 ≤ h) (h1 : h ≤ G_MAXINT) :
    gtk_constraint_guide_set_nat_size w g (-1) h =
      gtk_constraint_guide_set_property w g PROP_NAT_HEIGHT h := by
  have h2 : h ≥ -1 := by omega
  have h3 : h ≠ -1 := by omega
  simp [gtk_constraint_guide_set_nat_size, g_object_set_nat_height, g_object_freeze_notify,
    g_object_thaw_notify, h0, h1, h2, h3]

theorem set_nat_size_width (w : World) (g : GtkConstraintGuide) (v : Int)
    (h0 : 0 ≤ v) (h1 : v ≤ G_MAXINT) :
    gtk_constraint_guide_set_nat_size w g v (-1) =
      gtk_constraint_guide_set_property w g PROP_NAT_WIDTH v := by
  have h2 : v ≥ -1 := by omega
  have h3 : v ≠ -1 := by omega
  simp [gtk_constraint_guide_set_nat_size, g_object_set_nat_width, g_object_freeze_notify,
    g_object_thaw_notify, h0, h1, h2, h3]

theorem set_max_size_height (w : World) (g : GtkConstraintGuide) (h : Int)
    (h0 : 0 ≤ h) (h1 : h ≤ G_MAXINT) :
    gtk_constraint_guide_set_max_size w g (-1) h =
      gtk_constraint_guide_set_property w g PROP_MAX_HEIGHT h := by
  have h2 : h ≥ -1 := by omega
  have h3 : h ≠ -1 := by omega
  simp [gtk_constraint_guide_set_max_size, g_object_set_max_height, g_object_freeze_notify,
    g_object_thaw_notify, h0, h1, h2, h3]

theorem set_max_size_width (w : World) (g : GtkConstraintGuide) (v : Int)
    (h0 : 0 ≤ v) (h1 : v ≤ G_MAXINT) :
    gtk_constraint_guide_set_max_size w g v (-1) =
      gtk_constraint_guide_set_property w g PROP_MAX_WIDTH v := by
  have h2 : v ≥ -1 := by omega
  have h3 : v ≠ -1 := by omega
  simp [gtk_constraint_guide_set_max_size, g_object_set_max_width, g_object_freeze_notify,
    g_object_thaw_notify, h0, h1, h2, h3]

/-- C6: for each of set_min_size, set_nat_size and set_max_size and every `int` v >= 0,
the call with (-1, v) stores v in the height slot and leaves the value and the
constraint handle of the width slot (and of every other slot) unchanged; the call with
(v, -1) stores v in the width slot and leaves the value and the constraint handle of the
height slot (and of every other slot) unchanged. -/
theorem set_size_sentinel_keeps_other_slot (w : World) (g : GtkConstraintGuide) (v : Int)
    (h0 : 0 ≤ v) (h1 : v ≤ G_MAXINT) :
    changes_only_slot g (gtk_constraint_guide_set_min_size w g (-1) v).2 .MIN_HEIGHT v ∧
    changes_only_slot g (gtk_constraint_guide_set_nat_size w g (-1) v).2 .NAT_HEIGHT v ∧
    changes_only_slot g (gtk_constraint_guide_set_max_size w g (-1) v).2 .MAX_HEIGHT v ∧
    changes_only_slot g (gtk_constraint_guide_set_min_size w g v (-1)).2 .MIN_WIDTH v ∧
    changes_only_slot g (gtk_constraint_guide_set_nat_size w g v (-1)).2 .NAT_WIDTH v ∧
    changes_only_slot g (gtk_constraint_guide_set_max_size w g v (-1)).2 .MAX_WIDTH v := by
  rw [set_min_size_height w g v h0 h1, set_nat_size_height w g v h0 h1,
    set_max_size_height w g v h0 h1, set_min_size_width w g v h0 h1,
    set_nat_size_width w g v h0 h1, set_max_size_width w g v h0 h1]
  exact ⟨set_property_changes_only_slot w g _ _ v rfl,
    set_property_changes_only_slot w g _ _ v rfl,
    set_property_changes_only_slot w g _ _ v rfl,
    set_property_changes_only_slot w g _ _ v rfl,
    set_property_changes_only_slot w g _ _ v rfl,
    set_property_changes_only_slot w g _ _ v rfl⟩

/-- C6, at set_min_size(-1, 5) on the example guide after update; in particular the
width slot keeps its value 10 and its handle. -/
theorem set_size_sentinel_keeps_other_slot_witness :
    (0 : Int) ≤ 5 ∧ (5 : Int) ≤ G_MAXINT ∧
    changes_only_slot updated_state.2
      (gtk_constraint_guide_set_min_size updated_state.1 updated_state.2 (-1) 5).2
      .MIN_HEIGHT 5 ∧
    (gtk_constraint_guide_set_min_size updated_state.1 updated_state.2 (-1) 5).2.values
      .MIN_WIDTH = 10 ∧
    (gtk_constraint_guide_set_min_size updated_state.1 updated_state.2 (-1) 5).2.constraints
      .MIN_WIDTH = updated_state.2.constraints .MIN_WIDTH :=
  ⟨by decide, by decide,
    (set_size_sentinel_keeps_other_slot updated_state.1 updated_state.2 5 (by decide)
      (by decide)).1,
    by decide, by decide⟩
theorem lookup_bind_cache_ne (cache : List (GtkConstraintAttribute × GtkConstraintVariable))
    (s : GtkConstraintSolver) (a b : GtkConstraintAttribute) (anchor : String) (hab : a ≠ b) :
    (bind_cache cache s b anchor).lookup a = cache.lookup a := by
  unfold bind_cache
  cases cache.lookup b with
  | some v => rfl
  | none =>
    have hf : (a == b) = false := by simp [hab]
    simp [List.lookup_cons, hf]

theorem lookup_bind_cache_of_some
    (cache : List (GtkConstraintAttribute × GtkConstraintVariable))
    (s : GtkConstraintSolver) (a b : GtkConstraintAttribute) (anchor : String)
    (v : GtkConstraintVariable) (h : cache.lookup a = some v) :
    (bind_cache cache s b anchor).lookup a = some v := by
  by_cases hab : a = b
  · subst hab; simp [bind_cache, h]
  · rw [lookup_bind_cache_ne _ _ _ _ _ hab, h]

theorem set_property_live (w : World) (g : GtkConstraintGuide) (l : Nat)
    (s : GtkConstraintSolver) (p : Nat) (i : GuideValue) (val : Int)
    (hl : g.layout = some l) (hs : w.solvers l = some s)
    (hp : GuideValue.of_prop_id p = some i) (hv : val ≠ g.values i) :
    gtk_constraint_guide_set_property w g p val =
      (⟨Function.update w.solvers l
          (some (sync_solver s { g with values := Function.update g.values i val } i)),
          w.widgets,
          (w.log ++ [Call.notify p]) ++
            sync_log l s { g with values := Function.update g.values i val } i⟩,
        sync_guide s { g with values := Function.update g.values i val } i) := by
  unfold gtk_constraint_guide_set_property
  simp only [hp, ne_eq, Ne.symm hv, not_false_eq_true, if_true]
  rw [update_constraint_live (w.emit (Call.notify p))
    { g with values := Function.update g.values i val } i l s hl hs]
  rfl

/-- C7: for every guide attached to a layout with a solver in which all six constraints
of the guide are registered, setting the property of one slot `i` to a different value
changes only that slot: the other five values and the other five constraint handles
are unchanged; the entry of `bound_attributes` for every other attribute is unchanged
(the Height entry when `i` is a width slot, the Width entry when `i` is a height slot)
and no entry present before changes; slot `i` holds a new handle, different from the
old one, of a constraint with the new value as constant; the old constraint of slot
`i` is no longer registered and every other constraint of the solver still is. -/
theorem set_property_replaces_only_one_slot (w : World) (g : GtkConstraintGuide) (l : Nat)
    (s : GtkConstraintSolver) (p : Nat) (i : GuideValue) (val : Int)
    (hl : g.layout = some l) (hs : w.solvers l = some s)
    (hreg : ∀ j, ∃ r, g.constraints j = some r ∧ r ∈ s.refs)
    (hp : GuideValue.of_prop_id p = some i) (hv : val ≠ g.values i) :
    changes_only_slot g (gtk_constraint_guide_set_property w g p val).2 i val ∧
    (i = .MIN_WIDTH ∨ i = .NAT_WIDTH ∨ i = .MAX_WIDTH →
      (gtk_constraint_guide_set_property w g p val).2.bound_attributes.lookup .HEIGHT =
        g.bound_attributes.lookup .HEIGHT) ∧
    (i = .MIN_HEIGHT ∨ i = .NAT_HEIGHT ∨ i = .MAX_HEIGHT →
      (gtk_constraint_guide_set_property w g p val).2.bound_attributes.lookup .WIDTH =
        g.bound_attributes.lookup .WIDTH) ∧
    (∀ a v, g.bound_attributes.lookup a = some v →
      (gtk_constraint_guide_set_property w g p val).2.bound_attributes.lookup a = some v) ∧
    ∃ s' r_old r_new, (gtk_constraint_guide_set_property w g p val).1.solvers l = some s' ∧
      g.constraints i = some r_old ∧
      (gtk_constraint_guide_set_property w g p val).2.constraints i = some r_new ∧
      r_new ≠ r_old ∧ r_old ∉ s'.refs ∧
      (∃ c ∈ s'.constraints, c.ref = r_new ∧ c.expression.constant = val) ∧
      (∀ c ∈ s.constraints, c.ref ≠ r_old → c ∈ s'.constraints) := by
  refine ⟨set_property_changes_only_slot w g p i val hp, ?_, ?_, ?_, ?_⟩
  · intro hi
    rw [set_property_live w g l s p i val hl hs hp hv]
    simp only [sync_guide]
    apply lookup_bind_cache_ne
    rcases hi with h | h | h <;> subst h <;> simp [attr]
  · intro hi
    rw [set_property_live w g l s p i val hl hs hp hv]
    simp only [sync_guide]
    apply lookup_bind_cache_ne
    rcases hi with h | h | h <;> subst h <;> simp [attr]
  · intro a v hav
    rw [set_property_live w g l s p i val hl hs hp hv]
    simp only [sync_guide]
    exact lookup_bind_cache_of_some _ _ _ _ _ _ hav
  · obtain ⟨r, hr, hrs⟩ := hreg i
    rw [set_property_live w g l s p i val hl hs hp hv]
    have hlt : r < s.fresh_ref := by
      simp only [GtkConstraintSolver.refs, List.mem_map] at hrs
      obtain ⟨c, hc, hcr⟩ := hrs
      have := s.ref_lt_fresh_ref c hc
      omega
    refine ⟨_, r, s.fresh_ref, Function.update_same _ _ _, hr, by simp [sync_guide],
      by omega, ?_, ?_, ?_⟩
    · simp only [GtkConstraintSolver.refs, sync_solver_constraints, hr, sync_removed,
        GtkConstraintSolver.remove, List.map_append, List.mem_append, List.mem_map,
        List.mem_filter]
      rintro (⟨c, ⟨_, hc⟩, hcr⟩ | ⟨c, hc, hcr⟩)
      · simp [hcr] at hc
      · simp at hc
        subst hc
        simp at hcr
        omega
    · have hm : (⟨s.fresh_ref,
          some (bind_var g.bound_attributes (sync_removed s (g.constraints i)) (attr i)
            "guide"),
          relation i, gtk_constraint_expression_new val, weight i⟩ : GtkConstraint) ∈
          (sync_solver s { g with values := Function.update g.values i val } i).constraints := by
        rw [sync_solver_constraints]
        simp
      exact ⟨_, hm, rfl, rfl⟩
    · intro c hc hne
      rw [sync_solver_constraints]
      simp [hr, sync_removed, GtkConstraintSolver.remove, hc, hne]
/-- C7, at the example guide after update, MinWidth changed from 10 to 11: only slot
MinWidth changes and the Height entry of `bound_attributes` stays. -/
theorem set_property_replaces_only_one_slot_witness :
    updated_state.2.layout = some 0 ∧ updated_state.1.solvers 0 = some updated_solver ∧
    (∀ j, ∃ r, updated_state.2.constraints j = some r ∧ r ∈ updated_solver.refs) ∧
    GuideValue.of_prop_id PROP_MIN_WIDTH = some .MIN_WIDTH ∧
    (11 : Int) ≠ updated_state.2.values .MIN_WIDTH ∧
    changes_only_slot updated_state.2
      (gtk_constraint_guide_set_property updated_state.1 updated_state.2 PROP_MIN_WIDTH 11).2
      .MIN_WIDTH 11 ∧
    (gtk_constraint_guide_set_property updated_state.1 updated_state.2 PROP_MIN_WIDTH
        11).2.bound_attributes.lookup .HEIGHT =
      updated_state.2.bound_attributes.lookup .HEIGHT :=
  have hreg : ∀ j, ∃ r, updated_state.2.constraints j = some r ∧ r ∈ updated_solver.refs :=
    fun j => match j with
      | .MIN_WIDTH => ⟨1, by decide, by decide⟩
      | .MIN_HEIGHT => ⟨2, by decide, by decide⟩
      | .NAT_WIDTH => ⟨3, by decide, by decide⟩
      | .NAT_HEIGHT => ⟨4, by decide, by decide⟩
      | .MAX_WIDTH => ⟨5, by decide, by decide⟩
      | .MAX_HEIGHT => ⟨6, by decide, by decide⟩
  ⟨by decide, by decide, hreg, by decide, by decide,
    (set_property_replaces_only_one_slot updated_state.1 updated_state.2 0 updated_solver
      PROP_MIN_WIDTH .MIN_WIDTH 11 (by decide) (by decide) hreg (by decide) (by decide)).1,
    (set_property_replaces_only_one_slot updated_state.1 updated_state.2 0 updated_solver
      PROP_MIN_WIDTH .MIN_WIDTH 11 (by decide) (by decide) hreg (by decide) (by decide)).2.1
      (Or.inl rfl)⟩
theorem height_beq_width :
    (GtkConstraintAttribute.HEIGHT == GtkConstraintAttribute.WIDTH) = false := by decide

theorem width_beq_height :
    (GtkConstraintAttribute.WIDTH == GtkConstraintAttribute.HEIGHT) = false := by decide

theorem sync_removed_n_variables (s : GtkConstraintSolver) (c : Option Nat) :
    (sync_removed s c).n_variables = s.n_variables := by
  cases c <;> rfl

theorem sync_solver_n_variables (s : GtkConstraintSolver) (g : GtkConstraintGuide)
    (i : GuideValue) :
    (sync_solver s g i).n_variables =
      match g.bound_attributes.lookup (attr i) with
      | some _ => s.n_variables
      | none => s.n_variables + 1 := by
  unfold sync_solver bind_solver
  cases g.bound_attributes.lookup (attr i) <;>
    simp [GtkConstraintSolver.add, sync_removed_n_variables]

theorem sync_fold_of_empty (l : Nat) (s : GtkConstraintSolver) (g : GtkConstraintGuide)
    (lg : List Call) (hnone : ∀ i, g.constraints i = none) (hc : g.bound_attributes = []) :
    (∃ cs, (GuideValue.all.foldl (sync l) (s, g, lg)).1.constraints = s.constraints ++ cs ∧
      cs.map (fun c => c.var) =
        [some ⟨s.n_variables, "guide", .WIDTH⟩, some ⟨s.n_variables + 1, "guide", .HEIGHT⟩,
          some ⟨s.n_variables, "guide", .WIDTH⟩, some ⟨s.n_variables + 1, "guide", .HEIGHT⟩,
          some ⟨s.n_variables, "guide", .WIDTH⟩, some ⟨s.n_variables + 1, "guide", .HEIGHT⟩] ∧
      cs.map (fun c => some c.ref) =
        GuideValue.all.map (GuideValue.all.foldl (sync l) (s, g, lg)).2.1.constraints) ∧
    (GuideValue.all.foldl (sync l) (s, g, lg)).1.n_variables = s.n_variables + 2 ∧
    (GuideValue.all.foldl (sync l) (s, g, lg)).2.2 = lg ++
      [Call.get_attribute (some l) .WIDTH "guide" none,
        Call.create_variable l ⟨s.n_variables, "guide", .WIDTH⟩,
        Call.add_constraint l s.fresh_ref,
        Call.get_attribute (some l) .HEIGHT "guide" none,
        Call.create_variable l ⟨s.n_variables + 1, "guide", .HEIGHT⟩,
        Call.add_constraint l (s.fresh_ref + 1),
        Call.get_attribute (some l) .WIDTH "guide" none,
        Call.add_constraint l (s.fresh_ref + 2),
        Call.get_attribute (some l) .HEIGHT "guide" none,
        Call.add_constraint l (s.fresh_ref + 3),
        Call.get_attribute (some l) .WIDTH "guide" none,
        Call.add_constraint l (s.fresh_ref + 4),
        Call.get_attribute (some l) .HEIGHT "guide" none,
        Call.add_constraint l (s.fresh_ref + 5)] := by
  refine ⟨?_, ?_, ?_⟩
  · generalize hX : (GuideValue.all.foldl (sync l) (s, g, lg)).1.constraints = X
    generalize hY : (GuideValue.all.foldl (sync l) (s, g, lg)).2.1.constraints = Y
    simp only [GuideValue.all_eq, List.foldl_cons, List.foldl_nil, sync] at hX hY
    simp [sync_solver_constraints, sync_guide, Function.update, hnone, sync_removed,
      sync_solver_fresh_ref, hc, bind_var, bind_cache, attr, List.lookup_cons,
      height_beq_width, width_beq_height, sync_solver_n_variables] at hX hY
    subst hX hY
    refine ⟨_, rfl, ?_, ?_⟩
    · simp
    · simp [GuideValue.all_eq]
  all_goals simp only [GuideValue.all_eq, List.foldl_cons, List.foldl_nil, sync]
  · simp [sync_guide, Function.update, hnone, sync_removed,
      sync_solver_fresh_ref, hc, bind_var, bind_cache, attr, List.lookup_cons,
      height_beq_width, width_beq_height, sync_solver_n_variables]
  · simp [sync_guide, Function.update, hnone, sync_removed,
      sync_solver_fresh_ref, hc, bind_var, bind_cache, attr, List.lookup_cons,
      height_beq_width, width_beq_height, sync_solver_n_variables, sync_log, bind_log]

theorem mem_sync_log_create (l : Nat) (s : GtkConstraintSolver) (g : GtkConstraintGuide)
    (i : GuideValue) (l' : Nat) (v : GtkConstraintVariable)
    (h : Call.create_variable l' v ∈ sync_log l s g i) :
    v.id < (sync_solver s g i).n_variables := by
  rw [sync_solver_n_variables]
  unfold sync_log bind_log at h
  cases hk : g.bound_attributes.lookup (attr i) <;> cases hc : g.constraints i <;>
    simp [hk, hc, sync_removed_n_variables] at h ⊢
  all_goals (rw [h.2]; simp)

theorem sync_solver_n_variables_le (s : GtkConstraintSolver) (g : GtkConstraintGuide)
    (i : GuideValue) : s.n_variables ≤ (sync_solver s g i).n_variables := by
  rw [sync_solver_n_variables]
  cases g.bound_attributes.lookup (attr i) <;> simp

theorem sync_fold_created (l : Nat) (is : List GuideValue) :
    ∀ (s : GtkConstraintSolver) (g : GtkConstraintGuide) (lg : List Call),
      s.n_variables ≤ (is.foldl (sync l) (s, g, lg)).1.n_variables ∧
      ∃ X, (is.foldl (sync l) (s, g, lg)).2.2 = lg ++ X ∧
        ∀ l' v, Call.create_variable l' v ∈ X →
          v.id < (is.foldl (sync l) (s, g, lg)).1.n_variables := by
  induction is with
  | nil => intro s g lg; exact ⟨le_refl _, [], by simp, by simp⟩
  | cons i is ih =>
    intro s g lg
    simp only [List.foldl_cons]
    obtain ⟨h1, X, hX, h2⟩ := ih (sync_solver s g i) (sync_guide s g i) (lg ++ sync_log l s g i)
    have h0 := sync_solver_n_variables_le s g i
    refine ⟨le_trans h0 h1, sync_log l s g i ++ X, ?_, ?_⟩
    · rw [sync, hX, List.append_assoc]
    · intro l' v hv
      rcases List.mem_append.mp hv with h | h
      · exact lt_of_lt_of_le (mem_sync_log_create l s g i l' v h) h1
      · exact h2 l' v h

theorem detach_fold_n_variables (l : Nat) (is : List GuideValue) :
    ∀ (s : GtkConstraintSolver) (g : GtkConstraintGuide) (lg : List Call),
      (is.foldl (detach_step l) (s, g, lg)).1.n_variables = s.n_variables := by
  induction is with
  | nil => intro s g lg; rfl
  | cons i is ih =>
    intro s g lg
    simp only [List.foldl_cons]
    rw [detach_step, ih, sync_removed_n_variables]
/-- C8: for every guide, in the sequence attach; update; detach; attach; update on a
layout with a solver, `bound_attributes` is empty after the detach; the second update
asks the binder for every slot and the binder creates two variables, one for Width at
slot MinWidth and one for Height at slot MinHeight; the six constraints the second
update adds are on these two variables; and no variable the binder created during the
first attach is one of them. -/
theorem reattach_requests_new_variables (w : World) (g : GtkConstraintGuide) (l : Nat)
    (s : GtkConstraintSolver) (hs : w.solvers l = some s) :
    (attach_update_detach w g l).2.bound_attributes = [] ∧
    ∃ s2 s3 s5 cs, (attach_update w g l).1.solvers l = some s2 ∧
      (attach_update_detach w g l).1.solvers l = some s3 ∧
      (reattach_update w g l).1.solvers l = some s5 ∧
      (reattach_update w g l).1.log = (attach_update_detach w g l).1.log ++
        [Call.get_attribute (some l) .WIDTH "guide" none,
          Call.create_variable l ⟨s2.n_variables, "guide", .WIDTH⟩,
          Call.add_constraint l s3.fresh_ref,
          Call.get_attribute (some l) .HEIGHT "guide" none,
          Call.create_variable l ⟨s2.n_variables + 1, "guide", .HEIGHT⟩,
          Call.add_constraint l (s3.fresh_ref + 1),
          Call.get_attribute (some l) .WIDTH "guide" none,
          Call.add_constraint l (s3.fresh_ref + 2),
          Call.get_attribute (some l) .HEIGHT "guide" none,
          Call.add_constraint l (s3.fresh_ref + 3),
          Call.get_attribute (some l) .WIDTH "guide" none,
          Call.add_constraint l (s3.fresh_ref + 4),
          Call.get_attribute (some l) .HEIGHT "guide" none,
          Call.add_constraint l (s3.fresh_ref + 5)] ∧
      s5.constraints = s3.constraints ++ cs ∧
      cs.map (fun c => c.var) =
        [some ⟨s2.n_variables, "guide", .WIDTH⟩, some ⟨s2.n_variables + 1, "guide", .HEIGHT⟩,
          some ⟨s2.n_variables, "guide", .WIDTH⟩, some ⟨s2.n_variables + 1, "guide", .HEIGHT⟩,
          some ⟨s2.n_variables, "guide", .WIDTH⟩,
          some ⟨s2.n_variables + 1, "guide", .HEIGHT⟩] ∧
      cs.map (fun c => some c.ref) =
        GuideValue.all.map (reattach_update w g l).2.constraints ∧
      ∀ v, Call.create_variable l v ∈ (attach_update w g l).1.log.drop w.log.length →
        v ≠ ⟨s2.n_variables, "guide", .WIDTH⟩ ∧ v ≠ ⟨s2.n_variables + 1, "guide", .HEIGHT⟩ := by
  unfold reattach_update attach_update_detach attach_update
  have hl1 : (gtk_constraint_guide_set_layout g (some l)).layout = some l := rfl
  generalize gtk_constraint_guide_set_layout g (some l) = g1 at hl1 ⊢
  rw [update_live w g1 l s hl1 hs]
  have hF1 := sync_fold_layout l GuideValue.all s g1 w.log
  obtain ⟨_, X, hX, hF2⟩ := sync_fold_created l GuideValue.all s g1 w.log
  rw [hl1] at hF1
  generalize GuideValue.all.foldl (sync l) (s, g1, w.log) = F at hF1 hX hF2 ⊢
  obtain ⟨S2, G2, L2⟩ := F
  dsimp only at hF1 hX hF2 ⊢
  rw [detach_live _ G2 l S2 hF1 (Function.update_same _ _ _), detach_steps_guide]
  have hD := detach_fold_n_variables l GuideValue.all S2 G2 L2
  generalize GuideValue.all.foldl (detach_step l) (S2, G2, L2) = D at hD ⊢
  obtain ⟨S3, G3, L3⟩ := D
  dsimp only [Function.update_idem] at hD ⊢
  refine ⟨rfl, ?_⟩
  rw [update_live _ (gtk_constraint_guide_set_layout
      { G2 with constraints := fun _ => none, bound_attributes := [] } (some l)) l S3 rfl
    (Function.update_same _ _ _)]
  obtain ⟨⟨cs, hcs, hvar, href⟩, hn, hlog⟩ := sync_fold_of_empty l S3
    (gtk_constraint_guide_set_layout
      { G2 with constraints := fun _ => none, bound_attributes := [] } (some l)) L3
    (fun _ => rfl) rfl
  refine ⟨S2, S3, _, cs, Function.update_same _ _ _, Function.update_same _ _ _,
    Function.update_same _ _ _, ?_, hcs, ?_, href, ?_⟩
  · rw [← hD]; exact hlog
  · rw [← hD]; exact hvar
  · intro v hv
    rw [hX, List.drop_left] at hv
    have := hF2 l v hv
    constructor <;> (intro h; subst h; simp at this)
/-- C8, at the example guide: after the detach the cache is empty, the first attach
cached the variables 1 and 2 and the second attach the variables 3 and 4. -/
theorem reattach_requests_new_variables_witness :
    example_world.solvers 0 = some example_solver ∧
    (attach_update_detach example_world example_guide 0).2.bound_attributes = [] ∧
    (attach_update example_world example_guide 0).2.bound_attributes =
      [(.HEIGHT, ⟨2, "guide", .HEIGHT⟩), (.WIDTH, ⟨1, "guide", .WIDTH⟩)] ∧
    (reattach_update example_world example_guide 0).2.bound_attributes =
      [(.HEIGHT, ⟨4, "guide", .HEIGHT⟩), (.WIDTH, ⟨3, "guide", .WIDTH⟩)] :=
  ⟨rfl, (reattach_requests_new_variables example_world example_guide 0 example_solver rfl).1,
    by decide, by decide⟩

theorem set_min_size_both (w : World) (g : GtkConstraintGuide) (wd ht : Int)
    (hw0 : 0 ≤ wd) (hw1 : wd ≤ G_MAXINT) (hh0 : 0 ≤ ht) (hh1 : ht ≤ G_MAXINT) :
    gtk_constraint_guide_set_min_size w g wd ht =
      gtk_constraint_guide_set_property
        (gtk_constraint_guide_set_property w g PROP_MIN_WIDTH wd).1
        (gtk_constraint_guide_set_property w g PROP_MIN_WIDTH wd).2 PROP_MIN_HEIGHT ht := by
  have h1 : wd ≥ -1 := by omega
  have h2 : wd ≠ -1 := by omega
  have h3 : ht ≥ -1 := by omega
  have h4 : ht ≠ -1 := by omega
  simp [gtk_constraint_guide_set_min_size, g_object_set_min_width, g_object_set_min_height,
    g_object_freeze_notify, g_object_thaw_notify, hw0, hw1, hh0, hh1, h1, h2, h3, h4]

theorem set_nat_size_both (w : World) (g : GtkConstraintGuide) (wd ht : Int)
    (hw0 : 0 ≤ wd) (hw1 : wd ≤ G_MAXINT) (hh0 : 0 ≤ ht) (hh1 : ht ≤ G_MAXINT) :
    gtk_constraint_guide_set_nat_size w g wd ht =
      gtk_constraint_guide_set_property
        (gtk_constraint_guide_set_property w g PROP_NAT_WIDTH wd).1
        (gtk_constraint_guide_set_property w g PROP_NAT_WIDTH wd).2 PROP_NAT_HEIGHT ht := by
  have h1 : wd ≥ -1 := by omega
  have h2 : wd ≠ -1 := by omega
  have h3 : ht ≥ -1 := by omega
  have h4 : ht ≠ -1 := by omega
  simp [gtk_constraint_guide_set_nat_size, g_object_set_nat_width, g_object_set_nat_height,
    g_object_freeze_notify, g_object_thaw_notify, hw0, hw1, hh0, hh1, h1, h2, h3, h4]

theorem set_max_size_both (w : World) (g : GtkConstraintGuide) (wd ht : Int)
    (hw0 : 0 ≤ wd) (hw1 : wd ≤ G_MAXINT) (hh0 : 0 ≤ ht) (hh1 : ht ≤ G_MAXINT) :
    gtk_constraint_guide_set_max_size w g wd ht =
      gtk_constraint_guide_set_property
        (gtk_constraint_guide_set_property w g PROP_MAX_WIDTH wd).1
        (gtk_constraint_guide_set_property w g PROP_MAX_WIDTH wd).2 PROP_MAX_HEIGHT ht := by
  have h1 : wd ≥ -1 := by omega
  have h2 : wd ≠ -1 := by omega
  have h3 : ht ≥ -1 := by omega
  have h4 : ht ≠ -1 := by omega
  simp [gtk_constraint_guide_set_max_size, g_object_set_max_width, g_object_set_max_height,
    g_object_freeze_notify, g_object_thaw_notify, hw0, hw1, hh0, hh1, h1, h2, h3, h4]

theorem set_property_twice_values (w : World) (g : GtkConstraintGuide) (p q : Nat)
    (i j : GuideValue) (a b : Int) (hp : GuideValue.of_prop_id p = some i)
    (hq : GuideValue.of_prop_id q = some j) (hij : i ≠ j) :
    (gtk_constraint_guide_set_property
        (gtk_constraint_guide_set_property w g p a).1
        (gtk_constraint_guide_set_property w g p a).2 q b).2.values i = a ∧
    (gtk_constraint_guide_set_property
        (gtk_constraint_guide_set_property w g p a).1
        (gtk_constraint_guide_set_property w g p a).2 q b).2.values j = b := by
  have h1 := set_property_changes_only_slot w g p i a hp
  have h2 := set_property_changes_only_slot (gtk_constraint_guide_set_property w g p a).1
    (gtk_constraint_guide_set_property w g p a).2 q j b hq
  exact ⟨((h2.2 i hij).1).trans h1.1, h2.1⟩

/-- C9: for every guide and all `int`s w >= 0 and h >= 0, after set_min_size(w, h)
get_min_size returns (w, h), after set_nat_size(w, h) get_nat_size returns (w, h), and
after set_max_size(w, h) get_max_size returns (w, h); and the guide after a getter is
the guide before it. -/
theorem set_size_get_size (w : World) (g : GtkConstraintGuide) (wd ht : Int)
    (hw0 : 0 ≤ wd) (hw1 : wd ≤ G_MAXINT) (hh0 : 0 ≤ ht) (hh1 : ht ≤ G_MAXINT) :
    (gtk_constraint_guide_get_min_size
      (gtk_constraint_guide_set_min_size w g wd ht).2).2 = (wd, ht) ∧
    (gtk_constraint_guide_get_nat_size
      (gtk_constraint_guide_set_nat_size w g wd ht).2).2 = (wd, ht) ∧
    (gtk_constraint_guide_get_max_size
      (gtk_constraint_guide_set_max_size w g wd ht).2).2 = (wd, ht) ∧
    (gtk_constraint_guide_get_min_size g).1 = g ∧
    (gtk_constraint_guide_get_nat_size g).1 = g ∧
    (gtk_constraint_guide_get_max_size g).1 = g := by
  rw [set_min_size_both w g wd ht hw0 hw1 hh0 hh1, set_nat_size_both w g wd ht hw0 hw1 hh0 hh1,
    set_max_size_both w g wd ht hw0 hw1 hh0 hh1]
  have h1 := set_property_twice_values w g PROP_MIN_WIDTH PROP_MIN_HEIGHT .MIN_WIDTH
    .MIN_HEIGHT wd ht rfl rfl (by decide)
  have h2 := set_property_twice_values w g PROP_NAT_WIDTH PROP_NAT_HEIGHT .NAT_WIDTH
    .NAT_HEIGHT wd ht rfl rfl (by decide)
  have h3 := set_property_twice_values w g PROP_MAX_WIDTH PROP_MAX_HEIGHT .MAX_WIDTH
    .MAX_HEIGHT wd ht rfl rfl (by decide)
  simp [gtk_constraint_guide_get_min_size, gtk_constraint_guide_get_nat_size,
    gtk_constraint_guide_get_max_size, h1.1, h1.2, h2.1, h2.2, h3.1, h3.2]

/-- C9, at sizes 30x40 on the example guide after update. -/
theorem set_size_get_size_witness :
    (0 : Int) ≤ 30 ∧ (30 : Int) ≤ G_MAXINT ∧ (0 : Int) ≤ 40 ∧ (40 : Int) ≤ G_MAXINT ∧
    (gtk_constraint_guide_get_min_size
      (gtk_constraint_guide_set_min_size updated_state.1 updated_state.2 30 40).2).2 =
      (30, 40) :=
  ⟨by decide, by decide, by decide, by decide,
    (set_size_get_size updated_state.1 updated_state.2 30 40 (by decide) (by decide)
      (by decide) (by decide)).1⟩

/-- C10: for each of set_min_size, set_nat_size and set_max_size, a call with
width < -1 or height < -1 changes nothing at all: the guide (values, constraint
handles, `bound_attributes`, layout) and the world (every solver, the calls made) are
returned as they were, whatever the other argument is. -/
theorem set_size_rejects_below_sentinel (w : World) (g : GtkConstraintGuide)
    (width height : Int) (h : width < -1 ∨ height < -1) :
    gtk_constraint_guide_set_min_size w g width height = (w, g) ∧
    gtk_constraint_guide_set_nat_size w g width height = (w, g) ∧
    gtk_constraint_guide_set_max_size w g width height = (w, g) := by
  unfold gtk_constraint_guide_set_min_size gtk_constraint_guide_set_nat_size
    gtk_constraint_guide_set_max_size
  by_cases hw : width ≥ -1
  · have hh : ¬ height ≥ -1 := by omega
    simp [hw, hh]
  · simp [hw]

/-- C10, at set_min_size(-2, 5), set_nat_size(-2, 5) and set_max_size(-2, 5) on the
example guide after update. -/
theorem set_size_rejects_below_sentinel_witness :
    ((-2 : Int) < -1 ∨ (5 : Int) < -1) ∧
    gtk_constraint_guide_set_min_size updated_state.1 updated_state.2 (-2) 5 =
      (updated_state.1, updated_state.2) ∧
    gtk_constraint_guide_set_nat_size updated_state.1 updated_state.2 (-2) 5 =
      (updated_state.1, updated_state.2) ∧
    gtk_constraint_guide_set_max_size updated_state.1 updated_state.2 (-2) 5 =
      (updated_state.1, updated_state.2) :=
  ⟨Or.inl (by decide),
    set_size_rejects_below_sentinel updated_state.1 updated_state.2 (-2) 5
      (Or.inl (by decide))⟩
/-- C18, the code at the claim's input: on a fresh guide attached to layout 0, whose
solver holds nothing and on which update was never called, `gtk_constraint_guide_detach`
calls the solver's remove_constraint six times, each time with a `NULL` handle, while
`gtk_constraint_guide_update_constraint` on the same guide removes nothing. -/
theorem detach_removes_null_handles :
    (gtk_constraint_guide_detach empty_world
        (gtk_constraint_guide_set_layout gtk_constraint_guide_new (some 0))).1.log =
      [Call.remove_constraint 0 none, Call.remove_constraint 0 none,
        Call.remove_constraint 0 none, Call.remove_constraint 0 none,
        Call.remove_constraint 0 none, Call.remove_constraint 0 none] ∧
    Call.remove_constraint 0 none ∉
      (gtk_constraint_guide_update_constraint empty_world
        (gtk_constraint_guide_set_layout gtk_constraint_guide_new (some 0)) .MIN_WIDTH).1.log := by
  decide
theorem guide_props_some (p : Nat) (pspec : GParamSpecInt) (h : guide_props p = some pspec) :
    (∃ i, GuideValue.of_prop_id p = some i) ∧ pspec.minimum = 0 ∧ pspec.maximum = G_MAXINT := by
  unfold guide_props at h
  split at h <;> simp at h <;> subst h <;> exact ⟨⟨_, rfl⟩, rfl, rfl⟩

theorem g_object_set_eq (w : World) (g : GtkConstraintGuide) (name : String) (v : Int) :
    ∃ ps, (∀ pv ∈ ps, valid_property_value pv) ∧
      g_object_set w g name v = set_properties (w, g) ps := by
  unfold g_object_set
  cases g_object_class_find_property name with
  | none => exact ⟨[], by simp, rfl⟩
  | some p =>
    cases hp : guide_props p with
    | none => exact ⟨[], by simp, by simp [hp, set_properties]⟩
    | some pspec =>
      obtain ⟨hi, hmin, hmax⟩ := guide_props_some p pspec hp
      by_cases hr : pspec.minimum ≤ v ∧ v ≤ pspec.maximum
      · refine ⟨[(p, v)], ?_, by simp [hp, hr, set_properties]⟩
        intro pv hpv
        simp at hpv
        subst hpv
        exact ⟨hi, by rw [← hmin]; exact hr.1, by rw [← hmax]; exact hr.2⟩
      · exact ⟨[], by simp, by simp [hp, hr, set_properties]⟩

theorem set_properties_append (st : World × GtkConstraintGuide) (ps qs : List (Nat × Int)) :
    set_properties st (ps ++ qs) = set_properties (set_properties st ps) qs := by
  simp [set_properties, List.foldl_append]

theorem setter_stages (w : World) (g : GtkConstraintGuide) (n1 n2 : String) (a b : Int) :
    ∃ ps, (∀ pv ∈ ps, valid_property_value pv) ∧
      (if b ≠ -1 then
        g_object_set (if a ≠ -1 then g_object_set w g n1 a else (w, g)).1
          (if a ≠ -1 then g_object_set w g n1 a else (w, g)).2 n2 b
      else (if a ≠ -1 then g_object_set w g n1 a else (w, g))) = set_properties (w, g) ps := by
  have h1 : ∃ ps, (∀ pv ∈ ps, valid_property_value pv) ∧
      (if a ≠ -1 then g_object_set w g n1 a else (w, g)) = set_properties (w, g) ps := by
    by_cases ha : a ≠ -1
    · rw [if_pos ha]; exact g_object_set_eq w g n1 a
    · rw [if_neg ha]; exact ⟨[], by simp, rfl⟩
  obtain ⟨ps1, hv1, e1⟩ := h1
  rw [e1]
  by_cases hb : b ≠ -1
  · rw [if_pos hb]
    obtain ⟨ps2, hv2, e2⟩ := g_object_set_eq (set_properties (w, g) ps1).1
      (set_properties (w, g) ps1).2 n2 b
    refine ⟨ps1 ++ ps2, ?_, ?_⟩
    · intro pv hpv
      rcases List.mem_append.mp hpv with h | h
      · exact hv1 pv h
      · exact hv2 pv h
    · rw [e2, set_properties_append]
  · rw [if_neg hb]; exact ⟨ps1, hv1, rfl⟩

theorem setter_eq_set_properties (st : World × GtkConstraintGuide) (op : Op)
    (hop : op.is_setter = true) :
    ∃ ps, (∀ pv ∈ ps, valid_property_value pv) ∧ op.apply st = set_properties st ps := by
  obtain ⟨w, g⟩ := st
  cases op with
  | set_min_size a b =>
    simp only [Op.apply, gtk_constraint_guide_set_min_size, g_object_freeze_notify,
      g_object_thaw_notify]
    by_cases ha : a ≥ -1
    · by_cases hb : b ≥ -1
      · simp only [ha, hb, not_true_eq_false, if_false]
        exact setter_stages w g _ _ a b
      · exact ⟨[], by simp, by simp [ha, hb, set_properties]⟩
    · exact ⟨[], by simp, by simp [ha, set_properties]⟩
  | set_nat_size a b =>
    simp only [Op.apply, gtk_constraint_guide_set_nat_size, g_object_freeze_notify,
      g_object_thaw_notify]
    by_cases ha : a ≥ -1
    · by_cases hb : b ≥ -1
      · simp only [ha, hb, not_true_eq_false, if_false]
        exact setter_stages w g _ _ a b
      · exact ⟨[], by simp, by simp [ha, hb, set_properties]⟩
    · exact ⟨[], by simp, by simp [ha, set_properties]⟩
  | set_max_size a b =>
    simp only [Op.apply, gtk_constraint_guide_set_max_size, g_object_freeze_notify,
      g_object_thaw_notify]
    by_cases ha : a ≥ -1
    · by_cases hb : b ≥ -1
      · simp only [ha, hb, not_true_eq_false, if_false]
        exact setter_stages w g _ _ a b
      · exact ⟨[], by simp, by simp [ha, hb, set_properties]⟩
    · exact ⟨[], by simp, by simp [ha, set_properties]⟩
  | _ => simp [Op.is_setter] at hop
theorem update_induction (P : World × GtkConstraintGuide → Prop) (w : World)
    (g : GtkConstraintGuide) (h0 : P (w, g))
    (hstep : ∀ st i, P st → P (gtk_constraint_guide_update_constraint st.1 st.2 i)) :
    P (gtk_constraint_guide_update w g) := by
  unfold gtk_constraint_guide_update
  generalize GuideValue.all = is
  induction is generalizing w g with
  | nil => exact h0
  | cons i is ih =>
    simp only [List.foldl_cons]
    exact ih _ _ (hstep (w, g) i h0)

theorem update_values (w : World) (g : GtkConstraintGuide) :
    (gtk_constraint_guide_update w g).2.values = g.values :=
  update_induction (fun st => st.2.values = g.values) w g rfl
    (fun st i h => by
      show (gtk_constraint_guide_update_constraint st.1 st.2 i).2.values = g.values
      rw [update_constraint_values]; exact h)

theorem update_layout (w : World) (g : GtkConstraintGuide) :
    (gtk_constraint_guide_update w g).2.layout = g.layout :=
  update_induction (fun st => st.2.layout = g.layout) w g rfl
    (fun st i h => by
      show (gtk_constraint_guide_update_constraint st.1 st.2 i).2.layout = g.layout
      rw [update_constraint_layout]; exact h)

theorem detach_values (w : World) (g : GtkConstraintGuide) :
    (gtk_constraint_guide_detach w g).2.values = g.values := by
  cases hl : g.layout with
  | none => rw [detach_no_layout w g hl]
  | some l =>
    cases hs : w.solvers l with
    | none => rw [detach_no_solver w g l hl hs]
    | some s => rw [detach_guide_live w g l s hl hs]

theorem get_attribute_guide (w : World) (g : GtkConstraintGuide) (a : GtkConstraintAttribute) :
    (gtk_constraint_guide_get_attribute w g a).2.1.values = g.values ∧
    (gtk_constraint_guide_get_attribute w g a).2.1.layout = g.layout ∧
    (gtk_constraint_guide_get_attribute w g a).2.1.constraints = g.constraints := by
  unfold gtk_constraint_guide_get_attribute
  exact ⟨rfl, rfl, rfl⟩

theorem set_property_layout (w : World) (g : GtkConstraintGuide) (p : Nat) (val : Int) :
    (gtk_constraint_guide_set_property w g p val).2.layout = g.layout := by
  unfold gtk_constraint_guide_set_property
  cases GuideValue.of_prop_id p with
  | none => rfl
  | some i =>
    by_cases hv : g.values i = val
    · simp [hv]
    · simp only [ne_eq, hv, not_false_eq_true, if_true]
      rw [update_constraint_layout]

theorem set_properties_induction (P : World × GtkConstraintGuide → Prop)
    (hstep : ∀ st pv, valid_property_value pv → P st →
      P (gtk_constraint_guide_set_property st.1 st.2 pv.1 pv.2))
    (ps : List (Nat × Int)) :
    ∀ st, (∀ pv ∈ ps, valid_property_value pv) → P st → P (set_properties st ps) := by
  induction ps with
  | nil => intro st _ h; exact h
  | cons pv ps ih =>
    intro st hv h
    simp only [set_properties, List.foldl_cons]
    exact ih _ (fun q hq => hv q (List.mem_cons_of_mem _ hq))
      (hstep st pv (hv pv (List.mem_cons_self _ _)) h)

theorem set_property_values_in_range (st : World × GtkConstraintGuide) (pv : Nat × Int)
    (hpv : valid_property_value pv) (h : values_in_range st.2) :
    values_in_range (gtk_constraint_guide_set_property st.1 st.2 pv.1 pv.2).2 := by
  obtain ⟨⟨i, hi⟩, h0, h1⟩ := hpv
  have hc := set_property_changes_only_slot st.1 st.2 pv.1 i pv.2 hi
  intro j
  by_cases hj : j = i
  · subst hj; rw [hc.1]; exact ⟨h0, h1⟩
  · rw [(hc.2 j hj).1]; exact h j

theorem op_values_in_range (st : World × GtkConstraintGuide) (op : Op)
    (h : values_in_range st.2) : values_in_range (op.apply st).2 := by
  cases hop : op.is_setter with
  | true =>
    obtain ⟨ps, hv, e⟩ := setter_eq_set_properties st op hop
    rw [e]
    exact set_properties_induction (fun st => values_in_range st.2)
      (fun st pv hpv h => set_property_values_in_range st pv hpv h) ps st hv h
  | false =>
    cases op with
    | set_layout x => exact h
    | update => intro i; simp only [Op.apply, update_values]; exact h i
    | detach => intro i; simp only [Op.apply, detach_values]; exact h i
    | get_attribute a =>
      intro i; simp only [Op.apply, (get_attribute_guide st.1 st.2 a).1]; exact h i
    | set_min_size a b => simp [Op.is_setter] at hop
    | set_nat_size a b => simp [Op.is_setter] at hop
    | set_max_size a b => simp [Op.is_setter] at hop

/-- C15: in every state reachable from a freshly constructed guide, in any world,
through any sequence of operations (set_min_size, set_nat_size and set_max_size with
arbitrary integer arguments among them), each of the six stored values lies in
`[0, G_MAXINT]`; in particular -1 is never stored. -/
theorem values_stay_in_range (w : World) (ops : List Op) :
    values_in_range (run (w, gtk_constraint_guide_new) ops).2 ∧
    ∀ i, (run (w, gtk_constraint_guide_new) ops).2.values i ≠ -1 := by
  have key : ∀ st : World × GtkConstraintGuide, values_in_range st.2 →
      values_in_range (run st ops).2 := by
    induction ops with
    | nil => intro st h; exact h
    | cons op ops ih =>
      intro st h
      simp only [run, List.foldl_cons]
      exact ih _ (op_values_in_range st op h)
  have hnew : gtk_constraint_guide_new.values = fun _ => 0 := rfl
  have h0 : values_in_range (w, gtk_constraint_guide_new).2 := by
    intro i; simp [hnew, G_MAXINT]
  have h := key _ h0
  refine ⟨h, fun i hi => ?_⟩
  have := (h i).1
  omega
theorem update_constraint_dead (w : World) (g : GtkConstraintGuide) (i : GuideValue)
    (h : no_solver w g) : gtk_constraint_guide_update_constraint w g i = (w, g) := by
  cases hl : g.layout with
  | none => exact update_constraint_no_layout w g i hl
  | some l => exact update_constraint_no_solver w g i l hl (h l hl)

theorem update_dead (w : World) (g : GtkConstraintGuide) (h : no_solver w g) :
    gtk_constraint_guide_update w g = (w, g) :=
  update_induction (fun st => st = (w, g)) w g rfl
    (fun st i hst => by
      show gtk_constraint_guide_update_constraint st.1 st.2 i = (w, g)
      rw [hst]; exact update_constraint_dead w g i h)

theorem detach_dead (w : World) (g : GtkConstraintGuide) (h : no_solver w g) :
    gtk_constraint_guide_detach w g = (w, g) := by
  cases hl : g.layout with
  | none => exact detach_no_layout w g hl
  | some l => exact detach_no_solver w g l hl (h l hl)

theorem only_values_change_refl (st : World × GtkConstraintGuide) :
    only_values_change st st :=
  ⟨rfl, rfl, rfl, rfl, [], by simp, by simp⟩

theorem only_values_change_trans (a b c : World × GtkConstraintGuide)
    (h1 : only_values_change a b) (h2 : only_values_change b c) : only_values_change a c := by
  obtain ⟨c1, b1, l1, s1, n1, e1, hn1⟩ := h1
  obtain ⟨c2, b2, l2, s2, n2, e2, hn2⟩ := h2
  refine ⟨c2.trans c1, b2.trans b1, l2.trans l1, s2.trans s1, n1 ++ n2, ?_, ?_⟩
  · rw [e2, e1, List.append_assoc]
  · intro x hx
    rcases List.mem_append.mp hx with h | h
    · exact hn1 x h
    · exact hn2 x h

theorem no_solver_of_only_values_change (a b : World × GtkConstraintGuide)
    (h : only_values_change a b) (ha : no_solver a.1 a.2) : no_solver b.1 b.2 := by
  intro l hl
  rw [h.2.2.2.1]
  exact ha l (by rw [← h.2.2.1]; exact hl)

theorem set_property_dead (st : World × GtkConstraintGuide) (p : Nat) (val : Int)
    (h : no_solver st.1 st.2) :
    only_values_change st (gtk_constraint_guide_set_property st.1 st.2 p val) := by
  unfold gtk_constraint_guide_set_property
  cases GuideValue.of_prop_id p with
  | none => exact only_values_change_refl st
  | some i =>
    by_cases hv : st.2.values i = val
    · simp only [hv, ne_eq, not_true_eq_false, if_false]
      exact only_values_change_refl st
    · simp only [ne_eq, hv, not_false_eq_true, if_true]
      rw [update_constraint_dead (st.1.emit (Call.notify p))
        { st.2 with values := Function.update st.2.values i val } i (fun l hl => h l hl)]
      exact ⟨rfl, rfl, rfl, rfl, [Call.notify p], rfl, by simp⟩

theorem setter_dead (st : World × GtkConstraintGuide) (op : Op) (hop : op.is_setter = true)
    (h : no_solver st.1 st.2) : only_values_change st (op.apply st) := by
  obtain ⟨ps, hv, e⟩ := setter_eq_set_properties st op hop
  rw [e]
  have key := set_properties_induction
    (fun st' => only_values_change st st' ∧ no_solver st'.1 st'.2)
    (fun st' pv _ hst' =>
      ⟨only_values_change_trans _ _ _ hst'.1 (set_property_dead st' pv.1 pv.2 hst'.2),
        no_solver_of_only_values_change _ _ (set_property_dead st' pv.1 pv.2 hst'.2) hst'.2⟩)
    ps st hv ⟨only_values_change_refl st, h⟩
  exact key.1

/-- C11: when the guide has no layout, or its layout exposes no solver,
`gtk_constraint_guide_update` returns the world and the guide as they were, and each of
set_min_size, set_nat_size and set_max_size, whatever its arguments, leaves
`constraints[i]`, `bound_attributes`, the layout and every solver exactly as they were
and calls nothing but change notifications, while for `int`s w >= 0 and h >= 0 the new
values are stored. -/
theorem update_and_setters_without_solver (w : World) (g : GtkConstraintGuide)
    (h : no_solver w g) :
    gtk_constraint_guide_update w g = (w, g) ∧
    (∀ op : Op, op.is_setter = true → only_values_change (w, g) (op.apply (w, g))) ∧
    (∀ a b : Int, 0 ≤ a → a ≤ G_MAXINT → 0 ≤ b → b ≤ G_MAXINT →
      (gtk_constraint_guide_get_min_size
        (gtk_constraint_guide_set_min_size w g a b).2).2 = (a, b) ∧
      (gtk_constraint_guide_get_nat_size
        (gtk_constraint_guide_set_nat_size w g a b).2).2 = (a, b) ∧
      (gtk_constraint_guide_get_max_size
        (gtk_constraint_guide_set_max_size w g a b).2).2 = (a, b)) := by
  refine ⟨update_dead w g h, fun op hop => setter_dead (w, g) op hop h, ?_⟩
  intro a b ha0 ha1 hb0 hb1
  rw [set_min_size_both w g a b ha0 ha1 hb0 hb1, set_nat_size_both w g a b ha0 ha1 hb0 hb1,
    set_max_size_both w g a b ha0 ha1 hb0 hb1]
  have h1 := set_property_twice_values w g PROP_MIN_WIDTH PROP_MIN_HEIGHT .MIN_WIDTH
    .MIN_HEIGHT a b rfl rfl (by decide)
  have h2 := set_property_twice_values w g PROP_NAT_WIDTH PROP_NAT_HEIGHT .NAT_WIDTH
    .NAT_HEIGHT a b rfl rfl (by decide)
  have h3 := set_property_twice_values w g PROP_MAX_WIDTH PROP_MAX_HEIGHT .MAX_WIDTH
    .MAX_HEIGHT a b rfl rfl (by decide)
  simp [gtk_constraint_guide_get_min_size, gtk_constraint_guide_get_nat_size,
    gtk_constraint_guide_get_max_size, h1.1, h1.2, h2.1, h2.2, h3.1, h3.2]
/-- C11, at the example guide attached to layout 1, which exposes no solver. -/
theorem update_and_setters_without_solver_witness :
    no_solver example_world (gtk_constraint_guide_set_layout example_guide (some 1)) ∧
    gtk_constraint_guide_update example_world
        (gtk_constraint_guide_set_layout example_guide (some 1)) =
      (example_world, gtk_constraint_guide_set_layout example_guide (some 1)) :=
  ⟨fun l hl => by cases hl; rfl,
    (update_and_setters_without_solver example_world
      (gtk_constraint_guide_set_layout example_guide (some 1))
      (fun l hl => by cases hl; rfl)).1⟩

theorem op_layout (st : World × GtkConstraintGuide) (op : Op)
    (hop : op.is_set_layout = false) : (op.apply st).2.layout = st.2.layout := by
  cases op with
  | set_layout x => simp [Op.is_set_layout] at hop
  | update => exact update_layout st.1 st.2
  | detach => exact detach_layout st.1 st.2
  | get_attribute a => exact (get_attribute_guide st.1 st.2 a).2.1
  | set_min_size a b =>
    obtain ⟨ps, hv, e⟩ := setter_eq_set_properties st (.set_min_size a b) rfl
    rw [e]
    exact set_properties_induction (fun st' => st'.2.layout = st.2.layout)
      (fun st' pv _ h => by
        show (gtk_constraint_guide_set_property st'.1 st'.2 pv.1 pv.2).2.layout = st.2.layout
        rw [set_property_layout]; exact h) ps st hv rfl
  | set_nat_size a b =>
    obtain ⟨ps, hv, e⟩ := setter_eq_set_properties st (.set_nat_size a b) rfl
    rw [e]
    exact set_properties_induction (fun st' => st'.2.layout = st.2.layout)
      (fun st' pv _ h => by
        show (gtk_constraint_guide_set_property st'.1 st'.2 pv.1 pv.2).2.layout = st.2.layout
        rw [set_property_layout]; exact h) ps st hv rfl
  | set_max_size a b =>
    obtain ⟨ps, hv, e⟩ := setter_eq_set_properties st (.set_max_size a b) rfl
    rw [e]
    exact set_properties_induction (fun st' => st'.2.layout = st.2.layout)
      (fun st' pv _ h => by
        show (gtk_constraint_guide_set_property st'.1 st'.2 pv.1 pv.2).2.layout = st.2.layout
        rw [set_property_layout]; exact h) ps st hv rfl

theorem op_constraints_of_no_layout (st : World × GtkConstraintGuide) (op : Op)
    (hop : op.is_set_layout = false) (hl : st.2.layout = none) :
    (op.apply st).2.constraints = st.2.constraints := by
  have hd : no_solver st.1 st.2 := fun l h => by rw [hl] at h; cases h
  cases op with
  | set_layout x => simp [Op.is_set_layout] at hop
  | update => simp only [Op.apply, update_dead st.1 st.2 hd]
  | detach => simp only [Op.apply, detach_dead st.1 st.2 hd]
  | get_attribute a => exact (get_attribute_guide st.1 st.2 a).2.2
  | set_min_size a b => exact (setter_dead st (.set_min_size a b) rfl hd).1
  | set_nat_size a b => exact (setter_dead st (.set_nat_size a b) rfl hd).1
  | set_max_size a b => exact (setter_dead st (.set_max_size a b) rfl hd).1

theorem run_no_layout_no_constraints (ops : List Op) :
    ∀ st : World × GtkConstraintGuide,
      (st.2.layout = none → ∀ i, st.2.constraints i = none) → attaches_clean st ops →
      (run st ops).2.layout = none → ∀ i, (run st ops).2.constraints i = none := by
  induction ops with
  | nil => intro st h _ hl; exact h hl
  | cons op ops ih =>
    intro st h hc hl
    simp only [run, List.foldl_cons] at hl ⊢
    refine ih (op.apply st) ?_ hc.2 hl
    intro hl' i
    cases hop : op.is_set_layout with
    | true =>
      cases op with
      | set_layout x => exact hc.1 hop i
      | _ => simp [Op.is_set_layout] at hop
    | false =>
      have e := op_layout st op hop
      rw [e] at hl'
      rw [op_constraints_of_no_layout st op hop hl']
      exact h hl' i

/-- C13, as amended: in every state reachable from a freshly constructed guide through
set_layout, update, detach, the setters and get_attribute, where every set_layout is
applied to a guide that holds no constraint (the guide is detached before its layout is
changed), if `layout` is `None` then all six `constraints[i]` are `None`. -/
theorem no_layout_no_constraints (w : World) (ops : List Op)
    (hclean : attaches_clean (w, gtk_constraint_guide_new) ops)
    (hl : (run (w, gtk_constraint_guide_new) ops).2.layout = none) :
    ∀ i, (run (w, gtk_constraint_guide_new) ops).2.constraints i = none :=
  run_no_layout_no_constraints ops _ (fun _ _ => rfl) hclean hl

/-- C13 as stated fails: set_layout(layout 0); update; set_layout(NULL) on a fresh guide
leaves `layout` `None` while the six slots still hold the handles of the constraints
registered in the solver of layout 0. -/
theorem no_layout_no_constraints_counterexample :
    (run (empty_world, gtk_constraint_guide_new)
      [.set_layout (some 0), .update, .set_layout none]).2.layout = none ∧
    GuideValue.all.map (run (empty_world, gtk_constraint_guide_new)
      [.set_layout (some 0), .update, .set_layout none]).2.constraints =
      [some 0, some 1, some 2, some 3, some 4, some 5] := by
  decide

/-- C13, at the run set_layout(layout 0); update; detach; set_layout(NULL) on a fresh
guide. -/
theorem no_layout_no_constraints_witness :
    attaches_clean (empty_world, gtk_constraint_guide_new)
      [.set_layout (some 0), .update, .detach, .set_layout none] ∧
    (run (empty_world, gtk_constraint_guide_new)
      [.set_layout (some 0), .update, .detach, .set_layout none]).2.layout = none ∧
    ∀ i, (run (empty_world, gtk_constraint_guide_new)
      [.set_layout (some 0), .update, .detach, .set_layout none]).2.constraints i = none :=
  have hc : attaches_clean (empty_world, gtk_constraint_guide_new)
      [.set_layout (some 0), .update, .detach, .set_layout none] :=
    ⟨fun _ _ => rfl, (fun h => by cases h), (fun h => by cases h),
      (fun _ i => by cases i <;> decide), trivial⟩
  ⟨hc, by decide, no_layout_no_constraints empty_world _ hc (by decide)⟩
theorem not_mem_keys_of_lookup_none
    (cache : List (GtkConstraintAttribute × GtkConstraintVariable))
    (a : GtkConstraintAttribute) (h : cache.lookup a = none) : a ∉ cache.map Prod.fst := by
  induction cache with
  | nil => simp
  | cons e es ih =>
    obtain ⟨k, v⟩ := e
    rw [List.lookup_cons] at h
    by_cases hk : a = k
    · subst hk; simp at h
    · have hf : (a == k) = false := by simp [hk]
      rw [hf] at h
      simp only [List.map_cons, List.mem_cons, not_or]
      exact ⟨hk, ih h⟩

theorem cache_width_height_insert
    (cache : List (GtkConstraintAttribute × GtkConstraintVariable))
    (a : GtkConstraintAttribute) (v : GtkConstraintVariable)
    (ha : a = .WIDTH ∨ a = .HEIGHT) (hn : cache.lookup a = none)
    (h : cache_width_height cache) : cache_width_height ((a, v) :: cache) := by
  refine ⟨?_, ?_⟩
  · simp only [List.map_cons, List.nodup_cons]
    exact ⟨not_mem_keys_of_lookup_none cache a hn, h.1⟩
  · intro e he
    rcases List.mem_cons.mp he with h1 | h1
    · subst h1; exact ha
    · exact h.2 e h1

theorem cache_width_height_length
    (cache : List (GtkConstraintAttribute × GtkConstraintVariable))
    (h : cache_width_height cache) : cache.length ≤ 2 := by
  have hs : cache.map Prod.fst ⊆ [GtkConstraintAttribute.WIDTH, .HEIGHT] := by
    intro a ha
    obtain ⟨e, he, rfl⟩ := List.mem_map.mp ha
    rcases h.2 e he with h1 | h1 <;> simp [h1]
  have := (List.Nodup.subperm h.1 hs).length_le
  simpa using this

theorem get_attribute_cache (w : World) (layout : Option Nat) (a : GtkConstraintAttribute)
    (anchor : String) (widget : Option Nat)
    (cache : List (GtkConstraintAttribute × GtkConstraintVariable)) :
    (gtk_constraint_layout_get_attribute w layout a anchor widget cache).2.1 = cache ∨
    (cache.lookup a = none ∧
      ∃ v, (gtk_constraint_layout_get_attribute w layout a anchor widget cache).2.1 =
        (a, v) :: cache) := by
  unfold gtk_constraint_layout_get_attribute
  cases hk : cache.lookup a with
  | some v => left; simp
  | none =>
    cases layout with
    | none => left; simp
    | some l =>
      cases hs : w.solvers l with
      | none => left; simp [World.emit, hs]
      | some s =>
        right
        exact ⟨rfl, ⟨s.n_variables, anchor, a⟩, by simp [World.emit, hs]⟩

theorem update_constraint_cache (w : World) (g : GtkConstraintGuide) (i : GuideValue) :
    (gtk_constraint_guide_update_constraint w g i).2.bound_attributes = g.bound_attributes ∨
    (g.bound_attributes.lookup (attr i) = none ∧
      ∃ v, (gtk_constraint_guide_update_constraint w g i).2.bound_attributes =
        (attr i, v) :: g.bound_attributes) := by
  cases hl : g.layout with
  | none => left; rw [update_constraint_no_layout w g i hl]
  | some l =>
    cases hs : w.solvers l with
    | none => left; rw [update_constraint_no_solver w g i l hl hs]
    | some s =>
      rw [update_constraint_live w g i l s hl hs]
      simp only [sync_guide, bind_cache]
      cases hk : g.bound_attributes.lookup (attr i) with
      | some v => left; rfl
      | none => right; exact ⟨rfl, _, rfl⟩

theorem attr_width_or_height (i : GuideValue) : attr i = .WIDTH ∨ attr i = .HEIGHT := by
  cases i <;> simp [attr]

theorem update_constraint_cache_width_height (st : World × GtkConstraintGuide)
    (i : GuideValue) (h : cache_width_height st.2.bound_attributes) :
    cache_width_height
      (gtk_constraint_guide_update_constraint st.1 st.2 i).2.bound_attributes := by
  rcases update_constraint_cache st.1 st.2 i with e | ⟨hn, v, e⟩
  · rw [e]; exact h
  · rw [e]; exact cache_width_height_insert _ _ v (attr_width_or_height i) hn h

theorem set_property_cache_width_height (st : World × GtkConstraintGuide) (p : Nat)
    (val : Int) (h : cache_width_height st.2.bound_attributes) :
    cache_width_height (gtk_constraint_guide_set_property st.1 st.2 p val).2.bound_attributes := by
  unfold gtk_constraint_guide_set_property
  cases GuideValue.of_prop_id p with
  | none => exact h
  | some i =>
    by_cases hv : st.2.values i = val
    · simp only [hv, ne_eq, not_true_eq_false, if_false]; exact h
    · simp only [ne_eq, hv, not_false_eq_true, if_true]
      exact update_constraint_cache_width_height
        (st.1.emit (Call.notify p), { st.2 with values := Function.update st.2.values i val })
        i h

theorem detach_cache (w : World) (g : GtkConstraintGuide) :
    (gtk_constraint_guide_detach w g).2.bound_attributes = g.bound_attributes ∨
    (gtk_constraint_guide_detach w g).2.bound_attributes = [] := by
  cases hl : g.layout with
  | none => left; rw [detach_no_layout w g hl]
  | some l =>
    cases hs : w.solvers l with
    | none => left; rw [detach_no_solver w g l hl hs]
    | some s => right; rw [detach_guide_live w g l s hl hs]

theorem op_cache_width_height (st : World × GtkConstraintGuide) (op : Op)
    (hop : ∀ a, op = .get_attribute a → a = .WIDTH ∨ a = .HEIGHT)
    (h : cache_width_height st.2.bound_attributes) :
    cache_width_height (op.apply st).2.bound_attributes := by
  cases op with
  | set_layout x => exact h
  | update =>
    exact update_induction (fun st' => cache_width_height st'.2.bound_attributes) st.1 st.2 h
      (fun st' i h' => update_constraint_cache_width_height st' i h')
  | detach =>
    rcases detach_cache st.1 st.2 with e | e
    · simp only [Op.apply, e]; exact h
    · simp only [Op.apply, e]; exact ⟨by simp, by simp⟩
  | get_attribute a =>
    simp only [Op.apply, gtk_constraint_guide_get_attribute]
    rcases get_attribute_cache st.1 st.2.layout a "guide"
      (gtk_layout_manager_get_widget st.1 st.2.layout) st.2.bound_attributes with e | ⟨hn, v, e⟩
    · simp only [e]; exact h
    · simp only [e]; exact cache_width_height_insert _ _ v (hop a rfl) hn h
  | set_min_size a b =>
    obtain ⟨ps, hv, e⟩ := setter_eq_set_properties st (.set_min_size a b) rfl
    rw [e]
    exact set_properties_induction (fun st' => cache_width_height st'.2.bound_attributes)
      (fun st' pv _ h' => set_property_cache_width_height st' pv.1 pv.2 h') ps st hv h
  | set_nat_size a b =>
    obtain ⟨ps, hv, e⟩ := setter_eq_set_properties st (.set_nat_size a b) rfl
    rw [e]
    exact set_properties_induction (fun st' => cache_width_height st'.2.bound_attributes)
      (fun st' pv _ h' => set_property_cache_width_height st' pv.1 pv.2 h') ps st hv h
  | set_max_size a b =>
    obtain ⟨ps, hv, e⟩ := setter_eq_set_properties st (.set_max_size a b) rfl
    rw [e]
    exact set_properties_induction (fun st' => cache_width_height st'.2.bound_attributes)
      (fun st' pv _ h' => set_property_cache_width_height st' pv.1 pv.2 h') ps st hv h

theorem run_cache_width_height (ops : List Op) :
    ∀ st : World × GtkConstraintGuide,
      (∀ op ∈ ops, ∀ a, op = .get_attribute a → a = .WIDTH ∨ a = .HEIGHT) →
      cache_width_height st.2.bound_attributes →
      cache_width_height (run st ops).2.bound_attributes := by
  induction ops with
  | nil => intro st _ h; exact h
  | cons op ops ih =>
    intro st hops h
    simp only [run, List.foldl_cons]
    exact ih _ (fun o ho => hops o (List.mem_cons_of_mem _ ho))
      (op_cache_width_height st op (hops op (List.mem_cons_self _ _)) h)

/-- C14, as amended: in every state reachable from a freshly constructed guide through
set_layout, update, detach, the setters and `gtk_constraint_guide_get_attribute` asked
for the attributes Width and Height only, `bound_attributes` holds at most two entries,
at most one for Width and one for Height and none for another attribute. -/
theorem bound_attributes_at_most_two (w : World) (ops : List Op)
    (hops : ∀ op ∈ ops, ∀ a, op = .get_attribute a → a = .WIDTH ∨ a = .HEIGHT) :
    (run (w, gtk_constraint_guide_new) ops).2.bound_attributes.length ≤ 2 ∧
    cache_width_height (run (w, gtk_constraint_guide_new) ops).2.bound_attributes := by
  have hnew : gtk_constraint_guide_new.bound_attributes = [] := rfl
  have h := run_cache_width_height ops (w, gtk_constraint_guide_new) hops
    (by simp [hnew, cache_width_height])
  exact ⟨cache_width_height_length _ h, h⟩

/-- C14 as stated fails: on a fresh guide attached to layout 0,
`gtk_constraint_guide_get_attribute` asked for Width, Height and Left leaves three
entries in `bound_attributes`. -/
theorem bound_attributes_at_most_two_counterexample :
    (run (empty_world, gtk_constraint_guide_new)
      [.set_layout (some 0), .get_attribute .WIDTH, .get_attribute .HEIGHT,
        .get_attribute .LEFT]).2.bound_attributes.length = 3 ∧
    (run (empty_world, gtk_constraint_guide_new)
      [.set_layout (some 0), .get_attribute .WIDTH, .get_attribute .HEIGHT,
        .get_attribute .LEFT]).2.bound_attributes.map Prod.fst = [.LEFT, .HEIGHT, .WIDTH] := by
  decide

/-- C14, at the run set_layout(layout 0); update; get_attribute(Width);
get_attribute(Height); set_min_size(3, 4) on a fresh guide. -/
theorem bound_attributes_at_most_two_witness :
    (∀ op ∈ [Op.set_layout (some 0), .update, .get_attribute .WIDTH, .get_attribute .HEIGHT,
        .set_min_size 3 4],
      ∀ a, op = .get_attribute a → a = .WIDTH ∨ a = .HEIGHT) ∧
    (run (empty_world, gtk_constraint_guide_new)
      [.set_layout (some 0), .update, .get_attribute .WIDTH, .get_attribute .HEIGHT,
        .set_min_size 3 4]).2.bound_attributes.length ≤ 2 :=
  have hops : ∀ op ∈ [Op.set_layout (some 0), .update, .get_attribute .WIDTH,
        .get_attribute .HEIGHT, .set_min_size 3 4],
      ∀ a, op = .get_attribute a → a = .WIDTH ∨ a = .HEIGHT := by
    intro op hop a ha
    subst ha
    simp at hop
    rcases hop with h | h <;> simp [h]
  ⟨hops, (bound_attributes_at_most_two empty_world _ hops).1⟩
theorem mem_sync_removed (s : GtkConstraintSolver) (c : Option Nat) (x : GtkConstraint) :
    x ∈ (sync_removed s c).constraints ↔ x ∈ s.constraints ∧ c ≠ some x.ref := by
  rw [sync_removed_constraints]
  simp

theorem filter_ref_sync_removed (s : GtkConstraintSolver) (c : Option Nat) (r : Nat)
    (h : c ≠ some r) :
    (sync_removed s c).constraints.filter (fun x => decide (x.ref = r)) =
      s.constraints.filter (fun x => decide (x.ref = r)) := by
  rw [sync_removed_constraints, List.filter_filter]
  apply List.filter_congr
  intro x _
  by_cases hx : x.ref = r
  · subst hx; simp [h]
  · simp [hx]

theorem filter_ref_fresh_nil (s : GtkConstraintSolver) (r : Nat) (h : s.fresh_ref ≤ r) :
    s.constraints.filter (fun x => decide (x.ref = r)) = [] := by
  rw [List.filter_eq_nil_iff]
  intro x hx
  have := s.ref_lt_fresh_ref x hx
  simp
  omega

theorem lookup_bind_cache_self (cache : List (GtkConstraintAttribute × GtkConstraintVariable))
    (s : GtkConstraintSolver) (a : GtkConstraintAttribute) (anchor : String) :
    (bind_cache cache s a anchor).lookup a = some (bind_var cache s a anchor) := by
  unfold bind_cache bind_var
  cases hk : cache.lookup a with
  | some v => simp [hk]
  | none => simp [List.lookup_cons]

theorem synced_step (f0 : Nat) (S : GuideValue → Prop) (s : GtkConstraintSolver)
    (g : GtkConstraintGuide) (i : GuideValue) (val : Int) (h : synced f0 S s g) :
    synced f0 (fun j => j = i ∨ S j)
      (sync_solver s { g with values := Function.update g.values i val } i)
      (sync_guide s { g with values := Function.update g.values i val } i) := by
  obtain ⟨h0, hsl, hinj, hun, hheld⟩ := h
  have hci : ∀ j, j ≠ i → S j → ∀ r, g.constraints j = some r → g.constraints i ≠ some r := by
    intro j hj hSj r hr hi
    by_cases hSi : S i
    · exact hj (hinj j i hSj hSi (hr.trans hi.symm))
    · obtain ⟨r', c', hr', hf, _⟩ := hsl j hSj
      have := hun i hSi r hi
      rw [hr] at hr'
      cases hr'
      omega
  refine ⟨?_, ?_, ?_, ?_, ?_⟩
  · rw [sync_solver_fresh_ref]; omega
  · intro j hj
    by_cases hji : j = i
    · subst hji
      refine ⟨s.fresh_ref, ⟨s.fresh_ref,
        some (bind_var g.bound_attributes (sync_removed s (g.constraints j)) (attr j) "guide"),
        relation j, gtk_constraint_expression_new val, weight j⟩, ?_, h0, ?_, ?_, rfl, rfl, ?_,
        _, rfl, ?_⟩
      · simp [sync_guide]
      · rw [sync_solver_fresh_ref]; omega
      · rw [sync_solver_constraints, List.filter_append]
        have hnil : (sync_removed s (g.constraints j)).constraints.filter
            (fun x => decide (x.ref = s.fresh_ref)) = [] := by
          rw [List.filter_eq_nil_iff]
          intro x hx
          have := s.ref_lt_fresh_ref x ((mem_sync_removed s _ x).mp hx).1
          simp
          omega
        simp only [hnil]
        simp
      · simp [sync_guide, gtk_constraint_expression_new]
      · simp only [sync_guide]
        exact lookup_bind_cache_self _ _ _ _
    · have hSj : S j := by
        rcases hj with h | h
        · exact absurd h hji
        · exact h
      obtain ⟨r, c, hr, hf, hlt, hfil, hrel, hwt, hcon, v, hv, hlk⟩ := hsl j hSj
      refine ⟨r, c, ?_, hf, ?_, ?_, hrel, hwt, ?_, v, hv, ?_⟩
      · simp [sync_guide, Function.update_noteq hji, hr]
      · rw [sync_solver_fresh_ref]; omega
      · rw [sync_solver_constraints, List.filter_append]
        rw [filter_ref_sync_removed s _ r (hci j hji hSj r hr), hfil]
        have : s.fresh_ref ≠ r := by omega
        simp [this]
      · simp [sync_guide, Function.update_noteq hji, hcon]
      · simp only [sync_guide]
        exact lookup_bind_cache_of_some _ _ _ _ _ _ hlk
  · intro j k hj hk hjk
    simp only [sync_guide] at hjk
    by_cases hji : j = i
    · by_cases hki : k = i
      · rw [hji, hki]
      · exfalso
        have hSk : S k := by
          rcases hk with h | h
          · exact absurd h hki
          · exact h
        obtain ⟨r, c, hr, _, hlt, _⟩ := hsl k hSk
        rw [hji, Function.update_same, Function.update_noteq hki, hr] at hjk
        cases hjk
        omega
    · have hSj : S j := by
        rcases hj with h | h
        · exact absurd h hji
        · exact h
      by_cases hki : k = i
      · exfalso
        obtain ⟨r, c, hr, _, hlt, _⟩ := hsl j hSj
        rw [hki, Function.update_same, Function.update_noteq hji, hr] at hjk
        cases hjk
        omega
      · have hSk : S k := by
          rcases hk with h | h
          · exact absurd h hki
          · exact h
        rw [Function.update_noteq hji, Function.update_noteq hki] at hjk
        exact hinj j k hSj hSk hjk
  · intro j hj r hr
    have hji : j ≠ i := fun h => hj (Or.inl h)
    have hSj : ¬ S j := fun h => hj (Or.inr h)
    simp only [sync_guide, Function.update_noteq hji] at hr
    exact hun j hSj r hr
  · intro c hc hfc
    rw [sync_solver_constraints] at hc
    rcases List.mem_append.mp hc with h | h
    · obtain ⟨hcs, hne⟩ := (mem_sync_removed s _ c).mp h
      obtain ⟨j, hSj, hj⟩ := hheld c hcs hfc
      have hji : j ≠ i := by
        intro e; subst e; exact hne hj
      exact ⟨j, Or.inr hSj, by simp [sync_guide, Function.update_noteq hji, hj]⟩
    · simp at h
      subst h
      exact ⟨i, Or.inl rfl, by simp [sync_guide]⟩
theorem synced_congr (f0 : Nat) (S S' : GuideValue → Prop) (s : GtkConstraintSolver)
    (g : GtkConstraintGuide) (hS : ∀ j, S j ↔ S' j) (h : synced f0 S s g) :
    synced f0 S' s g := by
  have e : S = S' := funext (fun j => propext (hS j))
  rw [← e]; exact h

theorem guide_update_values_self (g : GtkConstraintGuide) (i : GuideValue) :
    ({ g with values := Function.update g.values i (g.values i) } : GtkConstraintGuide) = g := by
  rw [Function.update_eq_self]

theorem synced_sync (f0 : Nat) (S : GuideValue → Prop) (s : GtkConstraintSolver)
    (g : GtkConstraintGuide) (i : GuideValue) (h : synced f0 S s g) :
    synced f0 (fun j => j = i ∨ S j) (sync_solver s g i) (sync_guide s g i) := by
  have := synced_step f0 S s g i (g.values i) h
  rw [guide_update_values_self] at this
  exact this

theorem synced_fold (l f0 : Nat) (is : List GuideValue) :
    ∀ (S : GuideValue → Prop) (s : GtkConstraintSolver) (g : GtkConstraintGuide)
      (lg : List Call), synced f0 S s g →
      synced f0 (fun j => j ∈ is ∨ S j) (is.foldl (sync l) (s, g, lg)).1
        (is.foldl (sync l) (s, g, lg)).2.1 := by
  induction is with
  | nil =>
    intro S s g lg h
    exact synced_congr f0 S _ s g (fun j => by simp) h
  | cons i is ih =>
    intro S s g lg h
    simp only [List.foldl_cons]
    have h1 := ih (fun j => j = i ∨ S j) (sync_solver s g i) (sync_guide s g i)
      (lg ++ sync_log l s g i) (synced_sync f0 S s g i h)
    refine synced_congr f0 _ _ _ _ (fun j => ?_) h1
    simp only [List.mem_cons]
    tauto

theorem synced_of_issued (s : GtkConstraintSolver) (g : GtkConstraintGuide)
    (h : issued s g) : synced s.fresh_ref (fun _ => False) s g := by
  refine ⟨le_refl _, fun i hi => absurd hi id, fun i j hi => absurd hi id,
    fun i _ r hr => h i r hr, fun c hc hf => ?_⟩
  have := s.ref_lt_fresh_ref c hc
  omega

theorem mem_all (j : GuideValue) : j ∈ GuideValue.all := by
  rw [GuideValue.all_eq]; cases j <;> simp

theorem update_live_synced (w : World) (g : GtkConstraintGuide) (l : Nat)
    (s : GtkConstraintSolver) (f0 : Nat) (S : GuideValue → Prop) (hl : g.layout = some l)
    (hs : w.solvers l = some s) (h : synced f0 S s g) :
    live_synced l f0 (gtk_constraint_guide_update w g) := by
  rw [update_live w g l s hl hs]
  refine ⟨_, ?_, Function.update_same _ _ _, ?_⟩
  · show (GuideValue.all.foldl (sync l) (s, g, w.log)).2.1.layout = some l
    rw [sync_fold_layout]; exact hl
  · exact synced_congr f0 _ _ _ _ (fun j => by simp [mem_all])
      (synced_fold l f0 GuideValue.all S s g w.log h)

theorem live_synced_update_constraint (l f0 : Nat) (st : World × GtkConstraintGuide)
    (i : GuideValue) (h : live_synced l f0 st) :
    live_synced l f0 (gtk_constraint_guide_update_constraint st.1 st.2 i) := by
  obtain ⟨s, hl, hs, hsy⟩ := h
  rw [update_constraint_live st.1 st.2 i l s hl hs]
  exact ⟨_, hl, Function.update_same _ _ _,
    synced_congr f0 _ _ _ _ (fun j => by simp) (synced_sync f0 _ s st.2 i hsy)⟩

theorem live_synced_set_property (l f0 : Nat) (st : World × GtkConstraintGuide) (p : Nat)
    (val : Int) (h : live_synced l f0 st) :
    live_synced l f0 (gtk_constraint_guide_set_property st.1 st.2 p val) := by
  obtain ⟨s, hl, hs, hsy⟩ := h
  cases hp : GuideValue.of_prop_id p with
  | none =>
    simp only [gtk_constraint_guide_set_property, hp]
    exact ⟨s, hl, hs, hsy⟩
  | some i =>
    by_cases hv : val = st.2.values i
    · simp only [gtk_constraint_guide_set_property, hp, hv, ne_eq, not_true_eq_false, if_false]
      exact ⟨s, hl, hs, hsy⟩
    · rw [set_property_live st.1 st.2 l s p i val hl hs hp hv]
      exact ⟨_, hl, Function.update_same _ _ _,
        synced_congr f0 _ _ _ _ (fun j => by simp) (synced_step f0 _ s st.2 i val hsy)⟩

theorem live_synced_op (l f0 : Nat) (st : World × GtkConstraintGuide) (op : Op)
    (hop : op.is_setter = true ∨ op.is_update = true) (h : live_synced l f0 st) :
    live_synced l f0 (op.apply st) := by
  cases hs : op.is_setter with
  | true =>
    obtain ⟨ps, hv, e⟩ := setter_eq_set_properties st op hs
    rw [e]
    exact set_properties_induction (fun st' => live_synced l f0 st')
      (fun st' pv _ h' => live_synced_set_property l f0 st' pv.1 pv.2 h') ps st hv h
  | false =>
    cases op with
    | update =>
      exact update_induction (fun st' => live_synced l f0 st') st.1 st.2 h
        (fun st' i h' => live_synced_update_constraint l f0 st' i h')
    | _ => simp_all [Op.is_setter, Op.is_update]

theorem live_synced_run (l f0 : Nat) (ops : List Op) :
    ∀ st : World × GtkConstraintGuide,
      (∀ op ∈ ops, op.is_setter = true ∨ op.is_update = true) → live_synced l f0 st →
      live_synced l f0 (run st ops) := by
  induction ops with
  | nil => intro st _ h; exact h
  | cons op ops ih =>
    intro st hops h
    simp only [run, List.foldl_cons]
    exact ih _ (fun o ho => hops o (List.mem_cons_of_mem _ ho))
      (live_synced_op l f0 st op (hops op (List.mem_cons_self _ _)) h)
theorem of_filter_singleton (cs : List GtkConstraint) (r : Nat) (c : GtkConstraint)
    (h : cs.filter (fun x => decide (x.ref = r)) = [c]) :
    c ∈ cs ∧ c.ref = r ∧ ∀ c' ∈ cs, c'.ref = r → c' = c := by
  have hc : c ∈ cs.filter (fun x => decide (x.ref = r)) := by rw [h]; simp
  rw [List.mem_filter] at hc
  refine ⟨hc.1, by simpa using hc.2, fun c' hc' hr => ?_⟩
  have : c' ∈ cs.filter (fun x => decide (x.ref = r)) := by
    rw [List.mem_filter]; exact ⟨hc', by simpa using hr⟩
  rw [h] at this
  simpa using this

theorem slot_registered_of_live_synced (l f0 : Nat) (st : World × GtkConstraintGuide)
    (h : live_synced l f0 st) (i : GuideValue) : slot_registered st i := by
  obtain ⟨s, hl, hs, _, hsl, _⟩ := h
  obtain ⟨r, c, hr, _, _, hfil, hrel, hwt, hcon, _⟩ := hsl i trivial
  obtain ⟨hm, hcr, hu⟩ := of_filter_singleton s.constraints r c hfil
  exact ⟨l, s, r, c, hl, hs, hr, hm, hcr, hu, hcon, hrel, hwt⟩

/-- C17: once `gtk_constraint_guide_update` has run on a guide attached to a layout
with a solver (the handles the guide held before, if any, having been handed out by that
solver), after every subsequent sequence of set_min_size / set_nat_size / set_max_size
calls, with arbitrary arguments, the guide is still attached to that layout and for
every slot `i` `constraints[i]` is non-null, is registered in the solver, where it
denotes exactly one constraint, and that constraint has the current `values[i]` as
constant. -/
theorem setters_keep_synchronised (w : World) (g : GtkConstraintGuide) (l : Nat)
    (s : GtkConstraintSolver) (ops : List Op) (hl : g.layout = some l)
    (hs : w.solvers l = some s) (hissued : issued s g)
    (hops : ∀ op ∈ ops, op.is_setter = true) :
    (run (gtk_constraint_guide_update w g) ops).2.layout = some l ∧
    ∀ i, slot_registered (run (gtk_constraint_guide_update w g) ops) i := by
  have h1 := update_live_synced w g l s s.fresh_ref _ hl hs (synced_of_issued s g hissued)
  have h2 := live_synced_run l s.fresh_ref ops _ (fun op hop => Or.inl (hops op hop)) h1
  refine ⟨?_, fun i => slot_registered_of_live_synced l s.fresh_ref _ h2 i⟩
  obtain ⟨_, hl', _⟩ := h2
  exact hl'

/-- C17, at the example guide: update, then set_min_size(1, 2), set_max_size(-1, 300)
and set_nat_size(-7, 5). -/
theorem setters_keep_synchronised_witness :
    example_guide.layout = some 0 ∧ example_world.solvers 0 = some example_solver ∧
    issued example_solver example_guide ∧
    (∀ op ∈ [Op.set_min_size 1 2, .set_max_size (-1) 300, .set_nat_size (-7) 5],
      op.is_setter = true) ∧
    ∀ i, slot_registered
      (run (gtk_constraint_guide_update example_world example_guide)
        [.set_min_size 1 2, .set_max_size (-1) 300, .set_nat_size (-7) 5]) i :=
  ⟨rfl, rfl, (fun i r h => by cases h), by decide,
    (setters_keep_synchronised example_world example_guide 0 example_solver
      [.set_min_size 1 2, .set_max_size (-1) 300, .set_nat_size (-7) 5] rfl rfl
      (fun i r h => by cases h) (by decide)).2⟩
theorem issued_step (s : GtkConstraintSolver) (g g' : GtkConstraintGuide) (i : GuideValue)
    (hc : g'.constraints = g.constraints) (h : issued s g) :
    issued (sync_solver s g' i) (sync_guide s g' i) := by
  intro j r hr
  rw [sync_solver_fresh_ref]
  by_cases hji : j = i
  · subst hji
    simp [sync_guide] at hr
    omega
  · simp only [sync_guide, Function.update_noteq hji, hc] at hr
    have := h j r hr
    omega

theorem handles_issued_update_constraint (st : World × GtkConstraintGuide) (i : GuideValue)
    (h : handles_issued st) :
    handles_issued (gtk_constraint_guide_update_constraint st.1 st.2 i) := by
  cases hl : st.2.layout with
  | none => rw [update_constraint_no_layout st.1 st.2 i hl]; exact h
  | some l =>
    cases hs : st.1.solvers l with
    | none => rw [update_constraint_no_solver st.1 st.2 i l hl hs]; exact h
    | some s =>
      rw [update_constraint_live st.1 st.2 i l s hl hs]
      intro l' s' hl' hs'
      have e : l' = l := by
        have : some l' = some l := hl'.symm.trans hl
        exact Option.some.inj this
      subst e
      simp only [Function.update_same, Option.some.injEq] at hs'
      subst hs'
      exact issued_step s st.2 st.2 i rfl (h l' s hl hs)

theorem handles_issued_set_property (st : World × GtkConstraintGuide) (p : Nat) (val : Int)
    (h : handles_issued st) :
    handles_issued (gtk_constraint_guide_set_property st.1 st.2 p val) := by
  unfold gtk_constraint_guide_set_property
  cases GuideValue.of_prop_id p with
  | none => exact h
  | some i =>
    by_cases hv : st.2.values i = val
    · simp only [hv, ne_eq, not_true_eq_false, if_false]; exact h
    · simp only [ne_eq, hv, not_false_eq_true, if_true]
      exact handles_issued_update_constraint
        (st.1.emit (Call.notify p), { st.2 with values := Function.update st.2.values i val })
        i (fun l s hl hs => h l s hl hs)

theorem handles_issued_detach (st : World × GtkConstraintGuide) (h : handles_issued st) :
    handles_issued (gtk_constraint_guide_detach st.1 st.2) := by
  cases hl : st.2.layout with
  | none => rw [detach_no_layout st.1 st.2 hl]; exact h
  | some l =>
    cases hs : st.1.solvers l with
    | none => rw [detach_no_solver st.1 st.2 l hl hs]; exact h
    | some s =>
      intro l' s' _ _ i r hr
      rw [detach_guide_live st.1 st.2 l s hl hs] at hr
      cases hr

theorem handles_issued_op (st : World × GtkConstraintGuide) (op : Op)
    (hg : op.is_set_layout = true → ∀ i, st.2.constraints i = none)
    (hno : op.is_get_attribute = false) (h : handles_issued st) :
    handles_issued (op.apply st) := by
  cases op with
  | set_layout x =>
    intro l s _ _ i r hr
    have := hg rfl i
    simp only [Op.apply, gtk_constraint_guide_set_layout] at hr
    rw [this] at hr
    cases hr
  | update =>
    exact update_induction (fun st' => handles_issued st') st.1 st.2 h
      (fun st' i h' => handles_issued_update_constraint st' i h')
  | detach => exact handles_issued_detach st h
  | get_attribute a => simp [Op.is_get_attribute] at hno
  | set_min_size a b =>
    obtain ⟨ps, hv, e⟩ := setter_eq_set_properties st (.set_min_size a b) rfl
    rw [e]
    exact set_properties_induction (fun st' => handles_issued st')
      (fun st' pv _ h' => handles_issued_set_property st' pv.1 pv.2 h') ps st hv h
  | set_nat_size a b =>
    obtain ⟨ps, hv, e⟩ := setter_eq_set_properties st (.set_nat_size a b) rfl
    rw [e]
    exact set_properties_induction (fun st' => handles_issued st')
      (fun st' pv _ h' => handles_issued_set_property st' pv.1 pv.2 h') ps st hv h
  | set_max_size a b =>
    obtain ⟨ps, hv, e⟩ := setter_eq_set_properties st (.set_max_size a b) rfl
    rw [e]
    exact set_properties_induction (fun st' => handles_issued st')
      (fun st' pv _ h' => handles_issued_set_property st' pv.1 pv.2 h') ps st hv h

theorem handles_issued_run (ops : List Op) :
    ∀ st : World × GtkConstraintGuide, attaches_clean st ops →
      (∀ op ∈ ops, op.is_get_attribute = false) → handles_issued st →
      handles_issued (run st ops) := by
  induction ops with
  | nil => intro st _ _ h; exact h
  | cons op ops ih =>
    intro st hc hno h
    simp only [run, List.foldl_cons]
    exact ih _ hc.2 (fun o ho => hno o (List.mem_cons_of_mem _ ho))
      (handles_issued_op st op hc.1 (hno op (List.mem_cons_self _ _)) h)

theorem no_solver_op (st : World × GtkConstraintGuide) (op : Op)
    (hop : op.is_setter = true ∨ op.is_update = true) (h : no_solver st.1 st.2) :
    no_solver (op.apply st).1 (op.apply st).2 ∧ (op.apply st).2.layout = st.2.layout := by
  cases hs : op.is_setter with
  | true =>
    have := setter_dead st op hs h
    exact ⟨no_solver_of_only_values_change _ _ this h, this.2.2.1⟩
  | false =>
    cases op with
    | update =>
      have e : Op.apply st Op.update = st := update_dead st.1 st.2 h
      rw [e]; exact ⟨h, rfl⟩
    | _ => simp_all [Op.is_setter, Op.is_update]

theorem no_solver_run (ops : List Op) :
    ∀ st : World × GtkConstraintGuide,
      (∀ op ∈ ops, op.is_setter = true ∨ op.is_update = true) → no_solver st.1 st.2 →
      no_solver (run st ops).1 (run st ops).2 := by
  induction ops with
  | nil => intro st _ h; exact h
  | cons op ops ih =>
    intro st hops h
    simp only [run, List.foldl_cons]
    exact ih _ (fun o ho => hops o (List.mem_cons_of_mem _ ho))
      (no_solver_op st op (hops op (List.mem_cons_self _ _)) h).1

theorem run_append (st : World × GtkConstraintGuide) (ops1 ops2 : List Op) :
    run st (ops1 ++ ops2) = run (run st ops1) ops2 := by
  simp [run, List.foldl_append]

/-- C16, as amended: in every state reachable from a freshly constructed guide through
set_layout, update, detach and the setters, every set_layout being applied to a guide
that holds no constraint, in which an update has been called after the last set_layout
and the last detach (only setters and updates follow it): for every slot `i`, if a
layout is attached and it exposes a solver, then `constraints[i]` is non-null and
registered in that solver, and the one constraint it denotes has constant
`values[i]`. -/
theorem synchronised_after_update (w : World) (ops1 ops2 : List Op)
    (hclean : attaches_clean (w, gtk_constraint_guide_new) ops1)
    (hno : ∀ op ∈ ops1, op.is_get_attribute = false)
    (hops2 : ∀ op ∈ ops2, op.is_setter = true ∨ op.is_update = true) (l : Nat)
    (hl : (run (w, gtk_constraint_guide_new) (ops1 ++ Op.update :: ops2)).2.layout = some l)
    (hs : ((run (w, gtk_constraint_guide_new)
      (ops1 ++ Op.update :: ops2)).1.solvers l).isSome = true) :
    ∀ i, slot_registered (run (w, gtk_constraint_guide_new) (ops1 ++ Op.update :: ops2)) i := by
  have h1 : handles_issued (run (w, gtk_constraint_guide_new) ops1) :=
    handles_issued_run ops1 _ hclean hno (fun l s _ _ i r hr => by cases hr)
  rw [run_append] at hl hs ⊢
  generalize run (w, gtk_constraint_guide_new) ops1 = st1 at h1 hl hs ⊢
  have e : run st1 (Op.update :: ops2) = run (gtk_constraint_guide_update st1.1 st1.2) ops2 := rfl
  rw [e] at hl hs ⊢
  by_cases hd : no_solver st1.1 st1.2
  · exfalso
    rw [update_dead st1.1 st1.2 hd] at hl hs
    have := no_solver_run ops2 st1 hops2 hd l hl
    rw [this] at hs
    simp at hs
  · unfold no_solver at hd
    push_neg at hd
    obtain ⟨l1, hl1, hs1⟩ := hd
    obtain ⟨s1, hs1'⟩ := Option.ne_none_iff_exists'.mp hs1
    have h2 := update_live_synced st1.1 st1.2 l1 s1 s1.fresh_ref _ hl1 hs1'
      (synced_of_issued s1 st1.2 (h1 l1 s1 hl1 hs1'))
    have h3 := live_synced_run l1 s1.fresh_ref ops2 _ hops2 h2
    exact fun i => slot_registered_of_live_synced l1 s1.fresh_ref _ h3 i
/-- C16 as stated fails: right after set_layout(layout 0) on a fresh guide, and again
after set_layout(layout 0); update; detach, a layout exposing a solver is attached and
all six `constraints[i]` are `None`. -/
theorem synchronised_after_update_counterexample :
    (run (empty_world, gtk_constraint_guide_new) [.set_layout (some 0)]).2.layout = some 0 ∧
    ((run (empty_world, gtk_constraint_guide_new)
      [.set_layout (some 0)]).1.solvers 0).isSome = true ∧
    GuideValue.all.map (run (empty_world, gtk_constraint_guide_new)
      [.set_layout (some 0)]).2.constraints = [none, none, none, none, none, none] ∧
    (run (empty_world, gtk_constraint_guide_new)
      [.set_layout (some 0), .update, .detach]).2.layout = some 0 ∧
    ((run (empty_world, gtk_constraint_guide_new)
      [.set_layout (some 0), .update, .detach]).1.solvers 0).isSome = true ∧
    GuideValue.all.map (run (empty_world, gtk_constraint_guide_new)
      [.set_layout (some 0), .update, .detach]).2.constraints =
      [none, none, none, none, none, none] := by
  decide

/-- C16, at the run set_layout(layout 0); set_min_size(10, 20); update;
set_max_size(100, 200); update on a fresh guide. -/
theorem synchronised_after_update_witness :
    attaches_clean (empty_world, gtk_constraint_guide_new)
      [.set_layout (some 0), .set_min_size 10 20] ∧
    (∀ op ∈ [Op.set_layout (some 0), .set_min_size 10 20], op.is_get_attribute = false) ∧
    (∀ op ∈ [Op.set_max_size 100 200, .update], op.is_setter = true ∨ op.is_update = true) ∧
    (run (empty_world, gtk_constraint_guide_new)
      ([.set_layout (some 0), .set_min_size 10 20] ++
        Op.update :: [.set_max_size 100 200, .update])).2.layout = some 0 ∧
    ((run (empty_world, gtk_constraint_guide_new)
      ([.set_layout (some 0), .set_min_size 10 20] ++
        Op.update :: [.set_max_size 100 200, .update])).1.solvers 0).isSome = true ∧
    ∀ i, slot_registered (run (empty_world, gtk_constraint_guide_new)
      ([.set_layout (some 0), .set_min_size 10 20] ++
        Op.update :: [.set_max_size 100 200, .update])) i :=
  have hc : attaches_clean (empty_world, gtk_constraint_guide_new)
      [.set_layout (some 0), .set_min_size 10 20] :=
    ⟨fun _ _ => rfl, (fun h => by cases h), trivial⟩
  ⟨hc, by decide, by decide, by decide, by decide,
    synchronised_after_update empty_world [.set_layout (some 0), .set_min_size 10 20]
      [.set_max_size 100 200, .update] hc (by decide) (by decide) 0 (by decide) (by decide)⟩

theorem cache_consistent_bind_cache
    (cache : List (GtkConstraintAttribute × GtkConstraintVariable))
    (s : GtkConstraintSolver) (a : GtkConstraintAttribute) (anchor : String)
    (h : ∀ b v, cache.lookup b = some v → v.attr = b) :
    ∀ b v, (bind_cache cache s a anchor).lookup b = some v → v.attr = b := by
  intro b v hb
  by_cases hba : b = a
  · subst hba
    rw [lookup_bind_cache_self] at hb
    simp only [Option.some.injEq] at hb
    subst hb
    unfold bind_var
    cases hk : cache.lookup b with
    | some v' => exact h b v' hk
    | none => rfl
  · rw [lookup_bind_cache_ne _ _ _ _ _ hba] at hb
    exact h b v hb

theorem cache_consistent_sync_fold (l : Nat) (is : List GuideValue) :
    ∀ (s : GtkConstraintSolver) (g : GtkConstraintGuide) (lg : List Call),
      cache_consistent g → cache_consistent (is.foldl (sync l) (s, g, lg)).2.1 := by
  induction is with
  | nil => intro s g lg h; exact h
  | cons i is ih =>
    intro s g lg h
    simp only [List.foldl_cons]
    exact ih _ _ _ (cache_consistent_bind_cache _ _ _ _ h)

theorem slot_summary_of_live_synced (l f0 : Nat) (st : World × GtkConstraintGuide)
    (h : live_synced l f0 st) (hc : cache_consistent st.2) (i : GuideValue) :
    slot_summary st i = some (some (attr i), relation i, st.2.values i, weight i) := by
  obtain ⟨s, hl, hs, _, hsl, _⟩ := h
  obtain ⟨r, c, hr, _, _, hfil, hrel, hwt, hcon, v, hv, hlk⟩ := hsl i trivial
  have hfind : s.constraints.find? (fun c => decide (c.ref = r)) = some c := by
    rw [← List.filter_head?, hfil]; rfl
  simp only [slot_summary, slot_constraint, hl, hr, hs, hfind, Option.map_some', hv, hrel,
    hcon, hwt, hc (attr i) v hlk]

theorem attach_update_summary (w : World) (g : GtkConstraintGuide) (l : Nat)
    (s : GtkConstraintSolver) (hs : w.solvers l = some s) (hi : issued s g)
    (hc : cache_consistent g) :
    live_synced l s.fresh_ref (attach_update w g l) ∧
    (attach_update w g l).2.values = g.values ∧
    ∀ i, slot_summary (attach_update w g l) i =
      some (some (attr i), relation i, g.values i, weight i) := by
  have hl : (gtk_constraint_guide_set_layout g (some l)).layout = some l := rfl
  have h1 : live_synced l s.fresh_ref (attach_update w g l) :=
    update_live_synced w _ l s s.fresh_ref _ hl hs
      (synced_of_issued s (gtk_constraint_guide_set_layout g (some l)) hi)
  have h2 : cache_consistent (attach_update w g l).2 := by
    unfold attach_update
    rw [update_live w _ l s hl hs]
    exact cache_consistent_sync_fold l GuideValue.all s _ w.log hc
  have h3 : (attach_update w g l).2.values = g.values := update_values w _
  refine ⟨h1, h3, fun i => ?_⟩
  rw [slot_summary_of_live_synced l s.fresh_ref _ h1 h2 i, h3]

/-- C12: `gtk_constraint_guide_detach` leaves all six stored values unchanged; and for
every guide (whose handles, if any, were handed out by the solver and whose cached
variables are cached under their own attribute), on a layout with a solver, the
constraints of the six slots after attach; update; detach; attach; update are, slot by
slot, identical in attribute kind, relation, constant and weight to those after the
first attach; update: Width or Height as the slot has it, the relation and the weight
of the slot, and the stored value as constant. -/
theorem detach_keeps_values_and_reattach_restores (w : World) (g : GtkConstraintGuide)
    (l : Nat) (s : GtkConstraintSolver) :
    (gtk_constraint_guide_detach w g).2.values = g.values ∧
    (w.solvers l = some s → issued s g → cache_consistent g →
      ∀ i, slot_summary (reattach_update w g l) i = slot_summary (attach_update w g l) i ∧
        slot_summary (attach_update w g l) i =
          some (some (if i = .MIN_WIDTH ∨ i = .NAT_WIDTH ∨ i = .MAX_WIDTH then
            GtkConstraintAttribute.WIDTH else .HEIGHT), relation i, g.values i, weight i)) := by
  refine ⟨detach_values w g, fun hs hi hc i => ?_⟩
  have ha : (if i = .MIN_WIDTH ∨ i = .NAT_WIDTH ∨ i = .MAX_WIDTH then
      GtkConstraintAttribute.WIDTH else .HEIGHT) = attr i := by
    cases i <;> simp [attr]
  obtain ⟨h1, hv1, hsum1⟩ := attach_update_summary w g l s hs hi hc
  obtain ⟨sA, hlA, hsA, _⟩ := h1
  have hD : (attach_update_detach w g l).2 =
      { (attach_update w g l).2 with constraints := fun _ => none, bound_attributes := [] } :=
    detach_guide_live _ _ l sA hlA hsA
  have hDs : ∃ sD, (attach_update_detach w g l).1.solvers l = some sD := by
    unfold attach_update_detach
    rw [detach_live _ _ l sA hlA hsA]
    exact ⟨_, Function.update_same _ _ _⟩
  obtain ⟨sD, hsD⟩ := hDs
  obtain ⟨_, _, hsum2⟩ := attach_update_summary (attach_update_detach w g l).1
    (attach_update_detach w g l).2 l sD hsD
    (by rw [hD]; intro j r hr; cases hr)
    (by rw [hD]; intro a v hv; cases hv)
  have e : reattach_update w g l =
      attach_update (attach_update_detach w g l).1 (attach_update_detach w g l).2 l := rfl
  rw [e, hsum2 i, hsum1 i, ha, hD]
  exact ⟨by rw [← hv1], rfl⟩
/-- C12, at slot NatWidth of the example guide. -/
theorem detach_keeps_values_and_reattach_restores_witness :
    example_world.solvers 0 = some example_solver ∧ issued example_solver example_guide ∧
    cache_consistent example_guide ∧
    slot_summary (reattach_update example_world example_guide 0) .NAT_WIDTH =
      slot_summary (attach_update example_world example_guide 0) .NAT_WIDTH ∧
    slot_summary (attach_update example_world example_guide 0) .NAT_WIDTH =
      some (some .WIDTH, .EQ, 50, .MEDIUM) :=
  ⟨rfl, (fun i r h => by cases h), (fun a v h => by cases h),
    ((detach_keeps_values_and_reattach_restores example_world example_guide 0
      example_solver).2 rfl (fun i r h => by cases h) (fun a v h => by cases h)
      .NAT_WIDTH).1,
    by decide⟩

theorem comes_after_update_constraint (l : Nat) (st st' : World × GtkConstraintGuide)
    (i : GuideValue) (h : comes_after l st st') :
    comes_after l st (gtk_constraint_guide_update_constraint st'.1 st'.2 i) := by
  obtain ⟨s, s', hs, hs', hl', hle, hj⟩ := h
  rw [update_constraint_live st'.1 st'.2 i l s' hl' hs']
  refine ⟨s, _, hs, Function.update_same _ _ _, hl', ?_, fun j => ?_⟩
  · rw [sync_solver_fresh_ref]; omega
  · by_cases hji : j = i
    · subst hji
      right
      exact ⟨s'.fresh_ref, by simp [sync_guide], hle⟩
    · simp only [sync_guide, Function.update_noteq hji]
      exact hj j

theorem comes_after_set_property (l : Nat) (st st' : World × GtkConstraintGuide) (p : Nat)
    (val : Int) (h : comes_after l st st') :
    comes_after l st (gtk_constraint_guide_set_property st'.1 st'.2 p val) := by
  unfold gtk_constraint_guide_set_property
  cases GuideValue.of_prop_id p with
  | none => exact h
  | some i =>
    by_cases hv : st'.2.values i = val
    · simp only [hv, ne_eq, not_true_eq_false, if_false]; exact h
    · simp only [ne_eq, hv, not_false_eq_true, if_true]
      exact comes_after_update_constraint l st
        (st'.1.emit (Call.notify p), { st'.2 with values := Function.update st'.2.values i val })
        i h

theorem comes_after_refl (l : Nat) (st : World × GtkConstraintGuide) (s : GtkConstraintSolver)
    (hl : st.2.layout = some l) (hs : st.1.solvers l = some s) : comes_after l st st :=
  ⟨s, s, hs, hs, hl, le_refl _, fun _ => Or.inl rfl⟩

theorem comes_after_op (l : Nat) (st : World × GtkConstraintGuide) (s : GtkConstraintSolver)
    (op : Op) (hop : op.is_setter = true ∨ op.is_update = true)
    (hl : st.2.layout = some l) (hs : st.1.solvers l = some s) :
    comes_after l st (op.apply st) := by
  have h0 := comes_after_refl l st s hl hs
  cases hsx : op.is_setter with
  | true =>
    obtain ⟨ps, hv, e⟩ := setter_eq_set_properties st op hsx
    rw [e]
    exact set_properties_induction (fun st' => comes_after l st st')
      (fun st' pv _ h' => comes_after_set_property l st st' pv.1 pv.2 h') ps st hv h0
  | false =>
    cases op with
    | update =>
      exact update_induction (fun st' => comes_after l st st') st.1 st.2 h0
        (fun st' i h' => comes_after_update_constraint l st st' i h')
    | _ => simp_all [Op.is_setter, Op.is_update]

theorem held_refs_of_synced (f0 : Nat) (s : GtkConstraintSolver) (g : GtkConstraintGuide)
    (h : synced f0 (fun _ => True) s g) :
    (held_refs g).length = 6 ∧ (held_refs g).Nodup := by
  obtain ⟨_, hsl, hinj, _, _⟩ := h
  constructor
  · obtain ⟨r0, _, h0, _⟩ := hsl .MIN_WIDTH trivial
    obtain ⟨r1, _, h1, _⟩ := hsl .MIN_HEIGHT trivial
    obtain ⟨r2, _, h2, _⟩ := hsl .NAT_WIDTH trivial
    obtain ⟨r3, _, h3, _⟩ := hsl .NAT_HEIGHT trivial
    obtain ⟨r4, _, h4, _⟩ := hsl .MAX_WIDTH trivial
    obtain ⟨r5, _, h5, _⟩ := hsl .MAX_HEIGHT trivial
    simp [held_refs, GuideValue.all_eq, List.filterMap_cons, h0, h1, h2, h3, h4, h5]
  · unfold held_refs
    apply List.Nodup.filterMap
    · intro a a' b ha ha'
      exact hinj a a' trivial trivial (by
        rw [Option.mem_def] at ha ha'
        rw [ha, ha'])
    · rw [GuideValue.all_eq]; decide

theorem count_created_of_synced (f0 : Nat) (s : GtkConstraintSolver) (g : GtkConstraintGuide)
    (h : synced f0 (fun _ => True) s g) :
    (s.constraints.filter (fun c => decide (f0 ≤ c.ref))).length = 6 := by
  have hh := held_refs_of_synced f0 s g h
  obtain ⟨_, hsl, hinj, _, hheld⟩ := h
  have hnd : ((s.constraints.filter (fun c => decide (f0 ≤ c.ref))).map
      (fun c => c.ref)).Nodup := by
    rw [List.nodup_iff_count_eq_one]
    intro r hr
    obtain ⟨c, hc, hcr⟩ := List.mem_map.mp hr
    rw [List.mem_filter] at hc
    have hf : f0 ≤ c.ref := by simpa using hc.2
    obtain ⟨i, _, hi⟩ := hheld c hc.1 hf
    obtain ⟨r', c', hr', _, _, hfil, _⟩ := hsl i trivial
    rw [hi] at hr'
    cases hr'
    rw [List.count_eq_countP, List.countP_map, List.countP_eq_length_filter,
      List.filter_filter]
    have e : s.constraints.filter (fun a => (((fun x => x == r) ∘ fun c => c.ref) a &&
        decide (f0 ≤ a.ref))) = s.constraints.filter (fun x => decide (x.ref = c.ref)) := by
      apply List.filter_congr
      intro x _
      by_cases hx : x.ref = c.ref
      · have hfr : f0 ≤ r := by rw [← hcr]; exact hf
        simp [hx, hcr, hfr]
      · have : ¬ x.ref = r := by rw [← hcr]; exact hx
        simp [hx, this]
    rw [e, hfil]
    rfl
  have hperm : ((s.constraints.filter (fun c => decide (f0 ≤ c.ref))).map
      (fun c => c.ref)).Perm (held_refs g) := by
    rw [List.perm_ext_iff_of_nodup hnd hh.2]
    intro r
    rw [mem_held_refs]
    constructor
    · intro hr
      obtain ⟨c, hc, hcr⟩ := List.mem_map.mp hr
      rw [List.mem_filter] at hc
      obtain ⟨i, _, hi⟩ := hheld c hc.1 (by simpa using hc.2)
      exact ⟨i, by rw [hi, hcr]⟩
    · rintro ⟨i, hi⟩
      obtain ⟨r', c', hr', hf, _, hfil, _⟩ := hsl i trivial
      rw [hi] at hr'
      cases hr'
      obtain ⟨hm, hcr, _⟩ := of_filter_singleton s.constraints r c' hfil
      exact List.mem_map.mpr ⟨c', List.mem_filter.mpr ⟨hm, by simp [hcr, hf]⟩, hcr⟩
  have := hperm.length_eq
  rw [List.length_map, hh.1] at this
  exact this
theorem old_handle_gone (l f0 : Nat) (st : World × GtkConstraintGuide) (op : Op)
    (hop : op.is_setter = true ∨ op.is_update = true) (h : live_synced l f0 st)
    (i : GuideValue) (r : Nat) (hr : st.2.constraints i = some r)
    (hne : (op.apply st).2.constraints i ≠ some r) (s'' : GtkConstraintSolver)
    (hs'' : (op.apply st).1.solvers l = some s'') : r ∉ s''.refs := by
  have h' := live_synced_op l f0 st op hop h
  obtain ⟨s, hl, hs, _, hsl, hinj, _, _⟩ := h
  obtain ⟨sa, sb, hsa, hsb, _, hle, hj⟩ := comes_after_op l st s op hop hl hs
  obtain ⟨s2, _, hs2, _, _, _, _, hheld2⟩ := h'
  rw [hs''] at hs2 hsb
  cases hs2
  cases hsb
  rw [hs] at hsa
  cases hsa
  obtain ⟨r', _, hr', hf, hlt, _⟩ := hsl i trivial
  rw [hr] at hr'
  cases hr'
  intro hmem
  obtain ⟨c, hc, hcr⟩ := List.mem_map.mp hmem
  obtain ⟨j, _, hjr⟩ := hheld2 c hc (by rw [hcr]; exact hf)
  rw [hcr] at hjr
  rcases hj j with e | ⟨r2, e, hge⟩
  · rw [e] at hjr
    have := hinj j i trivial trivial (hjr.trans hr.symm)
    subst this
    exact hne (e.trans hr)
  · rw [e] at hjr
    cases hjr
    omega

/-- C19: for a guide attached to a layout with a solver (the handles the guide held
before, if any, having been handed out by that solver), after update and after every
subsequent sequence of setter and update calls: the six slots hold six different
handles, each denoting exactly one constraint of the solver; every constraint of the
solver handed out since that first update began (the constraints this guide created) is
held by a slot, so the solver holds exactly six of them; and after any further setter
or update call, the handle a re-synchronised slot held before is no longer registered
in the solver, so the old and the new constraint of a slot are never both present. -/
theorem one_constraint_per_slot (w : World) (g : GtkConstraintGuide) (l : Nat)
    (s : GtkConstraintSolver) (ops : List Op) (hl : g.layout = some l)
    (hs : w.solvers l = some s) (hissued : issued s g)
    (hops : ∀ op ∈ ops, op.is_setter = true ∨ op.is_update = true) :
    ∃ s', (run (gtk_constraint_guide_update w g) ops).1.solvers l = some s' ∧
      (held_refs (run (gtk_constraint_guide_update w g) ops).2).length = 6 ∧
      (held_refs (run (gtk_constraint_guide_update w g) ops).2).Nodup ∧
      (∀ r ∈ held_refs (run (gtk_constraint_guide_update w g) ops).2,
        (s'.constraints.filter (fun c => c.ref = r)).length = 1) ∧
      (∀ c ∈ s'.constraints, s.fresh_ref ≤ c.ref →
        c.ref ∈ held_refs (run (gtk_constraint_guide_update w g) ops).2) ∧
      (s'.constraints.filter (fun c => s.fresh_ref ≤ c.ref)).length = 6 ∧
      ∀ op : Op, op.is_setter = true ∨ op.is_update = true →
        ∀ i r, (run (gtk_constraint_guide_update w g) ops).2.constraints i = some r →
          (op.apply (run (gtk_constraint_guide_update w g) ops)).2.constraints i ≠ some r →
          ∀ s'', (op.apply (run (gtk_constraint_guide_update w g) ops)).1.solvers l = some s'' →
            r ∉ s''.refs := by
  have h1 := update_live_synced w g l s s.fresh_ref _ hl hs (synced_of_issued s g hissued)
  have h2 := live_synced_run l s.fresh_ref ops _ hops h1
  generalize run (gtk_constraint_guide_update w g) ops = st at h2 ⊢
  obtain ⟨s', hl', hs', hsy⟩ := h2
  have hh := held_refs_of_synced s.fresh_ref s' st.2 hsy
  refine ⟨s', hs', hh.1, hh.2, ?_, ?_, count_created_of_synced s.fresh_ref s' st.2 hsy, ?_⟩
  · intro r hr
    obtain ⟨i, hi⟩ := (mem_held_refs st.2 r).mp hr
    obtain ⟨r', c, hr', _, _, hfil, _⟩ := hsy.2.1 i trivial
    rw [hi] at hr'
    cases hr'
    rw [hfil]; rfl
  · intro c hc hf
    obtain ⟨i, _, hi⟩ := hsy.2.2.2.2 c hc hf
    exact (mem_held_refs st.2 c.ref).mpr ⟨i, hi⟩
  · intro op hop i r hr hne s'' hs''
    exact old_handle_gone l s.fresh_ref st op hop ⟨s', hl', hs', hsy⟩ i r hr hne s'' hs''

/-- C19, at the example guide: update, then set_min_size(1, 2) and update. -/
theorem one_constraint_per_slot_witness :
    example_guide.layout = some 0 ∧ example_world.solvers 0 = some example_solver ∧
    issued example_solver example_guide ∧
    (∀ op ∈ [Op.set_min_size 1 2, .update], op.is_setter = true ∨ op.is_update = true) ∧
    ∃ s', (run (gtk_constraint_guide_update example_world example_guide)
        [.set_min_size 1 2, .update]).1.solvers 0 = some s' ∧
      (s'.constraints.filter (fun c => example_solver.fresh_ref ≤ c.ref)).length = 6 :=
  ⟨rfl, rfl, (fun i r h => by cases h), by decide,
    (one_constraint_per_slot example_world example_guide 0 example_solver
      [.set_min_size 1 2, .update] rfl rfl (fun i r h => by cases h) (by decide)).elim
      (fun s' h => ⟨s', h.1, h.2.2.2.2.2.1⟩)⟩
theorem removed_refs_append (a b : List Call) :
    removed_refs (a ++ b) = removed_refs a ++ removed_refs b := by
  simp [removed_refs, List.filterMap_append]

theorem removed_refs_sync_log (l : Nat) (s : GtkConstraintSolver) (g : GtkConstraintGuide)
    (i : GuideValue) : removed_refs (sync_log l s g i) = (g.constraints i).toList := by
  unfold sync_log bind_log
  cases g.constraints i <;>
    cases g.bound_attributes.lookup (attr i) <;> simp [removed_refs, sync_removed]

theorem removal_discipline_update_constraint (lg0 : List Call)
    (st : World × GtkConstraintGuide) (i : GuideValue) (h : removal_discipline lg0 st) :
    removal_discipline lg0 (gtk_constraint_guide_update_constraint st.1 st.2 i) := by
  cases hl : st.2.layout with
  | none => rw [update_constraint_no_layout st.1 st.2 i hl]; exact h
  | some l =>
    cases hs : st.1.solvers l with
    | none => rw [update_constraint_no_solver st.1 st.2 i l hl hs]; exact h
    | some s =>
      have hiss' := handles_issued_update_constraint st i h.choose_spec.2.2.2.2.1
      obtain ⟨calls, hlog, hnd, hnh, hdist, hiss, hlt⟩ := h
      rw [update_constraint_live st.1 st.2 i l s hl hs] at hiss' ⊢
      have hI := hiss l s hl hs
      have hR := hlt l s hl hs
      refine ⟨calls ++ sync_log l s st.2 i, ?_, ?_, ?_, ?_, hiss', ?_⟩
      · simp only [hlog, List.append_assoc]
      · rw [removed_refs_append, removed_refs_sync_log, List.nodup_append]
        refine ⟨hnd, ?_, ?_⟩
        · cases st.2.constraints i <;> simp
        · intro r hr hr'
          simp only [Option.mem_toList, Option.mem_def] at hr'
          exact hnh r hr ((mem_held_refs st.2 r).mpr ⟨i, hr'⟩)
      · intro r hr
        rw [removed_refs_append, removed_refs_sync_log, List.mem_append] at hr
        rw [mem_held_refs]
        rintro ⟨j, hj⟩
        simp only [sync_guide] at hj
        by_cases hji : j = i
        · subst hji
          simp only [Function.update_same, Option.some.injEq] at hj
          rcases hr with h1 | h1
          · have := hR r h1; omega
          · simp only [Option.mem_toList, Option.mem_def] at h1
            have := hI j r h1; omega
        · rw [Function.update_noteq hji] at hj
          rcases hr with h1 | h1
          · exact hnh r h1 ((mem_held_refs st.2 r).mpr ⟨j, hj⟩)
          · simp only [Option.mem_toList, Option.mem_def] at h1
            exact hji (hdist j i r hj h1)
      · intro a b r ha hb
        simp only [sync_guide] at ha hb
        by_cases hai : a = i
        · by_cases hbi : b = i
          · rw [hai, hbi]
          · exfalso
            rw [hai, Function.update_same] at ha
            rw [Function.update_noteq hbi] at hb
            cases ha
            have := hI b _ hb; omega
        · by_cases hbi : b = i
          · exfalso
            rw [hbi, Function.update_same] at hb
            rw [Function.update_noteq hai] at ha
            cases hb
            have := hI a _ ha; omega
          · rw [Function.update_noteq hai] at ha
            rw [Function.update_noteq hbi] at hb
            exact hdist a b r ha hb
      · intro l' s' hl' hs' r hr
        have e : l' = l := Option.some.inj (hl'.symm.trans hl)
        subst e
        simp only [Function.update_same, Option.some.injEq] at hs'
        subst hs'
        rw [sync_solver_fresh_ref]
        rw [removed_refs_append, removed_refs_sync_log, List.mem_append] at hr
        rcases hr with h1 | h1
        · have := hR r h1; omega
        · simp only [Option.mem_toList, Option.mem_def] at h1
          have := hI i r h1; omega

theorem removal_discipline_set_property (lg0 : List Call) (st : World × GtkConstraintGuide)
    (p : Nat) (val : Int) (h : removal_discipline lg0 st) :
    removal_discipline lg0 (gtk_constraint_guide_set_property st.1 st.2 p val) := by
  unfold gtk_constraint_guide_set_property
  cases GuideValue.of_prop_id p with
  | none => exact h
  | some i =>
    by_cases hv : st.2.values i = val
    · simp only [hv, ne_eq, not_true_eq_false, if_false]; exact h
    · simp only [ne_eq, hv, not_false_eq_true, if_true]
      apply removal_discipline_update_constraint lg0
        (st.1.emit (Call.notify p), { st.2 with values := Function.update st.2.values i val })
      obtain ⟨calls, hlog, hnd, hnh, hdist, hiss, hlt⟩ := h
      have e : removed_refs (calls ++ [Call.notify p]) = removed_refs calls := by
        rw [removed_refs_append]; simp [removed_refs]
      refine ⟨calls ++ [Call.notify p], ?_, ?_, ?_, hdist, fun l s hl hs => hiss l s hl hs,
        ?_⟩
      · simp only [World.emit, hlog, List.append_assoc]
      · rw [e]; exact hnd
      · rw [e]; exact hnh
      · rw [e]; exact fun l s hl hs => hlt l s hl hs
theorem detach_fold_fresh_ref (l : Nat) (is : List GuideValue) :
    ∀ (s : GtkConstraintSolver) (g : GtkConstraintGuide) (lg : List Call),
      (is.foldl (detach_step l) (s, g, lg)).1.fresh_ref = s.fresh_ref := by
  induction is with
  | nil => intro s g lg; rfl
  | cons i is ih =>
    intro s g lg
    simp only [List.foldl_cons]
    rw [detach_step, ih, fresh_ref_sync_removed]

theorem removed_refs_cons_remove (l : Nat) (c : Option Nat) (rest : List Call) :
    removed_refs (Call.remove_constraint l c :: rest) = c.toList ++ removed_refs rest := by
  cases c <;> simp [removed_refs]

theorem filterMap_cons_toList (f : GuideValue → Option Nat) (a : GuideValue)
    (rest : List GuideValue) :
    (a :: rest).filterMap f = (f a).toList ++ rest.filterMap f := by
  cases h : f a <;> simp [List.filterMap_cons, h]

theorem detach_steps_log (l : Nat) (s : GtkConstraintSolver) (g : GtkConstraintGuide)
    (lg : List Call) :
    ∃ X, (GuideValue.all.foldl (detach_step l) (s, g, lg)).2.2 = lg ++ X ∧
      removed_refs X = held_refs g := by
  refine ⟨[Call.remove_constraint l (g.constraints .MIN_WIDTH),
    Call.remove_constraint l (g.constraints .MIN_HEIGHT),
    Call.remove_constraint l (g.constraints .NAT_WIDTH),
    Call.remove_constraint l (g.constraints .NAT_HEIGHT),
    Call.remove_constraint l (g.constraints .MAX_WIDTH),
    Call.remove_constraint l (g.constraints .MAX_HEIGHT)], ?_, ?_⟩
  · simp only [GuideValue.all_eq, List.foldl_cons, List.foldl_nil, detach_step]
    simp [Function.update]
  · simp only [removed_refs_cons_remove, held_refs, GuideValue.all_eq, filterMap_cons_toList]
    simp [removed_refs]

theorem held_refs_nodup (g : GtkConstraintGuide)
    (hdist : ∀ i j r, g.constraints i = some r → g.constraints j = some r → i = j) :
    (held_refs g).Nodup := by
  unfold held_refs
  apply List.Nodup.filterMap
  · intro a a' b ha ha'
    rw [Option.mem_def] at ha ha'
    exact hdist a a' b ha ha'
  · rw [GuideValue.all_eq]; decide

theorem removal_discipline_detach (lg0 : List Call) (st : World × GtkConstraintGuide)
    (h : removal_discipline lg0 st) :
    removal_discipline lg0 (gtk_constraint_guide_detach st.1 st.2) := by
  cases hl : st.2.layout with
  | none => rw [detach_no_layout st.1 st.2 hl]; exact h
  | some l =>
    cases hs : st.1.solvers l with
    | none => rw [detach_no_solver st.1 st.2 l hl hs]; exact h
    | some s =>
      obtain ⟨calls, hlog, hnd, hnh, hdist, hiss, hlt⟩ := h
      obtain ⟨X, hX, hRX⟩ := detach_steps_log l s st.2 st.1.log
      have hfr := detach_fold_fresh_ref l GuideValue.all s st.2 st.1.log
      have hG := detach_guide_live st.1 st.2 l s hl hs
      have hW : (gtk_constraint_guide_detach st.1 st.2).1 =
          ⟨Function.update st.1.solvers l
              (some (GuideValue.all.foldl (detach_step l) (s, st.2, st.1.log)).1),
            st.1.widgets, (GuideValue.all.foldl (detach_step l) (s, st.2, st.1.log)).2.2⟩ := by
        rw [detach_live st.1 st.2 l s hl hs]
      have hI := hiss l s hl hs
      have hR := hlt l s hl hs
      refine ⟨calls ++ X, ?_, ?_, ?_, ?_, ?_, ?_⟩
      · rw [hW]
        show (GuideValue.all.foldl (detach_step l) (s, st.2, st.1.log)).2.2 = _
        rw [hX, hlog, List.append_assoc]
      · rw [removed_refs_append, hRX, List.nodup_append]
        exact ⟨hnd, held_refs_nodup st.2 hdist, fun r hr hr' => hnh r hr hr'⟩
      · intro r _
        rw [hG, mem_held_refs]
        rintro ⟨j, hj⟩
        cases hj
      · intro i j r hi
        rw [hG] at hi
        cases hi
      · intro l' s' _ _ i r hr
        rw [hG] at hr
        cases hr
      · intro l' s' hl' hs' r hr
        rw [hG] at hl'
        have e : l' = l := Option.some.inj (hl'.symm.trans hl)
        subst e
        rw [hW] at hs'
        simp only [Function.update_same, Option.some.injEq] at hs'
        subst hs'
        rw [hfr]
        rw [removed_refs_append, hRX, List.mem_append] at hr
        rcases hr with h1 | h1
        · exact hR r h1
        · obtain ⟨j, hj⟩ := (mem_held_refs st.2 r).mp h1
          exact hI j r hj

theorem removal_discipline_op (lg0 : List Call) (st : World × GtkConstraintGuide) (op : Op)
    (hop : op.is_update = true ∨ op.is_detach = true ∨ op.is_setter = true)
    (h : removal_discipline lg0 st) : removal_discipline lg0 (op.apply st) := by
  cases op with
  | set_layout x => simp [Op.is_update, Op.is_detach, Op.is_setter] at hop
  | get_attribute a => simp [Op.is_update, Op.is_detach, Op.is_setter] at hop
  | update =>
    exact update_induction (fun st' => removal_discipline lg0 st') st.1 st.2 h
      (fun st' i h' => removal_discipline_update_constraint lg0 st' i h')
  | detach => exact removal_discipline_detach lg0 st h
  | set_min_size a b =>
    obtain ⟨ps, hv, e⟩ := setter_eq_set_properties st (.set_min_size a b) rfl
    rw [e]
    exact set_properties_induction (fun st' => removal_discipline lg0 st')
      (fun st' pv _ h' => removal_discipline_set_property lg0 st' pv.1 pv.2 h') ps st hv h
  | set_nat_size a b =>
    obtain ⟨ps, hv, e⟩ := setter_eq_set_properties st (.set_nat_size a b) rfl
    rw [e]
    exact set_properties_induction (fun st' => removal_discipline lg0 st')
      (fun st' pv _ h' => removal_discipline_set_property lg0 st' pv.1 pv.2 h') ps st hv h
  | set_max_size a b =>
    obtain ⟨ps, hv, e⟩ := setter_eq_set_properties st (.set_max_size a b) rfl
    rw [e]
    exact set_properties_induction (fun st' => removal_discipline lg0 st')
      (fun st' pv _ h' => removal_discipline_set_property lg0 st' pv.1 pv.2 h') ps st hv h

theorem removal_discipline_run (lg0 : List Call) (ops : List Op) :
    ∀ st : World × GtkConstraintGuide,
      (∀ op ∈ ops, op.is_update = true ∨ op.is_detach = true ∨ op.is_setter = true) →
      removal_discipline lg0 st → removal_discipline lg0 (run st ops) := by
  induction ops with
  | nil => intro st _ h; exact h
  | cons op ops ih =>
    intro st hops h
    simp only [run, List.foldl_cons]
    exact ih _ (fun o ho => hops o (List.mem_cons_of_mem _ ho))
      (removal_discipline_op lg0 st op (hops op (List.mem_cons_self _ _)) h)

/-- C20: for every sequence of update, detach and setter calls on a guide (whose
handles, if any, are different from one another and were handed out by the solver of
its layout), no non-null constraint handle is passed to the solver's remove_constraint
more than once during the sequence, and after the sequence no handle that was removed is
still stored in `constraints[]`. -/
theorem no_handle_removed_twice (w : World) (g : GtkConstraintGuide) (ops : List Op)
    (hdist : ∀ i j r, g.constraints i = some r → g.constraints j = some r → i = j)
    (hiss : handles_issued (w, g))
    (hops : ∀ op ∈ ops, op.is_update = true ∨ op.is_detach = true ∨ op.is_setter = true) :
    ∃ calls, (run (w, g) ops).1.log = w.log ++ calls ∧ (removed_refs calls).Nodup ∧
      ∀ r ∈ removed_refs calls, r ∉ held_refs (run (w, g) ops).2 := by
  have h0 : removal_discipline w.log (w, g) :=
    ⟨[], by simp, by simp [removed_refs], by simp [removed_refs], hdist, hiss,
      by simp [removed_refs]⟩
  obtain ⟨calls, h1, h2, h3, _⟩ := removal_discipline_run w.log ops (w, g) hops h0
  exact ⟨calls, h1, h2, h3⟩
/-- C20, at the example guide: update; set_min_size(1, 2); update; detach; update
removes the fourteen handles 1 to 14, each once. -/
theorem no_handle_removed_twice_witness :
    (∀ i j r, example_guide.constraints i = some r → example_guide.constraints j = some r →
      i = j) ∧
    handles_issued (example_world, example_guide) ∧
    (∀ op ∈ [Op.update, .set_min_size 1 2, .update, .detach, .update],
      op.is_update = true ∨ op.is_detach = true ∨ op.is_setter = true) ∧
    removed_refs (run (example_world, example_guide)
      [.update, .set_min_size 1 2, .update, .detach, .update]).1.log =
      [1, 2, 7, 8, 3, 4, 5, 6, 9, 10, 11, 12, 13, 14] ∧
    ∃ calls, (run (example_world, example_guide)
        [.update, .set_min_size 1 2, .update, .detach, .update]).1.log =
        example_world.log ++ calls ∧ (removed_refs calls).Nodup ∧
      ∀ r ∈ removed_refs calls, r ∉ held_refs (run (example_world, example_guide)
        [.update, .set_min_size 1 2, .update, .detach, .update]).2 :=
  ⟨(fun i j r h => by cases h), (fun l s _ _ i r h => by cases h), by decide, by decide,
    no_handle_removed_twice example_world example_guide
      [.update, .set_min_size 1 2, .update, .detach, .update]
      (fun i j r h => by cases h) (fun l s _ _ i r h => by cases h) (by decide)⟩
theorem solvers_none_of_get_solver (w : World) (l : Nat)
    (h : gtk_constraint_layout_get_solver w l = none) : w.solvers l = none := by
  unfold gtk_constraint_layout_get_solver at h
  cases hs : w.solvers l with
  | none => rfl
  | some s => rw [hs] at h; cases h

/-- C25: `gtk_constraint_guide_detach` on a guide whose layout is set but exposes no
solver returns the world and the guide exactly as given: every `constraints[i]` keeps
the handle it held, `bound_attributes` is not emptied, and no call is made. -/
theorem detach_without_solver_changes_nothing (w : World) (g : GtkConstraintGuide) (l : Nat)
    (hl : g.layout = some l) (hs : gtk_constraint_layout_get_solver w l = none) :
    gtk_constraint_guide_detach w g = (w, g) ∧
    (∀ i, (gtk_constraint_guide_detach w g).2.constraints i = g.constraints i) ∧
    (gtk_constraint_guide_detach w g).2.bound_attributes = g.bound_attributes ∧
    (gtk_constraint_guide_detach w g).1.log = w.log := by
  rw [detach_no_solver w g l hl (solvers_none_of_get_solver w l hs)]
  exact ⟨rfl, fun _ => rfl, rfl, rfl⟩
/-- C25, at the guide of the updated example state moved to layout 1, which exposes no
solver: the guide holds six handles and two cached variables, and keeps them. -/
theorem detach_without_solver_changes_nothing_witness :
    (gtk_constraint_guide_set_layout updated_state.2 (some 1)).layout = some 1 ∧
    gtk_constraint_layout_get_solver updated_state.1 1 = none ∧
    (gtk_constraint_guide_set_layout updated_state.2 (some 1)).constraints .MIN_WIDTH =
      some 1 ∧
    (gtk_constraint_guide_set_layout updated_state.2 (some 1)).bound_attributes.length = 2 ∧
    (gtk_constraint_guide_detach updated_state.1
        (gtk_constraint_guide_set_layout updated_state.2 (some 1)) =
      (updated_state.1, gtk_constraint_guide_set_layout updated_state.2 (some 1)) ∧
    (∀ i, (gtk_constraint_guide_detach updated_state.1
        (gtk_constraint_guide_set_layout updated_state.2 (some 1))).2.constraints i =
      (gtk_constraint_guide_set_layout updated_state.2 (some 1)).constraints i) ∧
    (gtk_constraint_guide_detach updated_state.1
        (gtk_constraint_guide_set_layout updated_state.2 (some 1))).2.bound_attributes =
      (gtk_constraint_guide_set_layout updated_state.2 (some 1)).bound_attributes ∧
    (gtk_constraint_guide_detach updated_state.1
        (gtk_constraint_guide_set_layout updated_state.2 (some 1))).1.log =
      updated_state.1.log) :=
  ⟨rfl, by decide, by decide, by decide,
    detach_without_solver_changes_nothing updated_state.1
      (gtk_constraint_guide_set_layout updated_state.2 (some 1)) 1 rfl (by decide)⟩

/-- C23: for a guide attached to a layout with a live solver, after
`gtk_constraint_guide_detach` all six `constraints[i]` are `None`, `bound_attributes` is
empty, and the solver holds exactly the constraints it held before whose handle was not
stored in `constraints[]`: every handle the guide stored has been passed to
remove_constraint and is no longer registered. -/
theorem detach_clears_slots_and_removes_handles (w : World) (g : GtkConstraintGuide)
    (l : Nat) (s : GtkConstraintSolver) (hl : g.layout = some l)
    (hs : w.solvers l = some s) :
    (∀ i, (gtk_constraint_guide_detach w g).2.constraints i = none) ∧
    (gtk_constraint_guide_detach w g).2.bound_attributes = [] ∧
    ∃ s' calls, (gtk_constraint_guide_detach w g).1.solvers l = some s' ∧
      s'.constraints = s.constraints.filter (fun c => c.ref ∉ held_refs g) ∧
      (∀ i r, g.constraints i = some r → r ∉ s'.refs) ∧
      (gtk_constraint_guide_detach w g).1.log = w.log ++ calls ∧
      removed_refs calls = held_refs g := by
  obtain ⟨X, hX, hRX⟩ := detach_steps_log l s g w.log
  have hG := detach_guide_live w g l s hl hs
  have hC := detach_steps_constraints l s g w.log
  refine ⟨fun i => by rw [hG], by rw [hG], _, X, ?_, hC, ?_, ?_, hRX⟩
  · rw [detach_live w g l s hl hs]
    simp only [Function.update_same]
  · intro i r hr hmem
    simp only [GtkConstraintSolver.refs, List.mem_map] at hmem
    obtain ⟨c, hc, e⟩ := hmem
    rw [hC, List.mem_filter] at hc
    have := hc.2
    simp only [decide_eq_true_eq] at this
    exact this (e ▸ (mem_held_refs g r).mpr ⟨i, hr⟩)
  · rw [detach_live w g l s hl hs]
    exact hX
/-- C23, at the updated example state: the six handles 1 to 6 are removed and the
constraint of the layout itself stays. -/
theorem detach_clears_slots_and_removes_handles_witness :
    updated_state.2.layout = some 0 ∧ updated_state.1.solvers 0 = some updated_solver ∧
    held_refs updated_state.2 = [1, 2, 3, 4, 5, 6] ∧
    ((∀ i, (gtk_constraint_guide_detach updated_state.1 updated_state.2).2.constraints i =
      none) ∧
    (gtk_constraint_guide_detach updated_state.1 updated_state.2).2.bound_attributes = [] ∧
    ∃ s' calls,
      (gtk_constraint_guide_detach updated_state.1 updated_state.2).1.solvers 0 = some s' ∧
      s'.constraints =
        updated_solver.constraints.filter (fun c => c.ref ∉ held_refs updated_state.2) ∧
      (∀ i r, updated_state.2.constraints i = some r → r ∉ s'.refs) ∧
      (gtk_constraint_guide_detach updated_state.1 updated_state.2).1.log =
        updated_state.1.log ++ calls ∧
      removed_refs calls = held_refs updated_state.2) :=
  ⟨by decide, by decide, by decide,
    detach_clears_slots_and_removes_handles updated_state.1 updated_state.2 0 updated_solver
      (by decide) (by decide)⟩
theorem of_prop_id_toNat (i : GuideValue) : GuideValue.of_prop_id (i.toNat + 1) = some i := by
  cases i <;> rfl

theorem set_property_same (w : World) (g : GtkConstraintGuide) (p : Nat) (i : GuideValue)
    (hp : GuideValue.of_prop_id p = some i) :
    gtk_constraint_guide_set_property w g p (g.values i) = (w, g) := by
  simp [gtk_constraint_guide_set_property, hp]

theorem set_property_other_value (w : World) (g : GtkConstraintGuide) (p : Nat)
    (i j : GuideValue) (v : Int) (hp : GuideValue.of_prop_id p = some i) (hj : j ≠ i) :
    (gtk_constraint_guide_set_property w g p v).2.values j = g.values j :=
  ((set_property_changes_only_slot w g p i v hp).2 j hj).1

theorem ite_set_property_same (w : World) (g : GtkConstraintGuide) (p : Nat) (i : GuideValue)
    (c : Prop) [Decidable c] (hp : GuideValue.of_prop_id p = some i) :
    (if c then gtk_constraint_guide_set_property w g p (g.values i) else (w, g)) = (w, g) := by
  rw [set_property_same w g p i hp, ite_self]

theorem set_property_same_after (w : World) (g : GtkConstraintGuide) (p q : Nat)
    (i j : GuideValue) (v : Int) (hp : GuideValue.of_prop_id p = some i)
    (hq : GuideValue.of_prop_id q = some j) (hj : j ≠ i) :
    gtk_constraint_guide_set_property (gtk_constraint_guide_set_property w g p v).1
      (gtk_constraint_guide_set_property w g p v).2 q (g.values j) =
      gtk_constraint_guide_set_property w g p v := by
  rw [← set_property_other_value w g p i j v hp hj]
  exact set_property_same _ _ q j hq


theorem set_min_size_same_width (w : World) (g : GtkConstraintGuide) (ht : Int) :
    gtk_constraint_guide_set_min_size w g (g.values .MIN_WIDTH) ht = (w, g) ∨
    gtk_constraint_guide_set_min_size w g (g.values .MIN_WIDTH) ht =
      gtk_constraint_guide_set_property w g PROP_MIN_HEIGHT ht := by
  simp only [gtk_constraint_guide_set_min_size, g_object_freeze_notify, g_object_thaw_notify,
    g_object_set_min_width, g_object_set_min_height,
    ite_set_property_same w g PROP_MIN_WIDTH .MIN_WIDTH _ rfl, ite_self]
  split_ifs <;> simp

theorem set_min_size_same_height (w : World) (g : GtkConstraintGuide) (v : Int) :
    gtk_constraint_guide_set_min_size w g v (g.values .MIN_HEIGHT) = (w, g) ∨
    gtk_constraint_guide_set_min_size w g v (g.values .MIN_HEIGHT) =
      gtk_constraint_guide_set_property w g PROP_MIN_WIDTH v := by
  have e := set_property_same_after w g PROP_MIN_WIDTH PROP_MIN_HEIGHT .MIN_WIDTH .MIN_HEIGHT
    v rfl rfl (by decide)
  have e' := set_property_same w g PROP_MIN_HEIGHT .MIN_HEIGHT rfl
  simp only [gtk_constraint_guide_set_min_size, g_object_freeze_notify, g_object_thaw_notify,
    g_object_set_min_width, g_object_set_min_height]
  split_ifs <;> simp [e, e']

theorem set_min_size_same_both (w : World) (g : GtkConstraintGuide) :
    gtk_constraint_guide_set_min_size w g (g.values .MIN_WIDTH) (g.values .MIN_HEIGHT) =
      (w, g) := by
  simp only [gtk_constraint_guide_set_min_size, g_object_freeze_notify, g_object_thaw_notify,
    g_object_set_min_width, g_object_set_min_height,
    ite_set_property_same w g PROP_MIN_WIDTH .MIN_WIDTH _ rfl,
    ite_set_property_same w g PROP_MIN_HEIGHT .MIN_HEIGHT _ rfl, ite_self]

theorem set_nat_size_same_width (w : World) (g : GtkConstraintGuide) (ht : Int) :
    gtk_constraint_guide_set_nat_size w g (g.values .NAT_WIDTH) ht = (w, g) ∨
    gtk_constraint_guide_set_nat_size w g (g.values .NAT_WIDTH) ht =
      gtk_constraint_guide_set_property w g PROP_NAT_HEIGHT ht := by
  simp only [gtk_constraint_guide_set_nat_size, g_object_freeze_notify, g_object_thaw_notify,
    g_object_set_nat_width, g_object_set_nat_height,
    ite_set_property_same w g PROP_NAT_WIDTH .NAT_WIDTH _ rfl, ite_self]
  split_ifs <;> simp

theorem set_nat_size_same_height (w : World) (g : GtkConstraintGuide) (v : Int) :
    gtk_constraint_guide_set_nat_size w g v (g.values .NAT_HEIGHT) = (w, g) ∨
    gtk_constraint_guide_set_nat_size w g v (g.values .NAT_HEIGHT) =
      gtk_constraint_guide_set_property w g PROP_NAT_WIDTH v := by
  have e := set_property_same_after w g PROP_NAT_WIDTH PROP_NAT_HEIGHT .NAT_WIDTH .NAT_HEIGHT
    v rfl rfl (by decide)
  have e' := set_property_same w g PROP_NAT_HEIGHT .NAT_HEIGHT rfl
  simp only [gtk_constraint_guide_set_nat_size, g_object_freeze_notify, g_object_thaw_notify,
    g_object_set_nat_width, g_object_set_nat_height]
  split_ifs <;> simp [e, e']

theorem set_nat_size_same_both (w : World) (g : GtkConstraintGuide) :
    gtk_constraint_guide_set_nat_size w g (g.values .NAT_WIDTH) (g.values .NAT_HEIGHT) =
      (w, g) := by
  simp only [gtk_constraint_guide_set_nat_size, g_object_freeze_notify, g_object_thaw_notify,
    g_object_set_nat_width, g_object_set_nat_height,
    ite_set_property_same w g PROP_NAT_WIDTH .NAT_WIDTH _ rfl,
    ite_set_property_same w g PROP_NAT_HEIGHT .NAT_HEIGHT _ rfl, ite_self]

theorem set_max_size_same_width (w : World) (g : GtkConstraintGuide) (ht : Int) :
    gtk_constraint_guide_set_max_size w g (g.values .MAX_WIDTH) ht = (w, g) ∨
    gtk_constraint_guide_set_max_size w g (g.values .MAX_WIDTH) ht =
      gtk_constraint_guide_set_property w g PROP_MAX_HEIGHT ht := by
  simp only [gtk_constraint_guide_set_max_size, g_object_freeze_notify, g_object_thaw_notify,
    g_object_set_max_width, g_object_set_max_height,
    ite_set_property_same w g PROP_MAX_WIDTH .MAX_WIDTH _ rfl, ite_self]
  split_ifs <;> simp

theorem set_max_size_same_height (w : World) (g : GtkConstraintGuide) (v : Int) :
    gtk_constraint_guide_set_max_size w g v (g.values .MAX_HEIGHT) = (w, g) ∨
    gtk_constraint_guide_set_max_size w g v (g.values .MAX_HEIGHT) =
      gtk_constraint_guide_set_property w g PROP_MAX_WIDTH v := by
  have e := set_property_same_after w g PROP_MAX_WIDTH PROP_MAX_HEIGHT .MAX_WIDTH .MAX_HEIGHT
    v rfl rfl (by decide)
  have e' := set_property_same w g PROP_MAX_HEIGHT .MAX_HEIGHT rfl
  simp only [gtk_constraint_guide_set_max_size, g_object_freeze_notify, g_object_thaw_notify,
    g_object_set_max_width, g_object_set_max_height]
  split_ifs <;> simp [e, e']

theorem set_max_size_same_both (w : World) (g : GtkConstraintGuide) :
    gtk_constraint_guide_set_max_size w g (g.values .MAX_WIDTH) (g.values .MAX_HEIGHT) =
      (w, g) := by
  simp only [gtk_constraint_guide_set_max_size, g_object_freeze_notify, g_object_thaw_notify,
    g_object_set_max_width, g_object_set_max_height,
    ite_set_property_same w g PROP_MAX_WIDTH .MAX_WIDTH _ rfl,
    ite_set_property_same w g PROP_MAX_HEIGHT .MAX_HEIGHT _ rfl, ite_self]

/-- C24: setting a size property to the value it already holds is a complete no-op.  For
every world, every guide state and every slot, the class's `set_property`, `g_object_set`
and the public setters called with the value the slot holds return the world and the
guide exactly as given: no notification is recorded, no call reaches the solver or the
binder, and every `constraints[i]` holds the handle it held.  When only one argument of
a public setter equals the stored value, the call does nothing or exactly what
`set_property` does for the other slot alone. -/
theorem set_same_value_is_noop (w : World) (g : GtkConstraintGuide) :
    (∀ i : GuideValue,
      gtk_constraint_guide_set_property w g (i.toNat + 1) (g.values i) = (w, g)) ∧
    (g_object_set w g "min-width" (g.values .MIN_WIDTH) = (w, g) ∧
      g_object_set w g "min-height" (g.values .MIN_HEIGHT) = (w, g) ∧
      g_object_set w g "nat-width" (g.values .NAT_WIDTH) = (w, g) ∧
      g_object_set w g "nat-height" (g.values .NAT_HEIGHT) = (w, g) ∧
      g_object_set w g "max-width" (g.values .MAX_WIDTH) = (w, g) ∧
      g_object_set w g "max-height" (g.values .MAX_HEIGHT) = (w, g)) ∧
    (gtk_constraint_guide_set_min_size w g (g.values .MIN_WIDTH) (g.values .MIN_HEIGHT) =
        (w, g) ∧
      gtk_constraint_guide_set_nat_size w g (g.values .NAT_WIDTH) (g.values .NAT_HEIGHT) =
        (w, g) ∧
      gtk_constraint_guide_set_max_size w g (g.values .MAX_WIDTH) (g.values .MAX_HEIGHT) =
        (w, g)) ∧
    (∀ ht : Int,
      (gtk_constraint_guide_set_min_size w g (g.values .MIN_WIDTH) ht = (w, g) ∨
        gtk_constraint_guide_set_min_size w g (g.values .MIN_WIDTH) ht =
          gtk_constraint_guide_set_property w g PROP_MIN_HEIGHT ht) ∧
      (gtk_constraint_guide_set_nat_size w g (g.values .NAT_WIDTH) ht = (w, g) ∨
        gtk_constraint_guide_set_nat_size w g (g.values .NAT_WIDTH) ht =
          gtk_constraint_guide_set_property w g PROP_NAT_HEIGHT ht) ∧
      (gtk_constraint_guide_set_max_size w g (g.values .MAX_WIDTH) ht = (w, g) ∨
        gtk_constraint_guide_set_max_size w g (g.values .MAX_WIDTH) ht =
          gtk_constraint_guide_set_property w g PROP_MAX_HEIGHT ht)) ∧
    (∀ wd : Int,
      (gtk_constraint_guide_set_min_size w g wd (g.values .MIN_HEIGHT) = (w, g) ∨
        gtk_constraint_guide_set_min_size w g wd (g.values .MIN_HEIGHT) =
          gtk_constraint_guide_set_property w g PROP_MIN_WIDTH wd) ∧
      (gtk_constraint_guide_set_nat_size w g wd (g.values .NAT_HEIGHT) = (w, g) ∨
        gtk_constraint_guide_set_nat_size w g wd (g.values .NAT_HEIGHT) =
          gtk_constraint_guide_set_property w g PROP_NAT_WIDTH wd) ∧
      (gtk_constraint_guide_set_max_size w g wd (g.values .MAX_HEIGHT) = (w, g) ∨
        gtk_constraint_guide_set_max_size w g wd (g.values .MAX_HEIGHT) =
          gtk_constraint_guide_set_property w g PROP_MAX_WIDTH wd)) := by
  refine ⟨fun i => set_property_same w g _ i (of_prop_id_toNat i), ⟨?_, ?_, ?_, ?_, ?_, ?_⟩,
    ⟨set_min_size_same_both w g, set_nat_size_same_both w g, set_max_size_same_both w g⟩,
    fun ht => ⟨set_min_size_same_width w g ht, set_nat_size_same_width w g ht,
      set_max_size_same_width w g ht⟩,
    fun wd => ⟨set_min_size_same_height w g wd, set_nat_size_same_height w g wd,
      set_max_size_same_height w g wd⟩⟩
  · rw [g_object_set_min_width]; exact ite_set_property_same w g _ .MIN_WIDTH _ rfl
  · rw [g_object_set_min_height]; exact ite_set_property_same w g _ .MIN_HEIGHT _ rfl
  · rw [g_object_set_nat_width]; exact ite_set_property_same w g _ .NAT_WIDTH _ rfl
  · rw [g_object_set_nat_height]; exact ite_set_property_same w g _ .NAT_HEIGHT _ rfl
  · rw [g_object_set_max_width]; exact ite_set_property_same w g _ .MAX_WIDTH _ rfl
  · rw [g_object_set_max_height]; exact ite_set_property_same w g _ .MAX_HEIGHT _ rfl
theorem mem_held_refs_update (g : GtkConstraintGuide) (i : GuideValue) (c : Option Nat)
    (r : Nat) :
    r ∈ held_refs { g with constraints := Function.update g.constraints i c } ↔
      c = some r ∨ ∃ j, j ≠ i ∧ g.constraints j = some r := by
  rw [mem_held_refs]
  constructor
  · rintro ⟨j, hj⟩
    by_cases hji : j = i
    · subst hji
      simp only [Function.update_same] at hj
      exact Or.inl hj
    · simp only [Function.update_noteq hji] at hj
      exact Or.inr ⟨j, hji, hj⟩
  · rintro (h | ⟨j, hji, hj⟩)
    · exact ⟨i, by simp only [Function.update_same]; exact h⟩
    · exact ⟨j, by simp only [Function.update_noteq hji]; exact hj⟩

theorem sync_rest (s : GtkConstraintSolver) (g : GtkConstraintGuide) (i : GuideValue) :
    rest_constraints (sync_solver s g i) (sync_guide s g i) = rest_constraints s g := by
  unfold rest_constraints
  rw [sync_solver_constraints, List.filter_append, sync_removed_constraints,
    List.filter_filter]
  have hnew : List.filter (fun c => decide (c.ref ∉ held_refs (sync_guide s g i)))
      [(⟨s.fresh_ref,
          some (bind_var g.bound_attributes (sync_removed s (g.constraints i)) (attr i) "guide"),
          relation i, gtk_constraint_expression_new (g.values i), weight i⟩ :
            GtkConstraint)] = [] := by
    have : s.fresh_ref ∈ held_refs (sync_guide s g i) :=
      (mem_held_refs _ _).mpr ⟨i, by simp [sync_guide]⟩
    simp [this]
  rw [hnew, List.append_nil]
  apply List.filter_congr
  intro x hx
  have hlt := s.ref_lt_fresh_ref x hx
  have e : held_refs (sync_guide s g i) =
      held_refs { g with constraints := Function.update g.constraints i (some s.fresh_ref) } := by
    simp [held_refs, sync_guide]
  rw [e]
  have h1 := mem_held_refs_update g i (some s.fresh_ref) x.ref
  have h2 := mem_held_refs g x.ref
  by_cases hi : g.constraints i = some x.ref
  · have : x.ref ∈ held_refs g := h2.mpr ⟨i, hi⟩
    simp [hi, this]
  · have hne : ¬ (some s.fresh_ref = some x.ref) := by
      intro h; have := Option.some.inj h; omega
    have : (x.ref ∈ held_refs { g with
        constraints := Function.update g.constraints i (some s.fresh_ref) }) ↔
        x.ref ∈ held_refs g := by
      rw [h1, h2]
      constructor
      · rintro (h | ⟨j, _, hj⟩)
        · exact absurd h hne
        · exact ⟨j, hj⟩
      · rintro ⟨j, hj⟩
        refine Or.inr ⟨j, ?_, hj⟩
        intro hji; subst hji; exact hi hj
    simp [hi, this]

theorem detach_step_rest (l : Nat) (st : GtkConstraintSolver × GtkConstraintGuide × List Call)
    (i : GuideValue) :
    rest_constraints (detach_step l st i).1 (detach_step l st i).2.1 =
      rest_constraints st.1 st.2.1 := by
  unfold rest_constraints detach_step
  simp only []
  rw [sync_removed_constraints, List.filter_filter]
  apply List.filter_congr
  intro x _
  have h1 := mem_held_refs_update st.2.1 i none x.ref
  have h2 := mem_held_refs st.2.1 x.ref
  by_cases hi : st.2.1.constraints i = some x.ref
  · have : x.ref ∈ held_refs st.2.1 := h2.mpr ⟨i, hi⟩
    simp [hi, this]
  · have : (x.ref ∈ held_refs { st.2.1 with
        constraints := Function.update st.2.1.constraints i none }) ↔
        x.ref ∈ held_refs st.2.1 := by
      rw [h1, h2]
      constructor
      · rintro (h | ⟨j, _, hj⟩)
        · cases h
        · exact ⟨j, hj⟩
      · rintro ⟨j, hj⟩
        refine Or.inr ⟨j, ?_, hj⟩
        intro hji; subst hji; exact hi hj
    simp [hi, this]
theorem other_constraints_update_constraint (st : World × GtkConstraintGuide)
    (i : GuideValue) :
    other_constraints (gtk_constraint_guide_update_constraint st.1 st.2 i) =
      other_constraints st := by
  cases hl : st.2.layout with
  | none => rw [update_constraint_no_layout st.1 st.2 i hl]
  | some l =>
    cases hs : st.1.solvers l with
    | none => rw [update_constraint_no_solver st.1 st.2 i l hl hs]
    | some s =>
      rw [update_constraint_live st.1 st.2 i l s hl hs]
      simp only [other_constraints, sync_guide_layout, hl, Function.update_same,
        Option.map_some', hs, sync_rest]

theorem other_constraints_set_property (st : World × GtkConstraintGuide) (p : Nat)
    (val : Int) :
    other_constraints (gtk_constraint_guide_set_property st.1 st.2 p val) =
      other_constraints st := by
  unfold gtk_constraint_guide_set_property
  cases GuideValue.of_prop_id p with
  | none => rfl
  | some i =>
    by_cases hv : st.2.values i = val
    · simp only [hv, ne_eq, not_true_eq_false, if_false]
    · simp only [ne_eq, hv, not_false_eq_true, if_true]
      exact other_constraints_update_constraint
        (st.1.emit (Call.notify p), { st.2 with values := Function.update st.2.values i val }) i

theorem detach_fold_rest (l : Nat) (is : List GuideValue) :
    ∀ st : GtkConstraintSolver × GtkConstraintGuide × List Call,
      rest_constraints (is.foldl (detach_step l) st).1 (is.foldl (detach_step l) st).2.1 =
        rest_constraints st.1 st.2.1 := by
  induction is with
  | nil => intro st; rfl
  | cons i is ih =>
    intro st
    simp only [List.foldl_cons]
    rw [ih, detach_step_rest]

theorem other_constraints_detach (st : World × GtkConstraintGuide) :
    other_constraints (gtk_constraint_guide_detach st.1 st.2) = other_constraints st := by
  cases hl : st.2.layout with
  | none => rw [detach_no_layout st.1 st.2 hl]
  | some l =>
    cases hs : st.1.solvers l with
    | none => rw [detach_no_solver st.1 st.2 l hl hs]
    | some s =>
      have h := detach_fold_rest l GuideValue.all (s, st.2, st.1.log)
      have hlay := detach_layout st.1 st.2
      rw [detach_live st.1 st.2 l s hl hs] at hlay ⊢
      simp only [other_constraints, hl, hs, Option.map_some', Function.update_same] at hlay ⊢
      rw [hlay]
      simp only [Function.update_same, Option.map_some', Option.some.injEq]
      exact h

theorem other_constraints_op (st : World × GtkConstraintGuide) (op : Op)
    (hop : op.is_update = true ∨ op.is_detach = true ∨ op.is_setter = true) :
    other_constraints (op.apply st) = other_constraints st := by
  cases op with
  | set_layout x => simp [Op.is_update, Op.is_detach, Op.is_setter] at hop
  | get_attribute a => simp [Op.is_update, Op.is_detach, Op.is_setter] at hop
  | update =>
    exact update_induction (fun st' => other_constraints st' = other_constraints st) st.1 st.2
      rfl (fun st' i h' => (other_constraints_update_constraint st' i).trans h')
  | detach => exact other_constraints_detach st
  | set_min_size a b =>
    obtain ⟨ps, hv, e⟩ := setter_eq_set_properties st (.set_min_size a b) rfl
    rw [e]
    exact set_properties_induction (fun st' => other_constraints st' = other_constraints st)
      (fun st' pv _ h' => (other_constraints_set_property st' pv.1 pv.2).trans h') ps st hv rfl
  | set_nat_size a b =>
    obtain ⟨ps, hv, e⟩ := setter_eq_set_properties st (.set_nat_size a b) rfl
    rw [e]
    exact set_properties_induction (fun st' => other_constraints st' = other_constraints st)
      (fun st' pv _ h' => (other_constraints_set_property st' pv.1 pv.2).trans h') ps st hv rfl
  | set_max_size a b =>
    obtain ⟨ps, hv, e⟩ := setter_eq_set_properties st (.set_max_size a b) rfl
    rw [e]
    exact set_properties_induction (fun st' => other_constraints st' = other_constraints st)
      (fun st' pv _ h' => (other_constraints_set_property st' pv.1 pv.2).trans h') ps st hv rfl

theorem other_constraints_run (ops : List Op) :
    ∀ st : World × GtkConstraintGuide,
      (∀ op ∈ ops, op.is_update = true ∨ op.is_detach = true ∨ op.is_setter = true) →
      other_constraints (run st ops) = other_constraints st := by
  induction ops with
  | nil => intro st _; rfl
  | cons op ops ih =>
    intro st hops
    simp only [run, List.foldl_cons]
    exact (ih _ (fun o ho => hops o (List.mem_cons_of_mem _ ho))).trans
      (other_constraints_op st op (hops op (List.mem_cons_self _ _)))
theorem bind_cache_of_some (cache : List (GtkConstraintAttribute × GtkConstraintVariable))
    (s : GtkConstraintSolver) (a : GtkConstraintAttribute) (anchor : String)
    (v : GtkConstraintVariable) (h : cache.lookup a = some v) :
    bind_cache cache s a anchor = cache := by
  simp [bind_cache, h]

theorem sync_fold_cache_of_bound (l : Nat) (is : List GuideValue) :
    ∀ (s : GtkConstraintSolver) (g : GtkConstraintGuide) (lg : List Call),
      (∀ i, ∃ v, g.bound_attributes.lookup (attr i) = some v) →
      (is.foldl (sync l) (s, g, lg)).2.1.bound_attributes = g.bound_attributes := by
  induction is with
  | nil => intro s g lg _; rfl
  | cons i is ih =>
    intro s g lg h
    simp only [List.foldl_cons]
    obtain ⟨v, hv⟩ := h i
    have e : (sync_guide s g i).bound_attributes = g.bound_attributes := by
      simp only [sync_guide]
      exact bind_cache_of_some _ _ _ _ v hv
    have := ih (sync_solver s g i) (sync_guide s g i) (lg ++ sync_log l s g i)
      (by rw [e]; exact h)
    simp only [sync]
    rw [this, e]

theorem slot_tuple_of_live_synced (l f0 : Nat) (st : World × GtkConstraintGuide)
    (h : live_synced l f0 st) (i : GuideValue) :
    ∃ v, st.2.bound_attributes.lookup (attr i) = some v ∧
      slot_tuple st i = some (some v, relation i, st.2.values i, weight i) := by
  obtain ⟨s, hl, hs, _, hsl, _⟩ := h
  obtain ⟨r, c, hr, _, _, hfil, hrel, hwt, hcon, v, hv, hlk⟩ := hsl i trivial
  have hfind : s.constraints.find? (fun c => decide (c.ref = r)) = some c := by
    rw [← List.filter_head?, hfil]; rfl
  exact ⟨v, hlk, by
    simp only [slot_tuple, slot_constraint, hl, hr, hs, hfind, Option.map_some', hv, hrel,
      hcon, hwt]⟩

theorem length_of_synced (f0 : Nat) (s : GtkConstraintSolver) (g : GtkConstraintGuide)
    (h : synced f0 (fun _ => True) s g) :
    s.constraints.length = 6 + (rest_constraints s g).length := by
  have h6 := count_created_of_synced f0 s g h
  obtain ⟨_, hsl, _, _, hheld⟩ := h
  have e : rest_constraints s g = s.constraints.filter (fun c => ! decide (f0 ≤ c.ref)) := by
    unfold rest_constraints
    apply List.filter_congr
    intro x hx
    by_cases hf : f0 ≤ x.ref
    · obtain ⟨i, _, hi⟩ := hheld x hx hf
      have : x.ref ∈ held_refs g := (mem_held_refs g x.ref).mpr ⟨i, hi⟩
      simp [hf, this]
    · have : x.ref ∉ held_refs g := by
        rw [mem_held_refs]
        rintro ⟨i, hi⟩
        obtain ⟨r, c, hr, hfr, _⟩ := hsl i trivial
        rw [hi] at hr
        cases hr
        exact hf hfr
      simp [hf, this]
  rw [e, ← h6, ← List.length_eq_length_filter_add]
theorem other_constraints_live (st : World × GtkConstraintGuide) (l : Nat)
    (s : GtkConstraintSolver) (hl : st.2.layout = some l) (hs : st.1.solvers l = some s) :
    other_constraints st = some (rest_constraints s st.2) := by
  simp only [other_constraints, hl, hs, Option.map_some']

theorem solver_size_of_live_synced (l f0 : Nat) (st : World × GtkConstraintGuide)
    (h : live_synced l f0 st) :
    some (solver_size st) = (other_constraints st).map (fun cs => some (6 + cs.length)) := by
  obtain ⟨s, hl, hs, hsy⟩ := h
  rw [other_constraints_live st l s hl hs]
  simp only [solver_size, hl, hs, Option.map_some', length_of_synced _ s st.2 hsy]

/-- C22: for a guide attached to a layout with a live solver (the handles it holds, if
any, having been handed out by that solver), calling `gtk_constraint_guide_update` twice
in a row leaves the same stored values and the same `bound_attributes` as calling it
once; each slot denotes, after one call as after two, one constraint with the same
variable, the relation of the slot, the stored value as constant and the weight of the
slot; the constraints of the solver the guide does not hold are the same, in the same
order; and the solver holds as many constraints. -/
theorem update_twice_same_as_once (w : World) (g : GtkConstraintGuide) (l : Nat)
    (s : GtkConstraintSolver) (hl : g.layout = some l) (hs : w.solvers l = some s)
    (hi : issued s g) :
    (update_twice w g).2.values = (gtk_constraint_guide_update w g).2.values ∧
    (update_twice w g).2.bound_attributes =
      (gtk_constraint_guide_update w g).2.bound_attributes ∧
    (∀ i, ∃ v,
      slot_tuple (gtk_constraint_guide_update w g) i =
        some (some v, relation i, g.values i, weight i) ∧
      slot_tuple (update_twice w g) i = some (some v, relation i, g.values i, weight i)) ∧
    other_constraints (update_twice w g) = other_constraints (gtk_constraint_guide_update w g) ∧
    solver_size (update_twice w g) = solver_size (gtk_constraint_guide_update w g) := by
  have h1 : live_synced l s.fresh_ref (gtk_constraint_guide_update w g) :=
    update_live_synced w g l s s.fresh_ref _ hl hs (synced_of_issued s g hi)
  have hv1 := update_values w g
  have hv2 : (update_twice w g).2.values = (gtk_constraint_guide_update w g).2.values :=
    update_values _ _
  have ho : other_constraints (update_twice w g) =
      other_constraints (gtk_constraint_guide_update w g) :=
    other_constraints_op (gtk_constraint_guide_update w g) .update (Or.inl rfl)
  obtain ⟨s1, hl1, hs1, hsy1⟩ := h1
  have h1 : live_synced l s.fresh_ref (gtk_constraint_guide_update w g) :=
    ⟨s1, hl1, hs1, hsy1⟩
  have h2 : live_synced l s.fresh_ref (update_twice w g) :=
    update_live_synced _ _ l s1 _ _ hl1 hs1 hsy1
  have hc : (update_twice w g).2.bound_attributes =
      (gtk_constraint_guide_update w g).2.bound_attributes := by
    unfold update_twice
    rw [update_live _ _ l s1 hl1 hs1]
    exact sync_fold_cache_of_bound l GuideValue.all s1 _ _
      (fun i => (slot_tuple_of_live_synced l _ _ h1 i).imp (fun _ h => h.1))
  refine ⟨hv2, hc, fun i => ?_, ho, ?_⟩
  · obtain ⟨v, hlk, ht⟩ := slot_tuple_of_live_synced l _ _ h1 i
    obtain ⟨v', hlk', ht'⟩ := slot_tuple_of_live_synced l _ _ h2 i
    rw [hc, hlk] at hlk'
    cases hlk'
    rw [hv2] at ht'
    rw [hv1] at ht ht'
    exact ⟨v, ht, ht'⟩
  · have e1 := solver_size_of_live_synced l _ _ h1
    have e2 := solver_size_of_live_synced l _ _ h2
    rw [ho, ← e1] at e2
    exact Option.some.inj e2
/-- C22, at the example guide: after one update as after two, the solver of layout 0
holds seven constraints, the constraint of the layout and the six of the guide. -/
theorem update_twice_same_as_once_witness :
    example_guide.layout = some 0 ∧ example_world.solvers 0 = some example_solver ∧
    issued example_solver example_guide ∧
    solver_size (update_twice example_world example_guide) = some 7 ∧
    slot_tuple (update_twice example_world example_guide) .NAT_HEIGHT =
      some (some ⟨2, "guide", .HEIGHT⟩, .EQ, 60, .MEDIUM) ∧
    ((update_twice example_world example_guide).2.values =
      (gtk_constraint_guide_update example_world example_guide).2.values ∧
    (update_twice example_world example_guide).2.bound_attributes =
      (gtk_constraint_guide_update example_world example_guide).2.bound_attributes ∧
    (∀ i, ∃ v,
      slot_tuple (gtk_constraint_guide_update example_world example_guide) i =
        some (some v, relation i, example_guide.values i, weight i) ∧
      slot_tuple (update_twice example_world example_guide) i =
        some (some v, relation i, example_guide.values i, weight i)) ∧
    other_constraints (update_twice example_world example_guide) =
      other_constraints (gtk_constraint_guide_update example_world example_guide) ∧
    solver_size (update_twice example_world example_guide) =
      solver_size (gtk_constraint_guide_update example_world example_guide)) :=
  ⟨rfl, rfl, (fun i r h => by cases h), by decide, by decide,
    update_twice_same_as_once example_world example_guide 0 example_solver rfl rfl
      (fun i r h => by cases h)⟩
theorem removes_own_append (calls X : List Call) :
    ∀ own, removes_own own (calls ++ X) =
      (removes_own own calls && removes_own (owned own calls) X) := by
  induction calls with
  | nil => intro own; simp [removes_own, owned]
  | cons c cs ih =>
    intro own
    show (removes_own_call own c && removes_own (own_after own c) (cs ++ X)) =
      ((removes_own_call own c && removes_own (own_after own c) cs) &&
        removes_own (owned (own_after own c) cs) X)
    rw [ih, Bool.and_assoc]

theorem owned_append (own : List Nat) (calls X : List Call) :
    owned own (calls ++ X) = owned (owned own calls) X := by
  simp [owned, List.foldl_append]

theorem removes_own_sync_log (l : Nat) (s : GtkConstraintSolver) (g : GtkConstraintGuide)
    (i : GuideValue) (own : List Nat) (h : ∀ r, g.constraints i = some r → r ∈ own) :
    removes_own own (sync_log l s g i) = true ∧
    owned own (sync_log l s g i) = s.fresh_ref :: own := by
  unfold sync_log bind_log
  cases hc : g.constraints i with
  | none =>
    cases g.bound_attributes.lookup (attr i) <;>
      simp [removes_own, removes_own_call, owned, own_after]
  | some r =>
    have := h r hc
    cases g.bound_attributes.lookup (attr i) <;>
      simp [removes_own, removes_own_call, owned, own_after, this]

theorem removes_own_notify (own : List Nat) (p : Nat) :
    removes_own own [Call.notify p] = true ∧ owned own [Call.notify p] = own := by
  simp [removes_own, removes_own_call, owned, own_after]

theorem removes_own_detach_fold (l : Nat) (own : List Nat) (is : List GuideValue) :
    ∀ (s : GtkConstraintSolver) (g : GtkConstraintGuide) (lg : List Call),
      (∀ i r, g.constraints i = some r → r ∈ own) →
      ∃ X, (is.foldl (detach_step l) (s, g, lg)).2.2 = lg ++ X ∧
        removes_own own X = true ∧ owned own X = own := by
  induction is with
  | nil => intro s g lg _; exact ⟨[], by simp, rfl, rfl⟩
  | cons i is ih =>
    intro s g lg h
    simp only [List.foldl_cons]
    obtain ⟨X, hX, hr, ho⟩ := ih (sync_removed s (g.constraints i))
      { g with constraints := Function.update g.constraints i none }
      (lg ++ [Call.remove_constraint l (g.constraints i)])
      (fun j r hj => by
        by_cases hji : j = i
        · subst hji; simp at hj
        · simp only [Function.update_noteq hji] at hj; exact h j r hj)
    have h1 : removes_own own [Call.remove_constraint l (g.constraints i)] = true ∧
        owned own [Call.remove_constraint l (g.constraints i)] = own := by
      cases hc : g.constraints i with
      | none => simp [removes_own, removes_own_call, owned, own_after]
      | some r => simp [removes_own, removes_own_call, owned, own_after, h i r hc]
    refine ⟨Call.remove_constraint l (g.constraints i) :: X, ?_, ?_, ?_⟩
    · simp only [detach_step]
      rw [hX]; simp
    · have := removes_own_append [Call.remove_constraint l (g.constraints i)] X own
      simp only [List.singleton_append] at this
      rw [this, h1.1, h1.2, hr]; rfl
    · have := owned_append own [Call.remove_constraint l (g.constraints i)] X
      simp only [List.singleton_append] at this
      rw [this, h1.2, ho]

theorem find_filter_of_imp (cs : List GtkConstraint) (p q : GtkConstraint → Bool)
    (h : ∀ c ∈ cs, p c = true → q c = true) :
    (cs.filter q).find? p = cs.find? p := by
  induction cs with
  | nil => rfl
  | cons c cs ih =>
    have ih' := ih (fun x hx => h x (List.mem_cons_of_mem _ hx))
    by_cases hq : q c = true
    · rw [List.filter_cons_of_pos hq]
      simp only [List.find?_cons, ih']
    · have hp : p c = false := by
        cases hpc : p c with
        | false => rfl
        | true => exact absurd (h c (List.mem_cons_self _ _) hpc) hq
      rw [List.filter_cons_of_neg hq, List.find?_cons, hp, ih']
theorem frame_inv_update_constraint (l f0 : Nat) (own : List Nat) (lg0 : List Call)
    (st : World × GtkConstraintGuide) (i : GuideValue) (h : frame_inv l f0 own lg0 st) :
    frame_inv l f0 own lg0 (gtk_constraint_guide_update_constraint st.1 st.2 i) := by
  obtain ⟨s, calls, hl, hs, hf, hh, hlog, hrm, hown, hge⟩ := h
  rw [update_constraint_live st.1 st.2 i l s hl hs]
  obtain ⟨h1, h2⟩ := removes_own_sync_log l s st.2 i (owned own calls)
    (fun r hr => hown r ((mem_held_refs st.2 r).mpr ⟨i, hr⟩))
  refine ⟨sync_solver s st.2 i, calls ++ sync_log l s st.2 i, hl, ?_, ?_, ?_, ?_, ?_, ?_, ?_⟩
  · simp only [Function.update_same]
  · rw [sync_solver_fresh_ref]; omega
  · intro j r hj
    simp only [sync_guide] at hj
    by_cases hji : j = i
    · subst hji
      simp only [Function.update_same, Option.some.injEq] at hj
      right; omega
    · rw [Function.update_noteq hji] at hj
      exact hh j r hj
  · simp only [hlog, List.append_assoc]
  · rw [removes_own_append, hrm, h1]; rfl
  · intro r hr
    rw [owned_append, h2]
    obtain ⟨j, hj⟩ := (mem_held_refs _ r).mp hr
    simp only [sync_guide] at hj
    by_cases hji : j = i
    · subst hji
      simp only [Function.update_same, Option.some.injEq] at hj
      rw [hj]; exact List.mem_cons_self _ _
    · rw [Function.update_noteq hji] at hj
      exact List.mem_cons_of_mem _ (hown r ((mem_held_refs st.2 r).mpr ⟨j, hj⟩))
  · intro r hr
    rw [owned_append, h2, List.mem_cons] at hr
    rcases hr with e | hr
    · right; omega
    · exact hge r hr

theorem frame_inv_set_property (l f0 : Nat) (own : List Nat) (lg0 : List Call)
    (st : World × GtkConstraintGuide) (p : Nat) (val : Int)
    (h : frame_inv l f0 own lg0 st) :
    frame_inv l f0 own lg0 (gtk_constraint_guide_set_property st.1 st.2 p val) := by
  unfold gtk_constraint_guide_set_property
  cases GuideValue.of_prop_id p with
  | none => exact h
  | some i =>
    by_cases hv : st.2.values i = val
    · simp only [hv, ne_eq, not_true_eq_false, if_false]; exact h
    · simp only [ne_eq, hv, not_false_eq_true, if_true]
      apply frame_inv_update_constraint l f0 own lg0
        (st.1.emit (Call.notify p), { st.2 with values := Function.update st.2.values i val })
      obtain ⟨s, calls, hl, hs, hf, hh, hlog, hrm, hown, hge⟩ := h
      obtain ⟨h1, h2⟩ := removes_own_notify (owned own calls) p
      refine ⟨s, calls ++ [Call.notify p], hl, hs, hf, hh, ?_, ?_, ?_, ?_⟩
      · simp only [World.emit, hlog, List.append_assoc]
      · rw [removes_own_append, hrm, h1]; rfl
      · intro r hr
        rw [owned_append, h2]
        exact hown r hr
      · intro r hr
        rw [owned_append, h2] at hr
        exact hge r hr

theorem frame_inv_detach (l f0 : Nat) (own : List Nat) (lg0 : List Call)
    (st : World × GtkConstraintGuide) (h : frame_inv l f0 own lg0 st) :
    frame_inv l f0 own lg0 (gtk_constraint_guide_detach st.1 st.2) := by
  obtain ⟨s, calls, hl, hs, hf, hh, hlog, hrm, hown, hge⟩ := h
  obtain ⟨X, hX, hr, ho⟩ := removes_own_detach_fold l (owned own calls) GuideValue.all s st.2
    st.1.log (fun i r hi => hown r ((mem_held_refs st.2 r).mpr ⟨i, hi⟩))
  have hfr := detach_fold_fresh_ref l GuideValue.all s st.2 st.1.log
  have hG := detach_guide_live st.1 st.2 l s hl hs
  have hW : (gtk_constraint_guide_detach st.1 st.2).1 =
      ⟨Function.update st.1.solvers l
          (some (GuideValue.all.foldl (detach_step l) (s, st.2, st.1.log)).1),
        st.1.widgets, (GuideValue.all.foldl (detach_step l) (s, st.2, st.1.log)).2.2⟩ := by
    rw [detach_live st.1 st.2 l s hl hs]
  refine ⟨(GuideValue.all.foldl (detach_step l) (s, st.2, st.1.log)).1, calls ++ X, ?_, ?_,
    ?_, ?_, ?_, ?_, ?_, ?_⟩
  · rw [hG]; exact hl
  · rw [hW]; simp only [Function.update_same]
  · rw [hfr]; exact hf
  · intro i r hi
    rw [hG] at hi
    cases hi
  · rw [hW]
    show (GuideValue.all.foldl (detach_step l) (s, st.2, st.1.log)).2.2 = _
    rw [hX, hlog, List.append_assoc]
  · rw [removes_own_append, hrm, hr]; rfl
  · intro r hr'
    rw [hG, mem_held_refs] at hr'
    obtain ⟨j, hj⟩ := hr'
    cases hj
  · intro r hr'
    rw [owned_append, ho] at hr'
    exact hge r hr'

theorem frame_inv_op (l f0 : Nat) (own : List Nat) (lg0 : List Call)
    (st : World × GtkConstraintGuide) (op : Op)
    (hop : op.is_update = true ∨ op.is_detach = true ∨ op.is_setter = true)
    (h : frame_inv l f0 own lg0 st) : frame_inv l f0 own lg0 (op.apply st) := by
  cases op with
  | set_layout x => simp [Op.is_update, Op.is_detach, Op.is_setter] at hop
  | get_attribute a => simp [Op.is_update, Op.is_detach, Op.is_setter] at hop
  | update =>
    exact update_induction (fun st' => frame_inv l f0 own lg0 st') st.1 st.2 h
      (fun st' i h' => frame_inv_update_constraint l f0 own lg0 st' i h')
  | detach => exact frame_inv_detach l f0 own lg0 st h
  | set_min_size a b =>
    obtain ⟨ps, hv, e⟩ := setter_eq_set_properties st (.set_min_size a b) rfl
    rw [e]
    exact set_properties_induction (fun st' => frame_inv l f0 own lg0 st')
      (fun st' pv _ h' => frame_inv_set_property l f0 own lg0 st' pv.1 pv.2 h') ps st hv h
  | set_nat_size a b =>
    obtain ⟨ps, hv, e⟩ := setter_eq_set_properties st (.set_nat_size a b) rfl
    rw [e]
    exact set_properties_induction (fun st' => frame_inv l f0 own lg0 st')
      (fun st' pv _ h' => frame_inv_set_property l f0 own lg0 st' pv.1 pv.2 h') ps st hv h
  | set_max_size a b =>
    obtain ⟨ps, hv, e⟩ := setter_eq_set_properties st (.set_max_size a b) rfl
    rw [e]
    exact set_properties_induction (fun st' => frame_inv l f0 own lg0 st')
      (fun st' pv _ h' => frame_inv_set_property l f0 own lg0 st' pv.1 pv.2 h') ps st hv h

theorem frame_inv_run (l f0 : Nat) (own : List Nat) (lg0 : List Call) (ops : List Op) :
    ∀ st : World × GtkConstraintGuide,
      (∀ op ∈ ops, op.is_update = true ∨ op.is_detach = true ∨ op.is_setter = true) →
      frame_inv l f0 own lg0 st → frame_inv l f0 own lg0 (run st ops) := by
  induction ops with
  | nil => intro st _ h; exact h
  | cons op ops ih =>
    intro st hops h
    simp only [run, List.foldl_cons]
    exact ih _ (fun o ho => hops o (List.mem_cons_of_mem _ ho))
      (frame_inv_op l f0 own lg0 st op (hops op (List.mem_cons_self _ _)) h)

theorem own_subset_owned (calls : List Call) :
    ∀ (own : List Nat) (r : Nat), r ∈ own → r ∈ owned own calls := by
  induction calls with
  | nil => intro own r h; exact h
  | cons c cs ih =>
    intro own r h
    show r ∈ owned (own_after own c) cs
    apply ih
    cases c <;> simp [own_after, h]

theorem removed_refs_subset_owned (calls : List Call) :
    ∀ own : List Nat, removes_own own calls = true →
      ∀ r ∈ removed_refs calls, r ∈ owned own calls := by
  induction calls with
  | nil => intro own _ r hr; simp [removed_refs] at hr
  | cons c cs ih =>
    intro own h r hr
    have h' : (removes_own_call own c && removes_own (own_after own c) cs) = true := h
    rw [Bool.and_eq_true] at h'
    show r ∈ owned (own_after own c) cs
    have hcs := ih (own_after own c) h'.2 r
    have hsplit : removed_refs (c :: cs) = removed_refs [c] ++ removed_refs cs :=
      removed_refs_append [c] cs
    rw [hsplit, List.mem_append] at hr
    rcases hr with h1 | h1
    · apply own_subset_owned
      cases c with
      | remove_constraint sv x =>
        cases x with
        | none => simp [removed_refs] at h1
        | some r' =>
          simp [removed_refs] at h1
          subst h1
          have := h'.1
          simp [removes_own_call] at this
          simpa [own_after] using this
      | add_constraint sv x => simp [removed_refs] at h1
      | get_attribute a b c d => simp [removed_refs] at h1
      | create_variable a b => simp [removed_refs] at h1
      | notify a => simp [removed_refs] at h1
    · exact hcs h1
theorem find_ref_rest (s : GtkConstraintSolver) (g : GtkConstraintGuide) (r : Nat)
    (h : r ∉ held_refs g) :
    (rest_constraints s g).find? (fun c => decide (c.ref = r)) =
      s.constraints.find? (fun c => decide (c.ref = r)) := by
  unfold rest_constraints
  apply find_filter_of_imp
  intro c _ hc
  have e : c.ref = r := by simpa using hc
  simp [e, h]

/-- C21: two guides A and B are attached to the same layout, whose solver is live; the
handles B holds were handed out by that solver and none of them is held by A.  Then for
every sequence of update, detach and setter calls on A: every non-null handle passed to
remove_constraint is, at the time of the call, a handle A held at the start or a handle
an earlier add_constraint of the sequence returned to A, and none is a handle of B; the
constraints of the solver that A does not hold, B's among them, are the same in the
same order; every slot of B denotes the same constraint as before; and A never comes to
hold a handle of B.  (B itself is not an argument of the operations on A, which write
only through the guide they are given.) -/
theorem guide_leaves_other_guide_alone (w : World) (A B : GtkConstraintGuide) (l : Nat)
    (s : GtkConstraintSolver) (ops : List Op) (hA : A.layout = some l)
    (hB : B.layout = some l) (hs : w.solvers l = some s)
    (hBi : ∀ r ∈ held_refs B, r < s.fresh_ref) (hdisj : ∀ r ∈ held_refs A, r ∉ held_refs B)
    (hops : ∀ op ∈ ops, op.is_update = true ∨ op.is_detach = true ∨ op.is_setter = true) :
    (∃ calls, (run (w, A) ops).1.log = w.log ++ calls ∧
      removes_own (held_refs A) calls = true ∧
      ∀ r ∈ removed_refs calls, r ∉ held_refs B) ∧
    other_constraints (run (w, A) ops) = other_constraints (w, A) ∧
    (∀ i, slot_constraint (run (w, A) ops).1 B i = slot_constraint w B i) ∧
    (∀ r ∈ held_refs (run (w, A) ops).2, r ∉ held_refs B) := by
  have h0 : frame_inv l s.fresh_ref (held_refs A) w.log (w, A) :=
    ⟨s, [], hA, hs, Nat.le_refl _, fun i r hi => Or.inl ((mem_held_refs A r).mpr ⟨i, hi⟩),
      by simp, rfl, fun r hr => hr, fun r hr => Or.inl hr⟩
  obtain ⟨s', calls, hl', hs', hf, hh, hlog, hrm, hown, hge⟩ :=
    frame_inv_run l s.fresh_ref (held_refs A) w.log ops (w, A) hops h0
  have ho := other_constraints_run ops (w, A) hops
  have hnotB : ∀ r, (r ∈ held_refs A ∨ s.fresh_ref ≤ r) → r ∉ held_refs B := by
    rintro r (h | h) hb
    · exact hdisj r h hb
    · have := hBi r hb; omega
  have hd : ∀ r ∈ held_refs (run (w, A) ops).2, r ∉ held_refs B :=
    fun r hr => hnotB r (hge r (hown r hr))
  refine ⟨⟨calls, hlog, hrm, fun r hr =>
    hnotB r (hge r (removed_refs_subset_owned calls _ hrm r hr))⟩, ho, fun i => ?_, hd⟩
  rw [other_constraints_live _ l s' hl' hs', other_constraints_live (w, A) l s hA hs] at ho
  have ho' := Option.some.inj ho
  unfold slot_constraint
  rw [hB]
  cases hc : B.constraints i with
  | none => rfl
  | some r =>
    have hrB : r ∈ held_refs B := (mem_held_refs B r).mpr ⟨i, hc⟩
    have h1 : r ∉ held_refs (run (w, A) ops).2 := fun h => hd r h hrB
    have h2 : r ∉ held_refs A := fun h => hdisj r h hrB
    simp only [hs', hs]
    rw [← find_ref_rest s' _ r h1, ← find_ref_rest s A r h2, ho']
/-- C21, at two guides on layout 0 of the example world that have both been updated: B
holds the handles 1 to 6 and A the handles 7 to 12; set_min_size(1, 2); update; detach
on A removes the handles 7 and 8, then 13, 14 and 9 to 12, then 15 to 20. -/
theorem guide_leaves_other_guide_alone_witness :
    shared_state.2.layout = some 0 ∧ updated_state.2.layout = some 0 ∧
    held_refs updated_state.2 = [1, 2, 3, 4, 5, 6] ∧
    held_refs shared_state.2 = [7, 8, 9, 10, 11, 12] ∧
    removed_refs (run shared_state [.set_min_size 1 2, .update, .detach]).1.log =
      [7, 8, 13, 14, 9, 10, 11, 12, 15, 16, 17, 18, 19, 20] ∧
    ((∃ calls, (run (shared_state.1, shared_state.2)
        [.set_min_size 1 2, .update, .detach]).1.log = shared_state.1.log ++ calls ∧
      removes_own (held_refs shared_state.2) calls = true ∧
      ∀ r ∈ removed_refs calls, r ∉ held_refs updated_state.2) ∧
    other_constraints (run (shared_state.1, shared_state.2)
        [.set_min_size 1 2, .update, .detach]) =
      other_constraints (shared_state.1, shared_state.2) ∧
    (∀ i, slot_constraint (run (shared_state.1, shared_state.2)
        [.set_min_size 1 2, .update, .detach]).1 updated_state.2 i =
      slot_constraint shared_state.1 updated_state.2 i) ∧
    (∀ r ∈ held_refs (run (shared_state.1, shared_state.2)
        [.set_min_size 1 2, .update, .detach]).2, r ∉ held_refs updated_state.2)) :=
  ⟨by decide, by decide, by decide, by decide, by decide,
    guide_leaves_other_guide_alone shared_state.1 shared_state.2 updated_state.2 0
      ((shared_state.1.solvers 0).getD ⟨[], 0, 0⟩)
      [.set_min_size 1 2, .update, .detach] (by decide) (by decide) (by decide) (by decide)
      (by decide) (by decide)⟩

theorem int_wrap_of_range (x : Int) (h0 : -2147483648 ≤ x) (h1 : x ≤ G_MAXINT) :
    int_wrap x = x := by
  unfold int_wrap
  unfold G_MAXINT at h1
  omega

theorem get_action_at_index_loop_eq (muxer : GtkActionMuxer) (pos : Int)
    (acts : List String) :
    ∀ r : Int, 0 ≤ r → r + acts.length ≤ G_MAXINT →
      get_action_at_index_loop muxer pos acts r =
        if r ≤ pos ∧ pos < r + (valid_actions muxer acts).length then pos
        else r + (valid_actions muxer acts).length := by
  induction acts with
  | nil =>
    intro r _ _
    have c : ¬ (r ≤ pos ∧ pos < r + ((valid_actions muxer []).length : Int)) := by
      simp [valid_actions]
    rw [if_neg c]
    simp [get_action_at_index_loop, valid_actions]
  | cons a rest ih =>
    intro r h0 h1
    simp only [List.length_cons, Nat.cast_add, Nat.cast_one] at h1
    by_cases hv : is_valid_action muxer a = true
    · have e : valid_actions muxer (a :: rest) = a :: valid_actions muxer rest := by
        simp [valid_actions, hv]
      rw [e]
      simp only [get_action_at_index_loop, hv, Bool.not_true, List.length_cons, Nat.cast_add,
        Nat.cast_one]
      by_cases hp : r = pos
      · subst hp
        have : (r ≤ r ∧ r < r + ((valid_actions muxer rest).length + 1 : Int)) := by
          constructor <;> omega
        simp [this]
      · have hw : int_wrap (r + 1) = r + 1 :=
          int_wrap_of_range _ (by omega) (by omega)
        simp only [Bool.false_eq_true, if_false, hp, hw]
        rw [ih (r + 1) (by omega) (by omega)]
        by_cases c : r + 1 ≤ pos ∧ pos < r + 1 + (valid_actions muxer rest).length
        · have c' : r ≤ pos ∧ pos < r + ((valid_actions muxer rest).length + 1 : Int) := by
            constructor <;> omega
          rw [if_pos c, if_pos c']
        · have c' : ¬ (r ≤ pos ∧ pos < r + ((valid_actions muxer rest).length + 1 : Int)) := by
            intro h; apply c; constructor <;> omega
          rw [if_neg c, if_neg c']
          omega
    · have hv' : is_valid_action muxer a = false := by simpa using hv
      have e : valid_actions muxer (a :: rest) = valid_actions muxer rest := by
        simp [valid_actions, hv']
      rw [e]
      simp only [get_action_at_index_loop, hv', Bool.not_false, if_true]
      exact ih r h0 (by omega)

theorem g_strv_length_eq (actions : List String) (h : (actions.length : Int) ≤ G_MAXINT) :
    g_strv_length actions = actions.length :=
  int_wrap_of_range _ (by omega) h

theorem count_fold_eq {α : Type} (p : α → Bool) (xs : List α) :
    ∀ n : Int, 0 ≤ n → n + xs.length ≤ G_MAXINT →
      xs.foldl (fun k x => if !p x then k else int_wrap (k + 1)) n =
        n + (xs.filter p).length := by
  induction xs with
  | nil => intro n _ _; simp
  | cons x rest ih =>
    intro n h0 h1
    simp only [List.length_cons, Nat.cast_add, Nat.cast_one] at h1
    simp only [List.foldl_cons]
    by_cases hv : p x = true
    · have hw : int_wrap (n + 1) = n + 1 := int_wrap_of_range _ (by omega) (by omega)
      simp only [hv, Bool.not_true, Bool.false_eq_true, if_false, hw, List.filter_cons_of_pos,
        List.length_cons, Nat.cast_add, Nat.cast_one]
      rw [ih (n + 1) (by omega) (by omega)]
      omega
    · have hv' : p x = false := by simpa using hv
      have e : (x :: rest).filter p = rest.filter p := by simp [hv']
      simp only [hv', Bool.not_false, if_true, e]
      exact ih n h0 (by omega)

theorem get_valid_actions_eq (muxer : GtkActionMuxer) (actions : List String)
    (h : (actions.length : Int) ≤ G_MAXINT) :
    get_valid_actions muxer actions (g_strv_length actions) =
      (valid_actions muxer actions).length := by
  unfold get_valid_actions
  rw [g_strv_length_eq actions h]
  simp only [Int.toNat_ofNat, List.take_length]
  have := count_fold_eq (is_valid_action muxer) actions 0 (Int.le_refl 0) (by omega)
  simpa [valid_actions] using this

theorem add_muxer_actions_fold (muxer : GtkActionMuxer) (acts : List String) :
    ∀ builder : List (String × String × String),
      acts.foldl
        (fun b a => if !is_valid_action muxer a then b else b ++ [(a, a, "<VoidSymbol>")])
        builder =
      builder ++ (valid_actions muxer acts).map (fun a => (a, a, "<VoidSymbol>")) := by
  induction acts with
  | nil => intro b; simp [valid_actions]
  | cons a rest ih =>
    intro b
    simp only [List.foldl_cons]
    rw [ih]
    by_cases hv : is_valid_action muxer a = true
    · simp [valid_actions, hv]
    · have hv' : is_valid_action muxer a = false := by simpa using hv
      simp [valid_actions, hv']

theorem add_muxer_actions_eq (muxer : GtkActionMuxer) (actions : List String)
    (builder : List (String × String × String)) (h : (actions.length : Int) ≤ G_MAXINT) :
    add_muxer_actions muxer actions (g_strv_length actions) builder =
      builder ++ (valid_actions muxer actions).map (fun a => (a, a, "<VoidSymbol>")) := by
  unfold add_muxer_actions
  rw [g_strv_length_eq actions h]
  simp only [Int.toNat_ofNat, List.take_length]
  exact add_muxer_actions_fold muxer actions builder

theorem get_action_at_index_eq (muxer : GtkActionMuxer) (actions : List String) (pos : Int)
    (h : (actions.length : Int) ≤ G_MAXINT) :
    get_action_at_index muxer actions (g_strv_length actions) pos =
      if 0 ≤ pos ∧ pos < (valid_actions muxer actions).length then actions.get? pos.toNat
      else actions.get? (valid_actions muxer actions).length := by
  unfold get_action_at_index
  rw [g_strv_length_eq actions h]
  simp only [Int.toNat_ofNat, List.take_length]
  rw [get_action_at_index_loop_eq muxer pos actions 0 (Int.le_refl 0) (by omega)]
  simp only [zero_add]
  by_cases c : 0 ≤ pos ∧ pos < (valid_actions muxer actions).length
  · rw [if_pos c, if_pos c]
    have : ¬ pos < 0 := by omega
    simp [strv_index, this]
  · rw [if_neg c, if_neg c]
    simp [strv_index]

theorem get_child_at_index_loop_eq (tree : WidgetTree) (idx : Int) (cs : List Nat) :
    ∀ r : Int, 0 ≤ r → r + cs.length ≤ G_MAXINT →
      get_child_at_index_loop tree idx cs r =
        if r ≤ idx ∧ idx < r + (cs.filter tree.should_present).length then
          (cs.filter tree.should_present).get? (idx - r).toNat
        else none := by
  induction cs with
  | nil =>
    intro r _ _
    simp [get_child_at_index_loop]
  | cons c rest ih =>
    intro r h0 h1
    simp only [List.length_cons, Nat.cast_add, Nat.cast_one] at h1
    by_cases hv : tree.should_present c = true
    · have e : (c :: rest).filter tree.should_present =
          c :: rest.filter tree.should_present := by simp [hv]
      rw [e]
      simp only [get_child_at_index_loop, hv, Bool.not_true, List.length_cons, Nat.cast_add,
        Nat.cast_one]
      by_cases hp : r = idx
      · subst hp
        have : (r ≤ r ∧ r < r + (((rest.filter tree.should_present).length : Int) + 1)) := by
          constructor <;> omega
        simp [this]
      · have hw : int_wrap (r + 1) = r + 1 :=
          int_wrap_of_range _ (by omega) (by omega)
        simp only [Bool.false_eq_true, if_false, hp, hw]
        rw [ih (r + 1) (by omega) (by omega)]
        by_cases c1 : r + 1 ≤ idx ∧ idx < r + 1 + (rest.filter tree.should_present).length
        · have c' : r ≤ idx ∧
              idx < r + (((rest.filter tree.should_present).length : Int) + 1) := by
            constructor <;> omega
          rw [if_pos c1, if_pos c']
          have e2 : (idx - r).toNat = (idx - (r + 1)).toNat + 1 := by omega
          rw [e2, List.get?_cons_succ]
        · have c' : ¬ (r ≤ idx ∧
              idx < r + (((rest.filter tree.should_present).length : Int) + 1)) := by
            intro h; apply c1; constructor <;> omega
          rw [if_neg c1, if_neg c']
    · have hv' : tree.should_present c = false := by simpa using hv
      have e : (c :: rest).filter tree.should_present = rest.filter tree.should_present := by
        simp [hv']
      rw [e]
      simp only [get_child_at_index_loop, hv', Bool.not_false, if_true]
      exact ih r h0 (by omega)

theorem get_index_in_parent_loop_eq (tree : WidgetTree) (widget : Nat) (cs : List Nat) :
    ∀ r : Int, 0 ≤ r → r + cs.length ≤ G_MAXINT → widget ∈ cs →
      tree.should_present widget = true →
      get_index_in_parent_loop tree widget cs r =
        r + ((cs.filter tree.should_present).indexOf widget : Nat) := by
  induction cs with
  | nil => intro r _ _ hm; cases hm
  | cons c rest ih =>
    intro r h0 h1 hm hp
    simp only [List.length_cons, Nat.cast_add, Nat.cast_one] at h1
    by_cases hv : tree.should_present c = true
    · have e : (c :: rest).filter tree.should_present =
          c :: rest.filter tree.should_present := by simp [hv]
      rw [e]
      simp only [get_index_in_parent_loop, hv, Bool.not_true, Bool.false_eq_true, if_false]
      by_cases hc : c = widget
      · subst hc
        simp
      · have hm' : widget ∈ rest := by
          rcases List.mem_cons.mp hm with h | h
          · exact absurd h.symm hc
          · exact h
        have hw : int_wrap (r + 1) = r + 1 :=
          int_wrap_of_range _ (by omega) (by omega)
        rw [if_neg hc, hw, ih (r + 1) (by omega) (by omega) hm' hp,
          List.indexOf_cons_ne _ hc]
        push_cast
        omega
    · have hv' : tree.should_present c = false := by simpa using hv
      have hc : c ≠ widget := by
        intro h; rw [h] at hv'; rw [hv'] at hp; cases hp
      have hm' : widget ∈ rest := by
        rcases List.mem_cons.mp hm with h | h
        · exact absurd h.symm hc
        · exact h
      have e : (c :: rest).filter tree.should_present = rest.filter tree.should_present := by
        simp [hv']
      rw [e]
      simp only [get_index_in_parent_loop, hv', Bool.not_false, if_true]
      exact ih r h0 (by omega) hm' hp

/-- C26, the code at the claim's input.  With the actions `a` (disabled) and `b` (enabled,
no parameter) there is one valid action, `b`, and it is the one entry `add_muxer_actions`
emits for `GetActions`; but `get_action_at_index` at `pos = 0` returns `actions[real_pos]`
with `real_pos = 0`, which is `a`, the disabled action, and `GetName (0)` answers `a`. -/
theorem get_action_at_index_returns_unfiltered_entry :
    g_strv_length example_muxer.list_actions = 2 ∧
    get_valid_actions example_muxer ["a", "b"] 2 = 1 ∧
    valid_actions example_muxer ["a", "b"] = ["b"] ∧
    add_muxer_actions example_muxer ["a", "b"] 2 [] = [("b", "b", "<VoidSymbol>")] ∧
    is_valid_action example_muxer "a" = false ∧
    get_action_at_index example_muxer ["a", "b"] 2 0 = some "a" ∧
    get_action_at_index example_muxer ["a", "b"] 2 0 ≠
      (valid_actions example_muxer ["a", "b"]).get? 0 ∧
    (widget_handle_method example_action_widget "GetActions" 0).1 =
      .return_actions [("b", "b", "<VoidSymbol>")] ∧
    (widget_handle_method example_action_widget "GetName" 0).1 = .return_string "a" := by
  decide

/-- C27, the code at the claim's input.  With the actions `a` (disabled) and `b` (enabled,
no parameter) the `NActions` value is 1, but for `pos = 1` and for `pos = -1`
`get_action_at_index` leaves its loop with `real_pos = 1` and returns `actions[1]`, which
is `b` and not `NULL`: `GetName (1)` answers `b`, `GetKeyBinding (1)` answers a key
binding, and `DoAction (1)` and `DoAction (-1)` activate `b` instead of answering with
the error "No action with index". -/
theorem get_action_at_index_out_of_range_not_null :
    widget_handle_get_property_n_actions example_action_widget = some 1 ∧
    get_action_at_index example_muxer ["a", "b"] 2 1 = some "b" ∧
    get_action_at_index example_muxer ["a", "b"] 2 (-1) = some "b" ∧
    get_action_at_index example_muxer ["a", "b"] 2 2147483647 = some "b" ∧
    (widget_handle_method example_action_widget "GetName" 1).1 = .return_string "b" ∧
    (widget_handle_method example_action_widget "GetKeyBinding" 1).1 =
      .return_string "<VoidSymbol>" ∧
    (widget_handle_method example_action_widget "DoAction" 1).1 = .return_boolean true ∧
    (widget_handle_method example_action_widget "DoAction" 1).2.activated = ["b"] ∧
    (widget_handle_method example_action_widget "DoAction" (-1)).1 = .return_boolean true ∧
    (widget_handle_method example_action_widget "DoAction" (-1)).2.activated = ["b"] := by
  decide

theorem child_count_eq (tree : WidgetTree) (widget : Nat)
    (hlen : ((tree.children widget).length : Int) ≤ G_MAXINT) :
    handle_accessible_get_property_child_count tree widget =
      (presented_children tree widget).length := by
  have := count_fold_eq tree.should_present (tree.children widget) 0 (Int.le_refl 0)
    (by omega)
  simpa [handle_accessible_get_property_child_count, presented_children] using this

/-- C28: for every widget whose sibling list of children is no longer than the largest
`int`, and every `idx`: `ChildCount` is the number of presented children;
`GetChildAtIndex` answers with the error exactly when `idx < 0` or `idx >= ChildCount`,
and otherwise returns the `idx`-th presented child in sibling order; and for every
presented child `c` of the widget, `get_index_in_parent (c)` is an index in range at
which `GetChildAtIndex` on the widget returns `c`. -/
theorem child_index_consistent (tree : WidgetTree) (widget : Nat) (idx : Int)
    (hlen : ((tree.children widget).length : Int) ≤ G_MAXINT) :
    handle_accessible_get_property_child_count tree widget =
      (presented_children tree widget).length ∧
    (handle_accessible_method_get_child_at_index tree widget idx = none ↔
      idx < 0 ∨ idx ≥ handle_accessible_get_property_child_count tree widget) ∧
    (0 ≤ idx → idx < handle_accessible_get_property_child_count tree widget →
      ∃ c, (presented_children tree widget).get? idx.toNat = some c ∧
        handle_accessible_method_get_child_at_index tree widget idx = some c) ∧
    (∀ c, tree.parent c = some widget → c ∈ tree.children widget →
      tree.should_present c = true →
      0 ≤ get_index_in_parent tree c ∧
      get_index_in_parent tree c < handle_accessible_get_property_child_count tree widget ∧
      handle_accessible_method_get_child_at_index tree widget (get_index_in_parent tree c) =
        some c) := by
  have hcount := child_count_eq tree widget hlen
  have hget : ∀ k : Int, handle_accessible_method_get_child_at_index tree widget k =
      if 0 ≤ k ∧ k < (presented_children tree widget).length then
        (presented_children tree widget).get? k.toNat
      else none := by
    intro k
    have := get_child_at_index_loop_eq tree k (tree.children widget) 0 (Int.le_refl 0)
      (by omega)
    simpa [handle_accessible_method_get_child_at_index, presented_children] using this
  have hin : ∀ k : Int, 0 ≤ k → k < (presented_children tree widget).length →
      ∃ c, (presented_children tree widget).get? k.toNat = some c ∧
        handle_accessible_method_get_child_at_index tree widget k = some c := by
    intro k h0 h1
    have hlt : k.toNat < (presented_children tree widget).length := by omega
    refine ⟨(presented_children tree widget).get ⟨k.toNat, hlt⟩, List.get?_eq_get hlt, ?_⟩
    rw [hget k, if_pos ⟨h0, h1⟩, List.get?_eq_get hlt]
  refine ⟨hcount, ?_, ?_, ?_⟩
  · rw [hcount, hget idx]
    constructor
    · intro h
      by_contra hn
      have h0 : 0 ≤ idx := by omega
      have h1 : idx < (presented_children tree widget).length := by omega
      obtain ⟨c, _, hc⟩ := hin idx h0 h1
      rw [hget idx] at hc
      rw [h] at hc
      cases hc
    · intro h
      have : ¬ (0 ≤ idx ∧ idx < (presented_children tree widget).length) := by omega
      rw [if_neg this]
  · intro h0 h1
    rw [hcount] at h1
    exact hin idx h0 h1
  · intro c hpar hmem hpres
    have hidx : get_index_in_parent tree c =
        ((presented_children tree widget).indexOf c : Nat) := by
      have := get_index_in_parent_loop_eq tree c (tree.children widget) 0 (Int.le_refl 0)
        (by omega) hmem hpres
      simpa [get_index_in_parent, hpar, presented_children] using this
    have hmemp : c ∈ presented_children tree widget :=
      List.mem_filter.mpr ⟨hmem, hpres⟩
    have hlt : (presented_children tree widget).indexOf c <
        (presented_children tree widget).length := List.indexOf_lt_length.mpr hmemp
    rw [hidx, hcount]
    refine ⟨by omega, by omega, ?_⟩
    rw [hget, if_pos ⟨by omega, by omega⟩]
    simp only [Int.toNat_ofNat]
    rw [List.get?_eq_get hlt]
    simp
/-- C28, at the example tree: widget 0 has the children 1, 2, 3, 4, of which 2 is not
presented; index 1 is child 3, and child 3 has index 1. -/
theorem child_index_consistent_witness :
    ((example_tree.children 0).length : Int) ≤ G_MAXINT ∧
    handle_accessible_method_get_child_at_index example_tree 0 1 = some 3 ∧
    get_index_in_parent example_tree 3 = 1 ∧
    (handle_accessible_get_property_child_count example_tree 0 =
      (presented_children example_tree 0).length ∧
    (handle_accessible_method_get_child_at_index example_tree 0 1 = none ↔
      (1 : Int) < 0 ∨ (1 : Int) ≥ handle_accessible_get_property_child_count example_tree 0) ∧
    ((0 : Int) ≤ 1 → (1 : Int) < handle_accessible_get_property_child_count example_tree 0 →
      ∃ c, (presented_children example_tree 0).get? (1 : Int).toNat = some c ∧
        handle_accessible_method_get_child_at_index example_tree 0 1 = some c) ∧
    (∀ c, example_tree.parent c = some 0 → c ∈ example_tree.children 0 →
      example_tree.should_present c = true →
      0 ≤ get_index_in_parent example_tree c ∧
      get_index_in_parent example_tree c <
        handle_accessible_get_property_child_count example_tree 0 ∧
      handle_accessible_method_get_child_at_index example_tree 0
          (get_index_in_parent example_tree c) = some c)) :=
  ⟨by decide, by decide, by decide, child_index_consistent example_tree 0 1 (by decide)⟩

theorem testBit_set_atspi_state (s : Nat) (k : AtspiStateType) (j : Nat) (hj : j < 64) :
    (set_atspi_state s k).testBit j = (s.testBit j || decide (k.toNat = j)) := by
  unfold set_atspi_state
  simp only [Nat.testBit_mod_two_pow, Nat.testBit_or, Nat.one_shiftLeft, Nat.testBit_two_pow,
    hj, decide_True, Bool.true_and]

theorem testBit_unset_atspi_state (s : Nat) (k : AtspiStateType) (j : Nat) (hj : j < 64) :
    (unset_atspi_state s k).testBit j = (s.testBit j && !decide (k.toNat = j)) := by
  unfold unset_atspi_state
  simp only [Nat.testBit_mod_two_pow, Nat.testBit_and, Nat.testBit_xor, Nat.one_shiftLeft,
    Nat.testBit_two_pow, Nat.testBit_two_pow_sub_one, hj, decide_True, Bool.true_and,
    Bool.true_xor]

theorem testBit_set_of_ne (s : Nat) (k : AtspiStateType) (j : Nat) (hj : j < 64)
    (hne : k.toNat ≠ j) : (set_atspi_state s k).testBit j = s.testBit j := by
  rw [testBit_set_atspi_state s k j hj]
  simp [hne]

theorem testBit_editable (ctx : GtkATContext) (s j : Nat) (hj : j < 64) :
    (collect_states_editable ctx s).testBit j =
      (s.testBit j ||
        (decide (ctx.accessible_role = .TEXT_BOX ∨ ctx.accessible_role = .SEARCH_BOX ∨
          ctx.accessible_role = .SPIN_BUTTON) && decide (7 = j))) := by
  unfold collect_states_editable
  split <;> rename_i h
  · rw [testBit_set_atspi_state s _ j hj]; simp [h, AtspiStateType.toNat]
  · simp [h]

theorem testBit_read_only (ctx : GtkATContext) (s j : Nat) (hj : j < 64) :
    (collect_states_read_only ctx s).testBit j =
      ((s.testBit j ||
        ((ctx.has_accessible_property .READ_ONLY &&
          gtk_boolean_accessible_value_get (ctx.get_accessible_property .READ_ONLY)) &&
          decide (43 = j))) &&
        !((ctx.has_accessible_property .READ_ONLY &&
          gtk_boolean_accessible_value_get (ctx.get_accessible_property .READ_ONLY)) &&
          decide (7 = j))) := by
  unfold collect_states_read_only
  cases h1 : ctx.has_accessible_property .READ_ONLY <;>
    cases h2 : gtk_boolean_accessible_value_get (ctx.get_accessible_property .READ_ONLY) <;>
    simp [testBit_unset_atspi_state _ _ j hj, testBit_set_atspi_state _ _ j hj,
      AtspiStateType.toNat]

theorem testBit_disabled (ctx : GtkATContext) (s j : Nat) (hj : j < 64) :
    (collect_states_disabled ctx s).testBit j =
      (s.testBit j ||
        ((!ctx.has_accessible_state .DISABLED ||
          !gtk_boolean_accessible_value_get (ctx.get_accessible_state .DISABLED)) &&
          decide (24 = j))) := by
  unfold collect_states_disabled
  cases h1 : ctx.has_accessible_state .DISABLED <;>
    cases h2 : gtk_boolean_accessible_value_get (ctx.get_accessible_state .DISABLED) <;>
    simp [testBit_set_atspi_state _ _ j hj, AtspiStateType.toNat]

theorem testBit_expanded (ctx : GtkATContext) (s j : Nat) (hj : j < 64) :
    (collect_states_expanded ctx s).testBit j =
      (s.testBit j ||
        ((ctx.has_accessible_state .EXPANDED &&
          decide ((ctx.get_accessible_state .EXPANDED).value_class_type = .BOOLEAN)) &&
          (decide (9 = j) ||
            (gtk_boolean_accessible_value_get (ctx.get_accessible_state .EXPANDED) &&
              decide (10 = j))))) := by
  unfold collect_states_expanded
  cases h1 : ctx.has_accessible_state .EXPANDED <;>
    cases h2 : gtk_boolean_accessible_value_get (ctx.get_accessible_state .EXPANDED) <;>
    by_cases h3 : (ctx.get_accessible_state .EXPANDED).value_class_type = .BOOLEAN <;>
    simp [testBit_set_atspi_state _ _ j hj, AtspiStateType.toNat, h3, Bool.or_assoc]

theorem testBit_selected (ctx : GtkATContext) (s j : Nat) (hj : j < 64) :
    (collect_states_selected ctx s).testBit j =
      (s.testBit j ||
        ((ctx.has_accessible_state .SELECTED &&
          decide ((ctx.get_accessible_state .SELECTED).value_class_type = .BOOLEAN)) &&
          (decide (22 = j) ||
            (gtk_boolean_accessible_value_get (ctx.get_accessible_state .SELECTED) &&
              decide (23 = j))))) := by
  unfold collect_states_selected
  cases h1 : ctx.has_accessible_state .SELECTED <;>
    cases h2 : gtk_boolean_accessible_value_get (ctx.get_accessible_state .SELECTED) <;>
    by_cases h3 : (ctx.get_accessible_state .SELECTED).value_class_type = .BOOLEAN <;>
    simp [testBit_set_atspi_state _ _ j hj, AtspiStateType.toNat, h3, Bool.or_assoc]

theorem testBit_focus (ctx : GtkATContext) (s j : Nat) (hj : j < 64) (h1 : 11 ≠ j)
    (h2 : 12 ≠ j) : (collect_states_focus ctx s).testBit j = s.testBit j := by
  unfold collect_states_focus
  simp only []
  split <;> split <;>
    simp [testBit_set_of_ne _ _ j hj, AtspiStateType.toNat, h1, h2]

theorem testBit_orientation (ctx : GtkATContext) (s j : Nat) (hj : j < 64) (h1 : 14 ≠ j)
    (h2 : 29 ≠ j) : (collect_states_orientation ctx s).testBit j = s.testBit j := by
  unfold collect_states_orientation
  split
  · split <;> simp [testBit_set_of_ne _ _ j hj, AtspiStateType.toNat, h1, h2]
  · rfl

theorem testBit_modal (ctx : GtkATContext) (s j : Nat) (hj : j < 64) (h1 : 16 ≠ j) :
    (collect_states_modal ctx s).testBit j = s.testBit j := by
  unfold collect_states_modal
  split
  · split
    · simp [testBit_set_of_ne _ _ j hj, AtspiStateType.toNat, h1]
    · rfl
  · rfl

theorem testBit_multi_line (ctx : GtkATContext) (s j : Nat) (hj : j < 64) (h1 : 17 ≠ j) :
    (collect_states_multi_line ctx s).testBit j = s.testBit j := by
  unfold collect_states_multi_line
  split
  · split
    · simp [testBit_set_of_ne _ _ j hj, AtspiStateType.toNat, h1]
    · rfl
  · rfl

theorem testBit_busy (ctx : GtkATContext) (s j : Nat) (hj : j < 64) (h1 : 3 ≠ j) :
    (collect_states_busy ctx s).testBit j = s.testBit j := by
  unfold collect_states_busy
  split
  · split
    · simp [testBit_set_of_ne _ _ j hj, AtspiStateType.toNat, h1]
    · rfl
  · rfl

theorem testBit_checked (ctx : GtkATContext) (s j : Nat) (hj : j < 64) (h1 : 4 ≠ j)
    (h2 : 32 ≠ j) : (collect_states_checked ctx s).testBit j = s.testBit j := by
  unfold collect_states_checked
  split
  · split <;> simp [testBit_set_of_ne _ _ j hj, AtspiStateType.toNat, h1, h2]
  · rfl

theorem testBit_invalid (ctx : GtkATContext) (s j : Nat) (hj : j < 64) (h1 : 0 ≠ j) :
    (collect_states_invalid ctx s).testBit j = s.testBit j := by
  unfold collect_states_invalid
  split
  · split <;> simp [testBit_set_of_ne _ _ j hj, AtspiStateType.toNat, h1]
  · rfl

theorem testBit_pressed (ctx : GtkATContext) (s j : Nat) (hj : j < 64) (h1 : 20 ≠ j)
    (h2 : 32 ≠ j) : (collect_states_pressed ctx s).testBit j = s.testBit j := by
  unfold collect_states_pressed
  split
  · split <;> simp [testBit_set_of_ne _ _ j hj, AtspiStateType.toNat, h1, h2]
  · rfl

theorem testBit_collect_states_word (ctx : GtkATContext) (j : Nat) (hj : j < 64)
    (hfree : j ∉ [0, 3, 4, 11, 12, 14, 16, 17, 20, 29, 32]) :
    (collect_states_word ctx).testBit j =
      (((((decide (30 = j) ||
        (decide (ctx.accessible_role = .TEXT_BOX ∨ ctx.accessible_role = .SEARCH_BOX ∨
          ctx.accessible_role = .SPIN_BUTTON) && decide (7 = j))) ||
        ((ctx.has_accessible_property .READ_ONLY &&
          gtk_boolean_accessible_value_get (ctx.get_accessible_property .READ_ONLY)) &&
          decide (43 = j))) &&
        !((ctx.has_accessible_property .READ_ONLY &&
          gtk_boolean_accessible_value_get (ctx.get_accessible_property .READ_ONLY)) &&
          decide (7 = j))) ||
        ((!ctx.has_accessible_state .DISABLED ||
          !gtk_boolean_accessible_value_get (ctx.get_accessible_state .DISABLED)) &&
          decide (24 = j))) ||
        ((ctx.has_accessible_state .EXPANDED &&
          decide ((ctx.get_accessible_state .EXPANDED).value_class_type = .BOOLEAN)) &&
          (decide (9 = j) ||
            (gtk_boolean_accessible_value_get (ctx.get_accessible_state .EXPANDED) &&
              decide (10 = j)))) ||
        ((ctx.has_accessible_state .SELECTED &&
          decide ((ctx.get_accessible_state .SELECTED).value_class_type = .BOOLEAN)) &&
          (decide (22 = j) ||
            (gtk_boolean_accessible_value_get (ctx.get_accessible_state .SELECTED) &&
              decide (23 = j))))) := by
  simp only [List.mem_cons, List.mem_singleton, List.not_mem_nil, or_false, not_or] at hfree
  obtain ⟨h0, h3, h4, h11, h12, h14, h16, h17, h20, h29, h32⟩ := hfree
  unfold collect_states_word
  simp only []
  rw [testBit_selected ctx _ j hj, testBit_pressed ctx _ j hj (Ne.symm h20) (Ne.symm h32),
    testBit_invalid ctx _ j hj (Ne.symm h0), testBit_expanded ctx _ j hj,
    testBit_disabled ctx _ j hj, testBit_checked ctx _ j hj (Ne.symm h4) (Ne.symm h32),
    testBit_busy ctx _ j hj (Ne.symm h3), testBit_multi_line ctx _ j hj (Ne.symm h17),
    testBit_modal ctx _ j hj (Ne.symm h16),
    testBit_orientation ctx _ j hj (Ne.symm h14) (Ne.symm h29),
    testBit_focus ctx _ j hj (Ne.symm h11) (Ne.symm h12), testBit_read_only ctx _ j hj,
    testBit_editable ctx _ j hj, testBit_set_atspi_state 0 _ j hj]
  simp [AtspiStateType.toNat]

theorem state_set_has_collect_states (ctx : GtkATContext) (state : AtspiStateType) :
    state_set_has (collect_states ctx []) state =
      (collect_states_word ctx).testBit state.toNat := by
  have hlt : state.toNat < 64 := by cases state <;> decide
  have e : (0xffffffff : Nat) = 2 ^ 32 - 1 := by norm_num
  unfold state_set_has collect_states
  by_cases h : state.toNat < 32
  · simp only [h, if_true, List.nil_append, List.getD_cons_zero, e, Nat.testBit_mod_two_pow,
      Nat.testBit_and, Nat.testBit_two_pow_sub_one, decide_True, Bool.true_and, Bool.and_true]
  · have h2 : state.toNat - 32 < 32 := by omega
    have h3 : 32 + (state.toNat - 32) = state.toNat := by omega
    simp only [h, if_false, List.nil_append, List.getD_cons_succ, List.getD_cons_zero,
      Nat.testBit_mod_two_pow, Nat.testBit_shiftRight, h2, decide_True, Bool.true_and, h3]

/-- C29: in the state set `collect_states` adds to the builder, for every role and for
every answer of the property, state and platform-state queries: VISIBLE is set;
READ_ONLY and EDITABLE are not both set; EXPANDED implies EXPANDABLE; SELECTED implies
SELECTABLE; and SENSITIVE is set exactly when the context has no DISABLED state or the
value of its DISABLED state is false. -/
theorem collect_states_state_set (ctx : GtkATContext) :
    state_set_has (collect_states ctx []) .VISIBLE = true ∧
    ¬ (state_set_has (collect_states ctx []) .READ_ONLY = true ∧
      state_set_has (collect_states ctx []) .EDITABLE = true) ∧
    (state_set_has (collect_states ctx []) .EXPANDED = true →
      state_set_has (collect_states ctx []) .EXPANDABLE = true) ∧
    (state_set_has (collect_states ctx []) .SELECTED = true →
      state_set_has (collect_states ctx []) .SELECTABLE = true) ∧
    (state_set_has (collect_states ctx []) .SENSITIVE = true ↔
      (ctx.has_accessible_state .DISABLED = false ∨
        gtk_boolean_accessible_value_get (ctx.get_accessible_state .DISABLED) = false)) := by
  simp only [state_set_has_collect_states]
  have hV := testBit_collect_states_word ctx 30 (by decide) (by decide)
  have hR := testBit_collect_states_word ctx 43 (by decide) (by decide)
  have hE := testBit_collect_states_word ctx 7 (by decide) (by decide)
  have hX := testBit_collect_states_word ctx 10 (by decide) (by decide)
  have hXa := testBit_collect_states_word ctx 9 (by decide) (by decide)
  have hS := testBit_collect_states_word ctx 23 (by decide) (by decide)
  have hSa := testBit_collect_states_word ctx 22 (by decide) (by decide)
  have hN := testBit_collect_states_word ctx 24 (by decide) (by decide)
  simp only [AtspiStateType.toNat]
  rw [hV, hR, hE, hX, hXa, hS, hSa, hN]
  simp only [Nat.reduceEqDiff, decide_False, decide_True, Bool.and_false, Bool.or_false,
    Bool.and_true, Bool.false_or, Bool.not_false, Bool.true_or, Bool.or_true, Bool.false_and]
  refine ⟨trivial, ?_, ?_, ?_, ?_⟩
  · cases ctx.has_accessible_property .READ_ONLY <;>
      cases gtk_boolean_accessible_value_get (ctx.get_accessible_property .READ_ONLY) <;>
      simp
  · simp only [Bool.and_eq_true]
    intro h
    exact ⟨h.1.1, h.1.2⟩
  · simp only [Bool.and_eq_true]
    intro h
    exact ⟨h.1.1, h.1.2⟩
  · simp
/-- C29, at a text box that is read-only, disabled and expanded: the words added are
VISIBLE, EXPANDABLE, EXPANDED and READ_ONLY; EDITABLE and SENSITIVE are not set. -/
theorem collect_states_state_set_witness :
    collect_states example_context [] = [1073743360, 2048] ∧
    state_set_has (collect_states example_context []) .EDITABLE = false ∧
    (state_set_has (collect_states example_context []) .VISIBLE = true ∧
    ¬ (state_set_has (collect_states example_context []) .READ_ONLY = true ∧
      state_set_has (collect_states example_context []) .EDITABLE = true) ∧
    (state_set_has (collect_states example_context []) .EXPANDED = true →
      state_set_has (collect_states example_context []) .EXPANDABLE = true) ∧
    (state_set_has (collect_states example_context []) .SELECTED = true →
      state_set_has (collect_states example_context []) .SELECTABLE = true) ∧
    (state_set_has (collect_states example_context []) .SENSITIVE = true ↔
      (example_context.has_accessible_state .DISABLED = false ∨
        gtk_boolean_accessible_value_get (example_context.get_accessible_state .DISABLED) =
          false))) :=
  ⟨by decide, by decide, collect_states_state_set example_context⟩

theorem registered_more_refl (self : GtkAtSpiContext) : registered_more self self 0 :=
  ⟨rfl, rfl, ⟨[], rfl, by simp, by simp⟩, rfl, rfl⟩

theorem register_interface_more (self self' : GtkAtSpiContext)
    (interfaces : List AtspiInterface) (interface_info : AtspiInterface) (k : Nat)
    (h : registered_more self self' k)
    (hk : self.n_registered_objects + k < self.registration_ids.length)
    (hlen : self.registration_ids.length < 2 ^ 32) :
    ∃ self'', register_interface (some (self', interfaces)) interface_info =
        some (self'', interfaces ++ [interface_info]) ∧
      registered_more self self'' (k + 1) := by
  obtain ⟨hn, hl, ⟨new, hnew, hreg, htake⟩, hdrop, hun⟩ := h
  have hlt : self'.n_registered_objects < self'.registration_ids.length := by
    rw [hn, hl]; exact hk
  have hstep : register_interface (some (self', interfaces)) interface_info =
      some ({ self' with
          connection := (g_dbus_connection_register_object self'.connection interface_info).1
          registration_ids := self'.registration_ids.set self'.n_registered_objects
            (g_dbus_connection_register_object self'.connection interface_info).2
          n_registered_objects := (self'.n_registered_objects + 1) % 2 ^ 32 },
        interfaces ++ [interface_info]) := by
    simp only [register_interface, hlt, if_true]
  refine ⟨_, hstep, ?_, ?_, ?_, ?_, ?_⟩
  · show (self'.n_registered_objects + 1) % 2 ^ 32 = _
    rw [hn, Nat.mod_eq_of_lt (by omega)]
    omega
  · show (self'.registration_ids.set _ _).length = _
    rw [List.length_set, hl]
  · refine ⟨new ++ [(interface_info,
      self'.connection.register_result self'.connection.registered.length % 2 ^ 32)],
      by simp [hnew], ?_, ?_⟩
    · show self'.connection.registered ++ _ = _
      rw [hreg, List.append_assoc]
    · show (self'.registration_ids.set _ _).take _ = _
      have hlt' : self.n_registered_objects + k < self'.registration_ids.length := by
        rw [hl]; exact hk
      rw [hn, ← Nat.add_assoc, List.take_succ, List.getElem?_set_self hlt']
      have e : List.take (self.n_registered_objects + k)
          (self'.registration_ids.set (self.n_registered_objects + k)
            (g_dbus_connection_register_object self'.connection interface_info).2) =
          List.take (self.n_registered_objects + k) self'.registration_ids := by
        rw [List.set_eq_take_append_cons_drop, if_pos hlt']
        rw [List.take_append_of_le_length (by simp; omega)]
        simp
      rw [e, htake]
      simp [g_dbus_connection_register_object]
  · show (self'.registration_ids.set _ _).drop _ = _
    rw [hn, ← Nat.add_assoc, List.drop_set_of_lt _ _ (by omega)]
    have e1 : ∀ l : List Nat, List.drop (self.n_registered_objects + k + 1) l =
        List.drop 1 (List.drop (self.n_registered_objects + k) l) := by
      intro l
      simp [List.drop_drop, Nat.add_comm]
    rw [e1, e1, hdrop]
  · exact hun

theorem register_interface_always (self : GtkAtSpiContext)
    (st : Option (GtkAtSpiContext × List AtspiInterface)) (interface_info : AtspiInterface)
    (lo hi : Nat) (hlen : self.registration_ids.length = 20)
    (h0 : self.n_registered_objects = 0) (hhi : hi < 20)
    (h : ∃ self' b k, st = some (self', b) ∧ registered_more self self' k ∧ lo ≤ k ∧ k ≤ hi) :
    ∃ self' b k, register_interface st interface_info = some (self', b) ∧
      registered_more self self' k ∧ lo + 1 ≤ k ∧ k ≤ hi + 1 := by
  obtain ⟨self', b, k, hst, hm, hlo, hk⟩ := h
  obtain ⟨self'', hr, hm'⟩ := register_interface_more self self' b interface_info k hm
    (by rw [h0, hlen]; omega) (by rw [hlen]; norm_num)
  exact ⟨self'', _, k + 1, by rw [hst, hr], hm', by omega, by omega⟩

theorem register_interface_if (self : GtkAtSpiContext)
    (st : Option (GtkAtSpiContext × List AtspiInterface)) (interface_info : AtspiInterface)
    (c : Bool) (lo hi : Nat) (hlen : self.registration_ids.length = 20)
    (h0 : self.n_registered_objects = 0) (hhi : hi < 20)
    (h : ∃ self' b k, st = some (self', b) ∧ registered_more self self' k ∧ lo ≤ k ∧ k ≤ hi) :
    ∃ self' b k, (if c = true then register_interface st interface_info else st) =
        some (self', b) ∧
      registered_more self self' k ∧ lo ≤ k ∧ k ≤ hi + 1 := by
  cases c with
  | true =>
    obtain ⟨self', b, k, hr, hm, _, hk⟩ :=
      register_interface_always self st interface_info lo hi hlen h0 hhi h
    exact ⟨self', b, k, by simpa using hr, hm, by omega, hk⟩
  | false =>
    obtain ⟨self', b, k, hst, hm, hlo, hk⟩ := h
    exact ⟨self', b, k, by simpa using hst, hm, hlo, by omega⟩

theorem register_object_more (self : GtkAtSpiContext) (widget : AccessibleWidget)
    (h0 : self.n_registered_objects = 0) (hlen : self.registration_ids.length = 20) :
    ∃ self' k, gtk_at_spi_context_register_object self widget = some self' ∧
      registered_more self self' k ∧ 2 ≤ k ∧ k ≤ 6 := by
  have s0 : ∃ self' b k, (some (self, ([] : List AtspiInterface))) = some (self', b) ∧
      registered_more self self' k ∧ 0 ≤ k ∧ k ≤ 0 :=
    ⟨self, [], 0, rfl, registered_more_refl self, Nat.le_refl _, Nat.le_refl _⟩
  have s1 := register_interface_always self _ .accessible 0 0 hlen h0 (by norm_num) s0
  have s2 := register_interface_always self _ .component _ _ hlen h0 (by norm_num) s1
  have s3 := register_interface_if self _ .text (gtk_atspi_get_text_vtable widget) _ _ hlen h0
    (by norm_num) s2
  have s4 := register_interface_if self _ .editable_text
    (gtk_atspi_get_editable_text_vtable widget) _ _ hlen h0 (by norm_num) s3
  have s5 := register_interface_if self _ .value (gtk_atspi_get_value_vtable widget) _ _ hlen
    h0 (by norm_num) s4
  have s6 := register_interface_if self _ .selection (gtk_atspi_get_selection_vtable widget)
    _ _ hlen h0 (by norm_num) s5
  obtain ⟨self', b, k, hr, hm, hlo, hhi⟩ := s6
  refine ⟨{ self' with interfaces := b }, k, ?_, ?_, hlo, hhi⟩
  · unfold gtk_at_spi_context_register_object
    simp only [gtk_atspi_get_component_vtable, if_true]
    rw [hr]
    rfl
  · exact hm

theorem unregister_object_loop_eq (fuel : Nat) :
    ∀ self : GtkAtSpiContext, self.n_registered_objects = fuel →
      fuel ≤ self.registration_ids.length →
      ∃ self', unregister_object_loop fuel self = some self' ∧
        self'.n_registered_objects = 0 ∧
        self'.connection.unregistered =
          self.connection.unregistered ++ (self.registration_ids.take fuel).reverse ∧
        self'.registration_ids =
          List.replicate fuel 0 ++ self.registration_ids.drop fuel ∧
        self'.connection.registered = self.connection.registered := by
  induction fuel with
  | zero =>
    intro self hn _
    exact ⟨self, by simp [unregister_object_loop, hn], hn, by simp, by simp, rfl⟩
  | succ fuel ih =>
    intro self hn hle
    have hlt : fuel < self.registration_ids.length := by omega
    obtain ⟨self', hr, h1, h2, h3, h4⟩ := ih
      { self with
        n_registered_objects := self.n_registered_objects - 1
        connection := g_dbus_connection_unregister_object self.connection
          (self.registration_ids.getD (self.n_registered_objects - 1) 0)
        registration_ids := self.registration_ids.set (self.n_registered_objects - 1) 0 }
      (by show self.n_registered_objects - 1 = fuel; omega)
      (by show fuel ≤ (self.registration_ids.set _ _).length; rw [List.length_set]; omega)
    refine ⟨self', ?_, h1, ?_, ?_, ?_⟩
    · have hpos : self.n_registered_objects > 0 := by omega
      have hin : self.n_registered_objects - 1 < self.registration_ids.length := by omega
      simp only [unregister_object_loop, hpos, hin, if_true]
      exact hr
    · rw [h2]
      have e : self.n_registered_objects - 1 = fuel := by omega
      simp only [g_dbus_connection_unregister_object, e]
      have t1 : List.take fuel (self.registration_ids.set fuel 0) =
          List.take fuel self.registration_ids := by
        rw [List.set_eq_take_append_cons_drop, if_pos hlt,
          List.take_append_of_le_length (by simp; omega)]
        simp [List.take_take]
      have t2 : (List.take (fuel + 1) self.registration_ids).reverse =
          self.registration_ids[fuel] :: (List.take fuel self.registration_ids).reverse := by
        rw [List.take_succ, List.getElem?_eq_getElem hlt]
        simp
      rw [t1, t2, List.getD_eq_getElem _ _ hlt]
      simp
    · rw [h3]
      have e : self.n_registered_objects - 1 = fuel := by omega
      simp only [e]
      rw [List.set_eq_take_append_cons_drop, if_pos hlt, List.drop_append_of_le_length
        (by simp; omega)]
      simp [List.replicate_succ']
    · rw [h4]; rfl

/-- C30: for a context with `n_registered_objects = 0` and the array of 20
`registration_ids`, and for every widget, `gtk_at_spi_context_register_object` returns
with between 1 and 6 objects registered (at least 2, the component vtable being there
for every widget); the ids the connection answered with are stored, in the order of the
registrations, at the indices 0 to `n_registered_objects - 1`, which are below 20, and
the other entries are as they were.  `gtk_at_spi_context_unregister_object` then returns
with `n_registered_objects = 0`, having passed the stored ids to
`g_dbus_connection_unregister_object` once each, the last registered first, and having
set their entries to 0. -/
theorem register_then_unregister (self : GtkAtSpiContext) (widget : AccessibleWidget)
    (h0 : self.n_registered_objects = 0) (hlen : self.registration_ids.length = 20) :
    ∃ self' ids, gtk_at_spi_context_register_object self widget = some self' ∧
      1 ≤ self'.n_registered_objects ∧ 2 ≤ self'.n_registered_objects ∧
      self'.n_registered_objects ≤ 6 ∧ self'.n_registered_objects < 20 ∧
      ids.length = self'.n_registered_objects ∧
      self'.registration_ids = ids ++ self.registration_ids.drop ids.length ∧
      self'.connection.registered.map Prod.snd =
        self.connection.registered.map Prod.snd ++ ids ∧
      self'.connection.unregistered = self.connection.unregistered ∧
      ∃ self'', gtk_at_spi_context_unregister_object self' = some self'' ∧
        self''.n_registered_objects = 0 ∧
        self''.connection.unregistered = self.connection.unregistered ++ ids.reverse ∧
        self''.registration_ids =
          List.replicate ids.length 0 ++ self.registration_ids.drop ids.length := by
  obtain ⟨self', k, hr, ⟨hn, hl, ⟨new, hnew, hreg, htake⟩, hdrop, hun⟩, hlo, hhi⟩ :=
    register_object_more self widget h0 hlen
  rw [h0, Nat.zero_add] at hn htake hdrop
  simp only [List.take_zero, List.nil_append] at htake
  have hids : self'.registration_ids = new.map Prod.snd ++ self.registration_ids.drop k := by
    rw [← List.take_append_drop k self'.registration_ids, htake, hdrop]
  have hlenids : (new.map Prod.snd).length = k := by simp [hnew]
  obtain ⟨self'', hu, u1, u2, u3, _⟩ := unregister_object_loop_eq k self' hn
    (by rw [hl, hlen]; omega)
  refine ⟨self', new.map Prod.snd, hr, by omega, by omega, by omega, by omega,
    by rw [hlenids, hn], by rw [hlenids]; exact hids, by rw [hreg]; simp, hun, self'', ?_, u1,
    ?_, ?_⟩
  · unfold gtk_at_spi_context_unregister_object
    rw [hn]; exact hu
  · rw [u2, hun, htake]
  · rw [u3, hdrop, hlenids]
/-- C30, at a zero-filled context and a widget with a text and a value vtable: four
objects are registered, with the ids 1 to 4 stored at the indices 0 to 3, and
unregistered in the order 4, 3, 2, 1. -/
theorem register_then_unregister_witness :
    example_at_spi_context.n_registered_objects = 0 ∧
    example_at_spi_context.registration_ids.length = 20 ∧
    (gtk_at_spi_context_register_object example_at_spi_context
        example_accessible_widget).map
      (fun s => (s.n_registered_objects, s.registration_ids.take 5)) =
      some (4, [1, 2, 3, 4, 0]) ∧
    ((gtk_at_spi_context_register_object example_at_spi_context
        example_accessible_widget).bind gtk_at_spi_context_unregister_object).map
      (fun s => (s.n_registered_objects, s.connection.unregistered, s.registration_ids)) =
      some (0, [4, 3, 2, 1], List.replicate 20 0) ∧
    (∃ self' ids, gtk_at_spi_context_register_object example_at_spi_context
        example_accessible_widget = some self' ∧
      1 ≤ self'.n_registered_objects ∧ 2 ≤ self'.n_registered_objects ∧
      self'.n_registered_objects ≤ 6 ∧ self'.n_registered_objects < 20 ∧
      ids.length = self'.n_registered_objects ∧
      self'.registration_ids = ids ++ example_at_spi_context.registration_ids.drop ids.length ∧
      self'.connection.registered.map Prod.snd =
        example_at_spi_context.connection.registered.map Prod.snd ++ ids ∧
      self'.connection.unregistered = example_at_spi_context.connection.unregistered ∧
      ∃ self'', gtk_at_spi_context_unregister_object self' = some self'' ∧
        self''.n_registered_objects = 0 ∧
        self''.connection.unregistered =
          example_at_spi_context.connection.unregistered ++ ids.reverse ∧
        self''.registration_ids =
          List.replicate ids.length 0 ++
            example_at_spi_context.registration_ids.drop ids.length) :=
  ⟨rfl, by decide, by decide, by decide,
    register_then_unregister example_at_spi_context example_accessible_widget rfl
      (by decide)⟩

/-- The function `gtk_constraint_guide_get_attribute` on a guide without layout: the
binder is called with the `NULL` layout and the `NULL` widget.  On the fresh guide it
finds nothing cached and, having no solver, answers `NULL` and caches nothing; on the
guide of `stale_state`, which still caches its Width variable, it answers that
variable. -/
theorem get_attribute_without_layout :
    (gtk_constraint_guide_get_attribute empty_world gtk_constraint_guide_new .WIDTH).1.log =
      [Call.get_attribute none .WIDTH "guide" none] ∧
    (gtk_constraint_guide_get_attribute empty_world gtk_constraint_guide_new .WIDTH).2.2 =
      none ∧
    (gtk_constraint_guide_get_attribute empty_world
      gtk_constraint_guide_new .WIDTH).2.1.bound_attributes = [] ∧
    stale_state.2.layout = none ∧
    (gtk_constraint_guide_get_attribute stale_state.1 stale_state.2 .WIDTH).2.2 =
      some ⟨0, "guide", .WIDTH⟩ ∧
    (gtk_constraint_guide_get_attribute stale_state.1 stale_state.2 .WIDTH).1.log =
      stale_state.1.log ++ [Call.get_attribute none .WIDTH "guide" none] ∧
    (gtk_constraint_guide_get_attribute stale_state.1
      stale_state.2 .WIDTH).2.1.bound_attributes = stale_state.2.bound_attributes := by
  decide

end Gtk
